import Mathlib

/-!
# DECX sliding-window convolution: dispatchers, bucket engines, pipeline drivers

A shallow embedding of

* `srcs/convolution/CUDA/slide_window/fp32/dev_conv2_border_ignored_SK_fp32.h`
  (border-ignored, device-resident stack, single kernel), and
* `srcs/convolution/CUDA/slide_window/fp32/conv2_border_const_MK_fp32.h`
  (border-constant, host-resident stack).

Device work is asynchronous, so a run of an engine is embedded as the list of
operations it enqueues (`Op`), in program order, together with the host-side
state it leaves behind (destination container, status handle, buffer flags).

Integers.  Container fields are `uint` in the source and are held as `Nat`;
the one unsigned subtraction of the sources (the border-ignored destination
dims) wraps modulo `2 ^ 32` (`usub`).  `int` locals are `Int`; the conversion
of a destination dim to `int` for `decx::utils::ceil<int>` is `int_cast`.
Counters that only grow (`offset_lin`, `offset_ker`, loop indices) are held
unbounded.  Byte counts are kept as the source writes them
(`sizeof(float) = 4`, `sizeof(float4) = 16`).
-/

namespace decx

/-! ## Constants and small helpers -/

/-- Modelled from the spec: `bounded_kernel_R8` is a constant of
`Conv3_macros.h`, which is not among the sources; the spec fixes the small
radius limit `R_s` at 8 elements. -/
def bounded_kernel_R8 : Nat := 8

/-- Modelled from the spec: `bounded_kernel_R16` is a constant of
`Conv3_macros.h`, which is not among the sources; the spec fixes the large
radius limit `R_l` at 16 elements. -/
def bounded_kernel_R16 : Nat := 16

/-- Size of a `float` in bytes. -/
def sizeof_float : Nat := 4

/-- Size of a `float4` in bytes. -/
def sizeof_float4 : Nat := 16

/-- Number of values of a 32-bit `unsigned int`. -/
def UINT_RANGE : Nat := 4294967296

/-- Unsigned 32-bit subtraction: `a - b` as C++ evaluates it when one operand
is `unsigned int` (the other is converted to `unsigned int` first), i.e. the
difference reduced modulo `2 ^ 32`. -/
def usub (a b : Int) : Nat := ((a - b) % (UINT_RANGE : Int)).toNat

/-- Conversion of a 32-bit `unsigned int` to `int` (two's complement). -/
def int_cast (u : Nat) : Int :=
  if u % UINT_RANGE < 2147483648 then ((u % UINT_RANGE : Nat) : Int)
  else ((u % UINT_RANGE : Nat) : Int) - 4294967296

/-- Modelled from the spec: `decx::utils::ceil<int>` lives in `core/basic.h`,
which is not among the sources; the spec uses it to round a dimension up to
a multiple of the compute tile, i.e. as ceiling division. -/
def utils.ceil (a b : Int) : Int := (a + b - 1) / b

/-- An `int2`: a pair of `int`s. -/
structure int2 where
  x : Int
  y : Int
deriving DecidableEq, Repr

/-- A `uint3`. -/
structure uint3 where
  x : Nat
  y : Nat
  z : Nat
deriving DecidableEq, Repr

/-- The CUDA helper `make_uint3` on three `unsigned int` values. -/
def make_uint3 (x y z : Nat) : uint3 := ⟨x, y, z⟩

/-- Storage tag of a host container (`decx::DATA_STORE_TYPE`). -/
inductive DATA_STORE_TYPE
  | Page_Default
  | Page_Locked
deriving DecidableEq, Repr

/-- A `uint4` whose last component carries the storage tag passed by the
border-constant dispatcher. -/
structure uint4 where
  x : Nat
  y : Nat
  z : Nat
  w : DATA_STORE_TYPE
deriving DecidableEq, Repr

/-- The CUDA helper `make_uint4` on three `unsigned int` values and a storage
tag. -/
def make_uint4 (x y z : Nat) (w : DATA_STORE_TYPE) : uint4 := ⟨x, y, z, w⟩

/-! ## Containers and the status handle -/

/-- What the engine reads of a matrix stack (`_MatrixArray<float>` on the
host, `_GPU_MatrixArray<float>` on the device): logical width and height,
row pitch in elements, and the number of matrices.  The element data is
referred to by the operations through `Ptr`. -/
structure MatrixArray where
  width : Nat
  height : Nat
  pitch : Nat
  ArrayNumber : Nat
deriving DecidableEq, Repr

/-- What the engine reads of a single kernel matrix (`_GPU_Matrix<float>`). -/
structure Matrix where
  width : Nat
  height : Nat
  pitch : Nat
deriving DecidableEq, Repr

/-- Outcomes a status handle can hold (the spec's status/result object). -/
inductive Status
  | Success
  | NotInitialized
  | DimensionMismatch
  | AllocationFailure
deriving DecidableEq, Repr

/-- The status handle `de::DH`; `none` is a handle nobody has written. -/
structure DH where
  status : Option Status
deriving DecidableEq, Repr

/-- Modelled from the spec: `decx::Success` is declared in `core/basic.h`,
which is not among the sources; it marks the handle as `Success`. -/
def Success (_handle : DH) : DH := ⟨some Status.Success⟩

/-- Modelled from the spec: `decx::_dev_conv2_dst_rearrangement` lives in
`Conv_utils.h`, which is not among the sources; it is the `SIZE_DST` step of
the border-ignored dispatcher and sizes the destination stack to the
requested width, height and matrix count.  The row pitch of the resized
stack is chosen by the container class (`row_pitch`). -/
def _dev_conv2_dst_rearrangement (row_pitch : Nat → Nat) (_dst : MatrixArray)
    (dst_dim : uint3) : MatrixArray :=
  { width := dst_dim.x, height := dst_dim.y, pitch := row_pitch dst_dim.x,
    ArrayNumber := dst_dim.z }

/-- Modelled from the spec: `decx::conv2_mc_dst_rearrangement` is not among
the sources; it is the `SIZE_DST` step of the border-constant dispatcher and
sizes the destination stack to the requested width, height and matrix count
(the fourth component is the storage tag of the host allocation). -/
def conv2_mc_dst_rearrangement (row_pitch : Nat → Nat) (_dst : MatrixArray)
    (dst_dim : uint4) : MatrixArray :=
  { width := dst_dim.x, height := dst_dim.y, pitch := row_pitch dst_dim.x,
    ArrayNumber := dst_dim.z }

/-! ## Operations enqueued by the engines -/

/-- Addresses the engines pass to the copy and launch calls.  Device
addresses are offsets, in `float`s, from the start of the single device
allocation of the invocation. -/
inductive Ptr
  /-- Element `src->MatptrArr.ptr[i]` of the source stack. -/
  | src_mat (i : Nat)
  /-- Element `dst->MatptrArr.ptr[i]` of the destination stack. -/
  | dst_mat (i : Nat)
  /-- Kernel storage: `kernel->Mat.ptr + off` (border-ignored) or
  `kernel->MatptrArr.ptr[0] + off` (border-constant). -/
  | kernel (off : Nat)
  /-- Device buffer: `reinterpret_cast<float*>(buffer) + off`. -/
  | dev (off : Int)
deriving DecidableEq, Repr

/-- Direction of a copy (`cudaMemcpyKind`). -/
inductive cudaMemcpyKind
  | HostToDevice
  | DeviceToHost
  | DeviceToDevice
deriving DecidableEq, Repr

/-- Streams: the stream `S` an engine creates for itself (border-ignored), or
entry `i` of the array `S[3]` taken from the stream pool (border-constant). -/
inductive StreamRef
  | S
  | pool (i : Nat)
deriving DecidableEq, Repr

/-- The stencil kernels, one per radius bucket and exact/within flag; the
`_offset` variants of the border-constant engines carry an offset into the
constant cache. -/
inductive Stencil
  | within8x8 | exact8x8 | within8x16 | exact8x16
  | within16x8 | exact16x8 | within16x16 | exact16x16
deriving DecidableEq, Repr

/-- Arguments of one stencil launch, as written at the call site. -/
structure Launch where
  kernel : Stencil
  Dsrc : Ptr
  Ddst : Ptr
  src_diff : Option int2
  Dsrc_alloc_dim : int2
  Ddst_alloc_dim : int2
  ker_dim : int2
  const_offset : Option Nat
  stream : StreamRef
deriving DecidableEq, Repr

/-- Messages of `Print_Error_Message`. -/
inductive ErrMsg
  | ALLOC_FAIL
  | NOT_INIT
deriving DecidableEq, Repr

/-- One operation issued by an engine, in program order. -/
inductive Op
  /-- Call `decx::alloc::_device_malloc(&dev_buffer, bytes)`. -/
  | _device_malloc (bytes : Int)
  /-- Call `cudaMalloc(&Dmem1.mem, bytes)`. -/
  | cudaMalloc (bytes : Int)
  /-- Call `Print_Error_Message(level, msg)`. -/
  | Print_Error_Message (level : Nat) (msg : ErrMsg)
  /-- Call `cudaStreamCreate(&S)`. -/
  | cudaStreamCreate
  /-- Assignment `S[i] = decx::CStream.stream_accessor_ptr(cudaStreamNonBlocking)`. -/
  | stream_accessor_ptr (i : Nat)
  /-- Call `cudaMemcpyToSymbolAsync(Const_Mem, src, count, offset, kind, stream)`,
  `count` and `offset` in bytes. -/
  | cudaMemcpyToSymbolAsync (src : Ptr) (count offset : Nat) (kind : cudaMemcpyKind)
      (stream : StreamRef)
  /-- Call `cudaMemcpy2DAsync(dst, dpitch, src, spitch, width, height, kind,
  stream)`, pitches and width in bytes. -/
  | cudaMemcpy2DAsync (dst : Ptr) (dpitch : Int) (src : Ptr) (spitch width height : Int)
      (kind : cudaMemcpyKind) (stream : StreamRef)
  /-- A stencil kernel launch. -/
  | launch (l : Launch)
  /-- Call `decx::alloc::_device_dealloc(&dev_buffer)`. -/
  | _device_dealloc
  /-- Call `cudaFree(Dmem1.mem)`. -/
  | cudaFree
  /-- Call `cudaDeviceSynchronize()`. -/
  | cudaDeviceSynchronize
  /-- Call `cudaStreamDestroy(S)`. -/
  | cudaStreamDestroy
  /-- Call `S[i]->detach()`. -/
  | detach (i : Nat)
deriving DecidableEq, Repr

/-- The loop `for (i = 0; i < n; ++i) body(i)`, as the operations it issues. -/
def for_loop : Nat → (Nat → List Op) → List Op
  | 0, _ => []
  | n + 1, body => for_loop n body ++ body n

/-! ## Border-ignored pipeline drivers (`dev_main_loop_sconv2_sk_*_NB`) -/

/-- The staging copy of the `within` drivers: source element `i` goes to
`reinterpret_cast<float*>(Dsrc) + src_diff.x * Dsrc_alloc_dim->x * 4 + src_diff.y`. -/
def stage_within (Dsrc_alloc_dim src_diff : int2) (src : MatrixArray) (Dsrc : Int) (i : Nat) :
    Op :=
  Op.cudaMemcpy2DAsync
    (Ptr.dev (Dsrc + src_diff.x * Dsrc_alloc_dim.x * 4 + src_diff.y))
    (Dsrc_alloc_dim.x * sizeof_float4)
    (Ptr.src_mat i)
    (src.pitch * sizeof_float)
    (src.width * sizeof_float)
    src.height
    cudaMemcpyKind.DeviceToDevice
    StreamRef.S

/-- The staging copy of the `exact` drivers: source element `i` goes to
`Dsrc`. -/
def stage_exact (Dsrc_alloc_dim : int2) (src : MatrixArray) (Dsrc : Int) (i : Nat) : Op :=
  Op.cudaMemcpy2DAsync
    (Ptr.dev Dsrc)
    (Dsrc_alloc_dim.x * sizeof_float4)
    (Ptr.src_mat i)
    (src.pitch * sizeof_float)
    (src.width * sizeof_float)
    src.height
    cudaMemcpyKind.DeviceToDevice
    StreamRef.S

/-- The drain copy of every border-ignored driver: the destination tile goes
to `dst->MatptrArr.ptr[i]`. -/
def drain_NB (Ddst_alloc_dim : int2) (dst : MatrixArray) (Ddst : Int) (i : Nat) : Op :=
  Op.cudaMemcpy2DAsync
    (Ptr.dst_mat i)
    (dst.pitch * sizeof_float)
    (Ptr.dev Ddst)
    (Ddst_alloc_dim.x * sizeof_float4)
    (dst.width * sizeof_float)
    dst.height
    cudaMemcpyKind.DeviceToDevice
    StreamRef.S

/-- The launch `sconv2_kernel_within*(Dsrc, Ddst, src_diff, *Dsrc_alloc_dim,
*Ddst_alloc_dim, *ker_dim, &S)`. -/
def launch_within (k : Stencil) (Dsrc_alloc_dim Ddst_alloc_dim ker_dim src_diff : int2)
    (Dsrc Ddst : Int) : Op :=
  Op.launch
    { kernel := k, Dsrc := Ptr.dev Dsrc, Ddst := Ptr.dev Ddst, src_diff := some src_diff,
      Dsrc_alloc_dim := Dsrc_alloc_dim, Ddst_alloc_dim := Ddst_alloc_dim, ker_dim := ker_dim,
      const_offset := none, stream := StreamRef.S }

/-- The launch `sconv2_kernel_exact*(Dsrc, Ddst, *Dsrc_alloc_dim,
*Ddst_alloc_dim, *ker_dim, &S)`. -/
def launch_exact (k : Stencil) (Dsrc_alloc_dim Ddst_alloc_dim ker_dim : int2)
    (Dsrc Ddst : Int) : Op :=
  Op.launch
    { kernel := k, Dsrc := Ptr.dev Dsrc, Ddst := Ptr.dev Ddst, src_diff := none,
      Dsrc_alloc_dim := Dsrc_alloc_dim, Ddst_alloc_dim := Ddst_alloc_dim, ker_dim := ker_dim,
      const_offset := none, stream := StreamRef.S }

/-- Driver `decx::dev_main_loop_sconv2_sk_within8x8_NB`. -/
def dev_main_loop_sconv2_sk_within8x8_NB (Dsrc_alloc_dim Ddst_alloc_dim ker_dim : int2)
    (src : MatrixArray) (_kernel : Matrix) (dst : MatrixArray) (Dsrc Ddst : Int) : List Op :=
  let src_diff : int2 :=
    { x := bounded_kernel_R8 - ker_dim.y / 2, y := bounded_kernel_R8 - ker_dim.x / 2 }
  for_loop src.ArrayNumber fun i =>
    [ stage_within Dsrc_alloc_dim src_diff src Dsrc i,
      launch_within Stencil.within8x8 Dsrc_alloc_dim Ddst_alloc_dim ker_dim src_diff Dsrc Ddst,
      drain_NB Ddst_alloc_dim dst Ddst i ]

/-- Driver `decx::dev_main_loop_sconv2_sk_exact8x8_NB`. -/
def dev_main_loop_sconv2_sk_exact8x8_NB (Dsrc_alloc_dim Ddst_alloc_dim ker_dim : int2)
    (src : MatrixArray) (_kernel : Matrix) (dst : MatrixArray) (Dsrc Ddst : Int) : List Op :=
  for_loop src.ArrayNumber fun i =>
    [ stage_exact Dsrc_alloc_dim src Dsrc i,
      launch_exact Stencil.exact8x8 Dsrc_alloc_dim Ddst_alloc_dim ker_dim Dsrc Ddst,
      drain_NB Ddst_alloc_dim dst Ddst i ]

/-- Driver `decx::dev_main_loop_sconv2_sk_within8x16_NB`. -/
def dev_main_loop_sconv2_sk_within8x16_NB (Dsrc_alloc_dim Ddst_alloc_dim ker_dim : int2)
    (src : MatrixArray) (_kernel : Matrix) (dst : MatrixArray) (Dsrc Ddst : Int) : List Op :=
  let src_diff : int2 :=
    { x := bounded_kernel_R8 - ker_dim.y / 2, y := bounded_kernel_R16 - ker_dim.x / 2 }
  for_loop src.ArrayNumber fun i =>
    [ stage_within Dsrc_alloc_dim src_diff src Dsrc i,
      launch_within Stencil.within8x16 Dsrc_alloc_dim Ddst_alloc_dim ker_dim src_diff Dsrc Ddst,
      drain_NB Ddst_alloc_dim dst Ddst i ]

/-- Driver `decx::dev_main_loop_sconv2_sk_exact8x16_NB`. -/
def dev_main_loop_sconv2_sk_exact8x16_NB (Dsrc_alloc_dim Ddst_alloc_dim ker_dim : int2)
    (src : MatrixArray) (_kernel : Matrix) (dst : MatrixArray) (Dsrc Ddst : Int) : List Op :=
  for_loop src.ArrayNumber fun i =>
    [ stage_exact Dsrc_alloc_dim src Dsrc i,
      launch_exact Stencil.exact8x16 Dsrc_alloc_dim Ddst_alloc_dim ker_dim Dsrc Ddst,
      drain_NB Ddst_alloc_dim dst Ddst i ]

/-- Driver `decx::dev_main_loop_sconv2_sk_within16x8_NB`. -/
def dev_main_loop_sconv2_sk_within16x8_NB (Dsrc_alloc_dim Ddst_alloc_dim ker_dim : int2)
    (src : MatrixArray) (_kernel : Matrix) (dst : MatrixArray) (Dsrc Ddst : Int) : List Op :=
  let src_diff : int2 :=
    { x := bounded_kernel_R16 - ker_dim.y / 2, y := bounded_kernel_R8 - ker_dim.x / 2 }
  for_loop src.ArrayNumber fun i =>
    [ stage_within Dsrc_alloc_dim src_diff src Dsrc i,
      launch_within Stencil.within16x8 Dsrc_alloc_dim Ddst_alloc_dim ker_dim src_diff Dsrc Ddst,
      drain_NB Ddst_alloc_dim dst Ddst i ]

/-- Driver `decx::dev_main_loop_sconv2_sk_exact16x8_NB`; its staging copy
reads `src->MatptrArr.ptr[0]` in every iteration. -/
def dev_main_loop_sconv2_sk_exact16x8_NB (Dsrc_alloc_dim Ddst_alloc_dim ker_dim : int2)
    (src : MatrixArray) (_kernel : Matrix) (dst : MatrixArray) (Dsrc Ddst : Int) : List Op :=
  for_loop src.ArrayNumber fun i =>
    [ stage_exact Dsrc_alloc_dim src Dsrc 0,
      launch_exact Stencil.exact16x8 Dsrc_alloc_dim Ddst_alloc_dim ker_dim Dsrc Ddst,
      drain_NB Ddst_alloc_dim dst Ddst i ]

/-- Driver `decx::dev_main_loop_sconv2_sk_within16x16_NB`. -/
def dev_main_loop_sconv2_sk_within16x16_NB (Dsrc_alloc_dim Ddst_alloc_dim ker_dim : int2)
    (src : MatrixArray) (_kernel : Matrix) (dst : MatrixArray) (Dsrc Ddst : Int) : List Op :=
  let src_diff : int2 :=
    { x := bounded_kernel_R16 - ker_dim.y / 2, y := bounded_kernel_R16 - ker_dim.x / 2 }
  for_loop src.ArrayNumber fun i =>
    [ stage_within Dsrc_alloc_dim src_diff src Dsrc i,
      launch_within Stencil.within16x16 Dsrc_alloc_dim Ddst_alloc_dim ker_dim src_diff Dsrc Ddst,
      drain_NB Ddst_alloc_dim dst Ddst i ]

/-- Driver `decx::dev_main_loop_sconv2_sk_exact16x16_NB`. -/
def dev_main_loop_sconv2_sk_exact16x16_NB (Dsrc_alloc_dim Ddst_alloc_dim ker_dim : int2)
    (src : MatrixArray) (_kernel : Matrix) (dst : MatrixArray) (Dsrc Ddst : Int) : List Op :=
  for_loop src.ArrayNumber fun i =>
    [ stage_exact Dsrc_alloc_dim src Dsrc i,
      launch_exact Stencil.exact16x16 Dsrc_alloc_dim Ddst_alloc_dim ker_dim Dsrc Ddst,
      drain_NB Ddst_alloc_dim dst Ddst i ]

/-! ## Buffer planning and kernel upload, shared by the bucket engines -/

/-- Locals every bucket engine computes before it allocates: the kernel dims,
the padded tile dims (`x` in `float4`s, `y` in rows) and the tile sizes (in
`float4`s). -/
structure Plan where
  ker_dim : int2
  Ddst_alloc_dim : int2
  Dsrc_alloc_dim : int2
  dev_src_size : Int
  dev_dst_size : Int
deriving DecidableEq, Repr

/-- The opening lines of a bucket engine.  All eight engines share them up to
the two radius constants of the source tile: `R_w` in
`Dsrc_alloc_dim.x = Ddst_alloc_dim.x + R_w / 2` and `R_h` in
`Dsrc_alloc_dim.y = Ddst_alloc_dim.y + R_h * 2`.  The destination tile uses
`bounded_kernel_R8` in every engine. -/
def alloc_plan (R_h R_w : Nat) (kernel_width kernel_height : Nat) (dst : MatrixArray) : Plan :=
  let ker_dim : int2 := { x := kernel_width, y := kernel_height }
  let Ddst_alloc_dim : int2 :=
    { x := utils.ceil (int_cast dst.width) 64 * bounded_kernel_R8 * 2,
      y := utils.ceil (int_cast dst.height) 16 * bounded_kernel_R8 * 2 }
  let Dsrc_alloc_dim : int2 :=
    { x := Ddst_alloc_dim.x + ((R_w / 2 : Nat) : Int),
      y := Ddst_alloc_dim.y + R_h * 2 }
  { ker_dim := ker_dim, Ddst_alloc_dim := Ddst_alloc_dim, Dsrc_alloc_dim := Dsrc_alloc_dim,
    dev_src_size := Dsrc_alloc_dim.x * Dsrc_alloc_dim.y,
    dev_dst_size := Ddst_alloc_dim.x * Ddst_alloc_dim.y }

/-- The kernel upload loop of every engine, with `todo` iterations left:
one `cudaMemcpyToSymbolAsync` of `kernel->width` floats per kernel row, then
`offset_lin += kernel->width; offset_ker += kernel->pitch`. -/
def upload_loop (kind : cudaMemcpyKind) (stream : StreamRef) (kernel_width kernel_pitch : Nat) :
    (todo offset_lin offset_ker : Nat) → List Op
  | 0, _, _ => []
  | todo + 1, offset_lin, offset_ker =>
    Op.cudaMemcpyToSymbolAsync (Ptr.kernel offset_ker) (kernel_width * sizeof_float)
        (offset_lin * sizeof_float) kind stream ::
      upload_loop kind stream kernel_width kernel_pitch todo
        (offset_lin + kernel_width) (offset_ker + kernel_pitch)

/-! ## Border-ignored bucket engines (`dev_Conv2_NB_R*_SK`) -/

/-- Engine `decx::dev_Conv2_NB_R8x8_SK`.  The argument `_device_malloc` tells
whether the allocator reports failure (a non-zero return) for a request of the
given number of bytes. -/
def dev_Conv2_NB_R8x8_SK (_device_malloc : Int → Bool) (src : MatrixArray) (kernel : Matrix)
    (dst : MatrixArray) : List Op :=
  let p := alloc_plan bounded_kernel_R8 bounded_kernel_R8 kernel.width kernel.height dst
  let bytes := (p.dev_src_size + p.dev_dst_size) * sizeof_float4
  if _device_malloc bytes then
    [Op._device_malloc bytes, Op.Print_Error_Message 4 ErrMsg.ALLOC_FAIL]
  else
    let Dsrc : Int := 0
    let Ddst : Int := 4 * p.dev_src_size
    [Op._device_malloc bytes, Op.cudaStreamCreate]
      ++ upload_loop cudaMemcpyKind.DeviceToDevice StreamRef.S kernel.width kernel.pitch
          kernel.height 0 0
      ++ (if p.ker_dim.x = bounded_kernel_R8 * 2 + 1 ∧ p.ker_dim.y = bounded_kernel_R8 * 2 + 1 then
            dev_main_loop_sconv2_sk_exact8x8_NB p.Dsrc_alloc_dim p.Ddst_alloc_dim p.ker_dim
              src kernel dst Dsrc Ddst
          else
            dev_main_loop_sconv2_sk_within8x8_NB p.Dsrc_alloc_dim p.Ddst_alloc_dim p.ker_dim
              src kernel dst Dsrc Ddst)
      ++ [Op._device_dealloc, Op.cudaDeviceSynchronize, Op.cudaStreamDestroy]

/-- Engine `decx::dev_Conv2_NB_R8x16_SK`. -/
def dev_Conv2_NB_R8x16_SK (_device_malloc : Int → Bool) (src : MatrixArray) (kernel : Matrix)
    (dst : MatrixArray) : List Op :=
  let p := alloc_plan bounded_kernel_R8 bounded_kernel_R16 kernel.width kernel.height dst
  let bytes := (p.dev_src_size + p.dev_dst_size) * sizeof_float4
  if _device_malloc bytes then
    [Op._device_malloc bytes, Op.Print_Error_Message 4 ErrMsg.ALLOC_FAIL]
  else
    let Dsrc : Int := 0
    let Ddst : Int := 4 * p.dev_src_size
    [Op._device_malloc bytes, Op.cudaStreamCreate]
      ++ upload_loop cudaMemcpyKind.DeviceToDevice StreamRef.S kernel.width kernel.pitch
          kernel.height 0 0
      ++ (if p.ker_dim.x = bounded_kernel_R16 * 2 + 1 ∧ p.ker_dim.y = bounded_kernel_R8 * 2 + 1 then
            dev_main_loop_sconv2_sk_exact8x16_NB p.Dsrc_alloc_dim p.Ddst_alloc_dim p.ker_dim
              src kernel dst Dsrc Ddst
          else
            dev_main_loop_sconv2_sk_within8x16_NB p.Dsrc_alloc_dim p.Ddst_alloc_dim p.ker_dim
              src kernel dst Dsrc Ddst)
      ++ [Op._device_dealloc, Op.cudaDeviceSynchronize, Op.cudaStreamDestroy]

/-- Engine `decx::dev_Conv2_NB_R16x8_SK`. -/
def dev_Conv2_NB_R16x8_SK (_device_malloc : Int → Bool) (src : MatrixArray) (kernel : Matrix)
    (dst : MatrixArray) : List Op :=
  let p := alloc_plan bounded_kernel_R16 bounded_kernel_R8 kernel.width kernel.height dst
  let bytes := (p.dev_src_size + p.dev_dst_size) * sizeof_float4
  if _device_malloc bytes then
    [Op._device_malloc bytes, Op.Print_Error_Message 4 ErrMsg.ALLOC_FAIL]
  else
    let Dsrc : Int := 0
    let Ddst : Int := 4 * p.dev_src_size
    [Op._device_malloc bytes, Op.cudaStreamCreate]
      ++ upload_loop cudaMemcpyKind.DeviceToDevice StreamRef.S kernel.width kernel.pitch
          kernel.height 0 0
      ++ (if p.ker_dim.x = bounded_kernel_R8 * 2 + 1 ∧ p.ker_dim.y = bounded_kernel_R16 * 2 + 1 then
            dev_main_loop_sconv2_sk_exact16x8_NB p.Dsrc_alloc_dim p.Ddst_alloc_dim p.ker_dim
              src kernel dst Dsrc Ddst
          else
            dev_main_loop_sconv2_sk_within16x8_NB p.Dsrc_alloc_dim p.Ddst_alloc_dim p.ker_dim
              src kernel dst Dsrc Ddst)
      ++ [Op._device_dealloc, Op.cudaDeviceSynchronize, Op.cudaStreamDestroy]

/-- Engine `decx::dev_Conv2_NB_R16x16_SK`. -/
def dev_Conv2_NB_R16x16_SK (_device_malloc : Int → Bool) (src : MatrixArray) (kernel : Matrix)
    (dst : MatrixArray) : List Op :=
  let p := alloc_plan bounded_kernel_R16 bounded_kernel_R16 kernel.width kernel.height dst
  let bytes := (p.dev_src_size + p.dev_dst_size) * sizeof_float4
  if _device_malloc bytes then
    [Op._device_malloc bytes, Op.Print_Error_Message 4 ErrMsg.ALLOC_FAIL]
  else
    let Dsrc : Int := 0
    let Ddst : Int := 4 * p.dev_src_size
    [Op._device_malloc bytes, Op.cudaStreamCreate]
      ++ upload_loop cudaMemcpyKind.DeviceToDevice StreamRef.S kernel.width kernel.pitch
          kernel.height 0 0
      ++ (if p.ker_dim.x = bounded_kernel_R16 * 2 + 1 ∧ p.ker_dim.y = bounded_kernel_R16 * 2 + 1 then
            dev_main_loop_sconv2_sk_exact16x16_NB p.Dsrc_alloc_dim p.Ddst_alloc_dim p.ker_dim
              src kernel dst Dsrc Ddst
          else
            dev_main_loop_sconv2_sk_within16x16_NB p.Dsrc_alloc_dim p.Ddst_alloc_dim p.ker_dim
              src kernel dst Dsrc Ddst)
      ++ [Op._device_dealloc, Op.cudaDeviceSynchronize, Op.cudaStreamDestroy]

/-! ## Border-ignored dispatcher -/

/-- What a dispatcher leaves behind when it returns: the destination
container, the caller's status handle, and the operations issued. -/
structure Outcome where
  dst : MatrixArray
  handle : DH
  ops : List Op
deriving DecidableEq, Repr

/-- Dispatcher `decx::dev_sConv2_border_ignore_sk`.  `row_pitch` is the pitch
rule of the container class and `_device_malloc` the failure report of the
allocator; both belong to collaborators outside the sources. -/
def dev_sConv2_border_ignore_sk (row_pitch : Nat → Nat) (_device_malloc : Int → Bool)
    (src : MatrixArray) (kernel : Matrix) (dst : MatrixArray) (handle : DH) : Outcome :=
  let half_ker_dim : int2 :=
    { x := ((kernel.width / 2 : Nat) : Int), y := ((kernel.height / 2 : Nat) : Int) }
  let dst_dim : uint3 :=
    make_uint3 (usub src.width (half_ker_dim.x * 2))
               (usub src.height (half_ker_dim.y * 2))
               src.ArrayNumber
  let dst := _dev_conv2_dst_rearrangement row_pitch dst dst_dim
  if half_ker_dim.x < bounded_kernel_R8 + 1 then
    if half_ker_dim.y < bounded_kernel_R8 + 1 then
      { dst := dst, handle := handle, ops := dev_Conv2_NB_R8x8_SK _device_malloc src kernel dst }
    else
      { dst := dst, handle := handle, ops := dev_Conv2_NB_R16x8_SK _device_malloc src kernel dst }
  else
    if half_ker_dim.y < bounded_kernel_R8 + 1 then
      { dst := dst, handle := handle, ops := dev_Conv2_NB_R8x16_SK _device_malloc src kernel dst }
    else
      { dst := dst, handle := handle, ops := dev_Conv2_NB_R16x16_SK _device_malloc src kernel dst }

/-! ## Border-constant pipeline drivers (`main_loop_sconv2_mk_*_BC`) -/

/-- A device buffer slot `MIF<float4>`: its address (an offset in `float`s
into the allocation) and the two ping-pong flags. -/
structure MIF where
  mem : Int
  leading : Bool
  _using : Bool
deriving DecidableEq, Repr

/-- The four slots of a border-constant engine: `Dmem1`, `Dmem2` for the
source and `Dmem3`, `Dmem4` for the destination. -/
structure Dmems where
  Dmem1 : MIF
  Dmem2 : MIF
  Dmem3 : MIF
  Dmem4 : MIF
deriving DecidableEq, Repr

/-- What the call site of the macro `main_loop_regulable_R_mk` hands over:
the two stencil launches (on the pair `Dmem1`/`Dmem3` and on the pair
`Dmem2`/`Dmem4`, with the values their arguments have on entry), the two
radii given to `conv3_main_loop_MemCpyHtoD_BC_MK`, and the locals in scope. -/
structure MainLoopArgs where
  call_A : Launch
  call_B : Launch
  R_h : Nat
  R_w : Nat
  Dsrc_alloc_dim : int2
  Ddst_alloc_dim : int2
  ker_dim : int2
  src : MatrixArray
  kernel : MatrixArray
  dst : MatrixArray
  CM_offset : Nat
deriving DecidableEq, Repr

/-- The macro `main_loop_regulable_R_mk` of `Conv3_macros.h`, which is not
among the sources: it is a parameter of the drivers, given as the change it
makes to the four slots and the operations it issues. -/
abbrev MainLoop := MainLoopArgs → Dmems → Dmems × List Op

/-- The `_offset` stencil launch of the border-constant drivers, on stream
`S[0]`; `src_diff` is absent for the `exact` kernels. -/
def launch_offset (k : Stencil) (Dsrc Ddst : MIF) (src_diff : Option int2)
    (Dsrc_alloc_dim Ddst_alloc_dim ker_dim : int2) (sym_cpy_offset : Nat) : Launch :=
  { kernel := k, Dsrc := Ptr.dev Dsrc.mem, Ddst := Ptr.dev Ddst.mem, src_diff := src_diff,
    Dsrc_alloc_dim := Dsrc_alloc_dim, Ddst_alloc_dim := Ddst_alloc_dim, ker_dim := ker_dim,
    const_offset := some (sym_cpy_offset / sizeof_float), stream := StreamRef.pool 0 }

/-- The body every border-constant driver shares, up to the stencil `k`, the
`src_diff` it passes (`none` in the `exact` drivers) and the two radius
constants `R_h`, `R_w` of its staging offset
`Dsrc_alloc_dim->x * R_h * 4 + R_w` and of its memcpy macro. -/
def main_loop_BC (main_loop_regulable_R_mk : MainLoop) (k : Stencil) (src_diff : Option int2)
    (R_h R_w : Nat) (Dsrc_alloc_dim Ddst_alloc_dim ker_dim : int2)
    (src kernel dst : MatrixArray) (m : Dmems) : Dmems × List Op :=
  let stage0 : Op :=
    Op.cudaMemcpy2DAsync
      (Ptr.dev (m.Dmem1.mem + Dsrc_alloc_dim.x * R_h * 4 + R_w))
      (Dsrc_alloc_dim.x * sizeof_float4)
      (Ptr.src_mat 0)
      (src.pitch * sizeof_float)
      (src.width * sizeof_float)
      src.height
      cudaMemcpyKind.HostToDevice
      (StreamRef.pool 0)
  let m : Dmems := { m with Dmem1 := { m.Dmem1 with leading := true, _using := false } }
  let CM_offset : Nat := kernel.width * kernel.height * sizeof_float
  let sym_cpy_offset : Nat := 0
  let r := main_loop_regulable_R_mk
    { call_A := launch_offset k m.Dmem1 m.Dmem3 src_diff Dsrc_alloc_dim Ddst_alloc_dim ker_dim
        sym_cpy_offset,
      call_B := launch_offset k m.Dmem2 m.Dmem4 src_diff Dsrc_alloc_dim Ddst_alloc_dim ker_dim
        sym_cpy_offset,
      R_h := R_h, R_w := R_w,
      Dsrc_alloc_dim := Dsrc_alloc_dim, Ddst_alloc_dim := Ddst_alloc_dim, ker_dim := ker_dim,
      src := src, kernel := kernel, dst := dst, CM_offset := CM_offset } m
  let m := r.1
  let drain (from_slot : MIF) : Op :=
    Op.cudaMemcpy2DAsync
      (Ptr.dst_mat (usub dst.ArrayNumber 1))
      (dst.pitch * sizeof_float)
      (Ptr.dev from_slot.mem)
      (Ddst_alloc_dim.x * sizeof_float4)
      (dst.width * sizeof_float)
      dst.height
      cudaMemcpyKind.DeviceToHost
      (StreamRef.pool 2)
  if m.Dmem3.leading then
    ({ m with Dmem3 := { m.Dmem3 with _using := true } },
      [stage0, Op.cudaDeviceSynchronize] ++ r.2 ++ [drain m.Dmem3, Op.cudaDeviceSynchronize])
  else
    ({ m with Dmem4 := { m.Dmem4 with _using := false } },
      [stage0, Op.cudaDeviceSynchronize] ++ r.2 ++ [drain m.Dmem4, Op.cudaDeviceSynchronize])

/-- Driver `decx::main_loop_sconv2_mk_within8x8_BC`. -/
def main_loop_sconv2_mk_within8x8_BC (main_loop_regulable_R_mk : MainLoop)
    (Dsrc_alloc_dim Ddst_alloc_dim ker_dim : int2) (src kernel dst : MatrixArray) (m : Dmems) :
    Dmems × List Op :=
  let src_diff : int2 :=
    { x := bounded_kernel_R8 - ker_dim.y / 2, y := bounded_kernel_R8 - ker_dim.x / 2 }
  main_loop_BC main_loop_regulable_R_mk Stencil.within8x8 (some src_diff)
    bounded_kernel_R8 bounded_kernel_R8 Dsrc_alloc_dim Ddst_alloc_dim ker_dim src kernel dst m

/-- Driver `decx::main_loop_sconv2_mk_exact8x8_BC`. -/
def main_loop_sconv2_mk_exact8x8_BC (main_loop_regulable_R_mk : MainLoop)
    (Dsrc_alloc_dim Ddst_alloc_dim ker_dim : int2) (src kernel dst : MatrixArray) (m : Dmems) :
    Dmems × List Op :=
  main_loop_BC main_loop_regulable_R_mk Stencil.exact8x8 none
    bounded_kernel_R8 bounded_kernel_R8 Dsrc_alloc_dim Ddst_alloc_dim ker_dim src kernel dst m

/-- Driver `decx::main_loop_sconv2_mk_within8x16_BC`. -/
def main_loop_sconv2_mk_within8x16_BC (main_loop_regulable_R_mk : MainLoop)
    (Dsrc_alloc_dim Ddst_alloc_dim ker_dim : int2) (src kernel dst : MatrixArray) (m : Dmems) :
    Dmems × List Op :=
  let src_diff : int2 :=
    { x := bounded_kernel_R8 - ker_dim.y / 2, y := bounded_kernel_R16 - ker_dim.x / 2 }
  main_loop_BC main_loop_regulable_R_mk Stencil.within8x16 (some src_diff)
    bounded_kernel_R8 bounded_kernel_R16 Dsrc_alloc_dim Ddst_alloc_dim ker_dim src kernel dst m

/-- Driver `decx::main_loop_sconv2_mk_exact8x16_BC`. -/
def main_loop_sconv2_mk_exact8x16_BC (main_loop_regulable_R_mk : MainLoop)
    (Dsrc_alloc_dim Ddst_alloc_dim ker_dim : int2) (src kernel dst : MatrixArray) (m : Dmems) :
    Dmems × List Op :=
  main_loop_BC main_loop_regulable_R_mk Stencil.exact8x16 none
    bounded_kernel_R8 bounded_kernel_R16 Dsrc_alloc_dim Ddst_alloc_dim ker_dim src kernel dst m

/-- Driver `decx::main_loop_sconv2_mk_within16x8_BC`. -/
def main_loop_sconv2_mk_within16x8_BC (main_loop_regulable_R_mk : MainLoop)
    (Dsrc_alloc_dim Ddst_alloc_dim ker_dim : int2) (src kernel dst : MatrixArray) (m : Dmems) :
    Dmems × List Op :=
  let src_diff : int2 :=
    { x := bounded_kernel_R16 - ker_dim.y / 2, y := bounded_kernel_R8 - ker_dim.x / 2 }
  main_loop_BC main_loop_regulable_R_mk Stencil.within16x8 (some src_diff)
    bounded_kernel_R16 bounded_kernel_R8 Dsrc_alloc_dim Ddst_alloc_dim ker_dim src kernel dst m

/-- Driver `decx::main_loop_sconv2_mk_exact16x8_BC`. -/
def main_loop_sconv2_mk_exact16x8_BC (main_loop_regulable_R_mk : MainLoop)
    (Dsrc_alloc_dim Ddst_alloc_dim ker_dim : int2) (src kernel dst : MatrixArray) (m : Dmems) :
    Dmems × List Op :=
  main_loop_BC main_loop_regulable_R_mk Stencil.exact16x8 none
    bounded_kernel_R16 bounded_kernel_R8 Dsrc_alloc_dim Ddst_alloc_dim ker_dim src kernel dst m

/-- Driver `decx::main_loop_sconv2_mk_within16x16_BC`. -/
def main_loop_sconv2_mk_within16x16_BC (main_loop_regulable_R_mk : MainLoop)
    (Dsrc_alloc_dim Ddst_alloc_dim ker_dim : int2) (src kernel dst : MatrixArray) (m : Dmems) :
    Dmems × List Op :=
  let src_diff : int2 :=
    { x := bounded_kernel_R16 - ker_dim.y / 2, y := bounded_kernel_R16 - ker_dim.x / 2 }
  main_loop_BC main_loop_regulable_R_mk Stencil.within16x16 (some src_diff)
    bounded_kernel_R16 bounded_kernel_R16 Dsrc_alloc_dim Ddst_alloc_dim ker_dim src kernel dst m

/-- Driver `decx::main_loop_sconv2_mk_exact16x16_BC`. -/
def main_loop_sconv2_mk_exact16x16_BC (main_loop_regulable_R_mk : MainLoop)
    (Dsrc_alloc_dim Ddst_alloc_dim ker_dim : int2) (src kernel dst : MatrixArray) (m : Dmems) :
    Dmems × List Op :=
  main_loop_BC main_loop_regulable_R_mk Stencil.exact16x16 none
    bounded_kernel_R16 bounded_kernel_R16 Dsrc_alloc_dim Ddst_alloc_dim ker_dim src kernel dst m

/-! ## Border-constant bucket engines (`_Conv2_BC_R*_MK`) -/

/-- The slicing of the single allocation of a border-constant engine:
`Dmem2.mem = Dmem1.mem + dev_src_size`, `Dmem3.mem = Dmem2.mem + dev_src_size`,
`Dmem4.mem = Dmem3.mem + dev_dst_size`, in `float4` pointer arithmetic (four
`float`s per step); `Dmem1.mem` is the start of the allocation.  The flags
keep whatever a freshly declared `MIF` holds (`init`). -/
def slice_Dmems (init : Dmems) (p : Plan) : Dmems :=
  let Dmem1 : MIF := { init.Dmem1 with mem := 0 }
  let Dmem2 : MIF := { init.Dmem2 with mem := Dmem1.mem + 4 * p.dev_src_size }
  let Dmem3 : MIF := { init.Dmem3 with mem := Dmem2.mem + 4 * p.dev_src_size }
  let Dmem4 : MIF := { init.Dmem4 with mem := Dmem3.mem + 4 * p.dev_dst_size }
  { Dmem1 := Dmem1, Dmem2 := Dmem2, Dmem3 := Dmem3, Dmem4 := Dmem4 }

/-- Engine `decx::_Conv2_BC_R8x8_MK`.  `init` holds the flags of the four
freshly declared slots.  The CUDA runtime calls wrapped in `checkCudaErrors`
(among them `cudaMalloc`) are taken to succeed: the wrapper ends the process
on a failure, so a run that returns has seen none. -/
def _Conv2_BC_R8x8_MK (main_loop_regulable_R_mk : MainLoop) (init : Dmems)
    (src kernel dst : MatrixArray) : List Op :=
  let p := alloc_plan bounded_kernel_R8 bounded_kernel_R8 kernel.width kernel.height dst
  let bytes := 2 * (p.dev_src_size + p.dev_dst_size) * sizeof_float4
  let m := slice_Dmems init p
  let r :=
    if p.ker_dim.x = bounded_kernel_R8 * 2 + 1 ∧ p.ker_dim.y = bounded_kernel_R8 * 2 + 1 then
      main_loop_sconv2_mk_exact8x8_BC main_loop_regulable_R_mk p.Dsrc_alloc_dim p.Ddst_alloc_dim
        p.ker_dim src kernel dst m
    else
      main_loop_sconv2_mk_within8x8_BC main_loop_regulable_R_mk p.Dsrc_alloc_dim p.Ddst_alloc_dim
        p.ker_dim src kernel dst m
  [Op.cudaMalloc bytes, Op.stream_accessor_ptr 0, Op.stream_accessor_ptr 1,
      Op.stream_accessor_ptr 2]
    ++ upload_loop cudaMemcpyKind.HostToDevice (StreamRef.pool 0) kernel.width kernel.pitch
        kernel.height 0 0
    ++ r.2
    ++ [Op.cudaFree, Op.detach 0, Op.detach 1, Op.detach 2]

/-- Engine `decx::_Conv2_BC_R8x16_MK`. -/
def _Conv2_BC_R8x16_MK (main_loop_regulable_R_mk : MainLoop) (init : Dmems)
    (src kernel dst : MatrixArray) : List Op :=
  let p := alloc_plan bounded_kernel_R8 bounded_kernel_R16 kernel.width kernel.height dst
  let bytes := 2 * (p.dev_src_size + p.dev_dst_size) * sizeof_float4
  let m := slice_Dmems init p
  let r :=
    if p.ker_dim.x = bounded_kernel_R16 * 2 + 1 ∧ p.ker_dim.y = bounded_kernel_R8 * 2 + 1 then
      main_loop_sconv2_mk_exact8x16_BC main_loop_regulable_R_mk p.Dsrc_alloc_dim p.Ddst_alloc_dim
        p.ker_dim src kernel dst m
    else
      main_loop_sconv2_mk_within8x16_BC main_loop_regulable_R_mk p.Dsrc_alloc_dim p.Ddst_alloc_dim
        p.ker_dim src kernel dst m
  [Op.cudaMalloc bytes, Op.stream_accessor_ptr 0, Op.stream_accessor_ptr 1,
      Op.stream_accessor_ptr 2]
    ++ upload_loop cudaMemcpyKind.HostToDevice (StreamRef.pool 0) kernel.width kernel.pitch
        kernel.height 0 0
    ++ r.2
    ++ [Op.cudaFree, Op.detach 0, Op.detach 1, Op.detach 2]

/-- Engine `decx::_Conv2_BC_R16x8_MK`. -/
def _Conv2_BC_R16x8_MK (main_loop_regulable_R_mk : MainLoop) (init : Dmems)
    (src kernel dst : MatrixArray) : List Op :=
  let p := alloc_plan bounded_kernel_R16 bounded_kernel_R8 kernel.width kernel.height dst
  let bytes := 2 * (p.dev_src_size + p.dev_dst_size) * sizeof_float4
  let m := slice_Dmems init p
  let r :=
    if p.ker_dim.x = bounded_kernel_R8 * 2 + 1 ∧ p.ker_dim.y = bounded_kernel_R16 * 2 + 1 then
      main_loop_sconv2_mk_exact16x8_BC main_loop_regulable_R_mk p.Dsrc_alloc_dim p.Ddst_alloc_dim
        p.ker_dim src kernel dst m
    else
      main_loop_sconv2_mk_within16x8_BC main_loop_regulable_R_mk p.Dsrc_alloc_dim p.Ddst_alloc_dim
        p.ker_dim src kernel dst m
  [Op.cudaMalloc bytes, Op.stream_accessor_ptr 0, Op.stream_accessor_ptr 1,
      Op.stream_accessor_ptr 2]
    ++ upload_loop cudaMemcpyKind.HostToDevice (StreamRef.pool 0) kernel.width kernel.pitch
        kernel.height 0 0
    ++ r.2
    ++ [Op.cudaFree, Op.detach 0, Op.detach 1, Op.detach 2]

/-- Engine `decx::_Conv2_BC_R16x16_MK`. -/
def _Conv2_BC_R16x16_MK (main_loop_regulable_R_mk : MainLoop) (init : Dmems)
    (src kernel dst : MatrixArray) : List Op :=
  let p := alloc_plan bounded_kernel_R16 bounded_kernel_R16 kernel.width kernel.height dst
  let bytes := 2 * (p.dev_src_size + p.dev_dst_size) * sizeof_float4
  let m := slice_Dmems init p
  let r :=
    if p.ker_dim.x = bounded_kernel_R16 * 2 + 1 ∧ p.ker_dim.y = bounded_kernel_R16 * 2 + 1 then
      main_loop_sconv2_mk_exact16x16_BC main_loop_regulable_R_mk p.Dsrc_alloc_dim p.Ddst_alloc_dim
        p.ker_dim src kernel dst m
    else
      main_loop_sconv2_mk_within16x16_BC main_loop_regulable_R_mk p.Dsrc_alloc_dim p.Ddst_alloc_dim
        p.ker_dim src kernel dst m
  [Op.cudaMalloc bytes, Op.stream_accessor_ptr 0, Op.stream_accessor_ptr 1,
      Op.stream_accessor_ptr 2]
    ++ upload_loop cudaMemcpyKind.HostToDevice (StreamRef.pool 0) kernel.width kernel.pitch
        kernel.height 0 0
    ++ r.2
    ++ [Op.cudaFree, Op.detach 0, Op.detach 1, Op.detach 2]

/-! ## Border-constant dispatcher -/

/-- Dispatcher `decx::sConv2_border_zero_mk`.  `row_pitch`,
`main_loop_regulable_R_mk` and `init` belong to collaborators outside the
sources (see the engines). -/
def sConv2_border_zero_mk (row_pitch : Nat → Nat) (main_loop_regulable_R_mk : MainLoop)
    (init : Dmems) (src kernel dst : MatrixArray) (handle : DH) : Outcome :=
  let half_ker_dim : int2 :=
    { x := ((kernel.width / 2 : Nat) : Int), y := ((kernel.height / 2 : Nat) : Int) }
  let dst_dim : uint4 :=
    make_uint4 src.width src.height src.ArrayNumber DATA_STORE_TYPE.Page_Locked
  let dst := conv2_mc_dst_rearrangement row_pitch dst dst_dim
  let ops : List Op :=
    if half_ker_dim.x < bounded_kernel_R8 + 1 then
      if half_ker_dim.y < bounded_kernel_R8 + 1 then
        _Conv2_BC_R8x8_MK main_loop_regulable_R_mk init src kernel dst
      else
        _Conv2_BC_R16x8_MK main_loop_regulable_R_mk init src kernel dst
    else
      if half_ker_dim.y < bounded_kernel_R8 + 1 then
        _Conv2_BC_R8x16_MK main_loop_regulable_R_mk init src kernel dst
      else
        _Conv2_BC_R16x16_MK main_loop_regulable_R_mk init src kernel dst
  { dst := dst, handle := Success handle, ops := ops }

/-! ## Reading a run: which stack elements are staged and drained -/

/-- The source stack elements read by the copies of a run, in program order. -/
def staged_sources : List Op → List Nat
  | [] => []
  | Op.cudaMemcpy2DAsync _ _ (Ptr.src_mat i) _ _ _ _ _ :: ops => i :: staged_sources ops
  | _ :: ops => staged_sources ops

/-- The destination stack elements written by the copies of a run, in program
order. -/
def drained_dests : List Op → List Nat
  | [] => []
  | Op.cudaMemcpy2DAsync (Ptr.dst_mat i) _ _ _ _ _ _ _ :: ops => i :: drained_dests ops
  | _ :: ops => drained_dests ops

/-- Whether an operation is device work: a stream creation, a copy, a kernel
launch, a release of the allocation, a barrier or a stream teardown.  The
allocation request itself and the console message are not. -/
def Op.is_device_work : Op → Bool
  | Op._device_malloc _ => false
  | Op.cudaMalloc _ => false
  | Op.Print_Error_Message _ _ => false
  | _ => true

/-- The stencil kernels launched by a run, in program order. -/
def launched : List Op → List Stencil
  | [] => []
  | Op.launch l :: ops => l.kernel :: launched ops
  | _ :: ops => launched ops

/-- The four radius buckets `R<rows>x<cols>`. -/
inductive Bucket
  | R8x8 | R8x16 | R16x8 | R16x16
deriving DecidableEq, Repr

/-- The border-ignored engine of a bucket. -/
def dev_Conv2_NB_SK : Bucket → (Int → Bool) → MatrixArray → Matrix → MatrixArray → List Op
  | Bucket.R8x8 => dev_Conv2_NB_R8x8_SK
  | Bucket.R8x16 => dev_Conv2_NB_R8x16_SK
  | Bucket.R16x8 => dev_Conv2_NB_R16x8_SK
  | Bucket.R16x16 => dev_Conv2_NB_R16x16_SK

/-- The border-constant engine of a bucket. -/
def _Conv2_BC_MK : Bucket → MainLoop → Dmems → MatrixArray → MatrixArray → MatrixArray → List Op
  | Bucket.R8x8 => _Conv2_BC_R8x8_MK
  | Bucket.R8x16 => _Conv2_BC_R8x16_MK
  | Bucket.R16x8 => _Conv2_BC_R16x8_MK
  | Bucket.R16x16 => _Conv2_BC_R16x16_MK

/-! ## Contents: what the issued operations do to memory

The operations are applied one after the other, in program order (the order
the barriers and the single stream enforce).  Element values are held as
integers: the numeric properties below only use sums of zeros and ones, which
`float` arithmetic forms exactly. -/

/-- Linear storage of `float`s, by element index. -/
abbrev Mem := Nat → Int

/-- The memories an invocation touches: the elements of the source and of
the destination stack, the kernel storage, the single device allocation (in
`float`s) and the constant cache `Const_Mem`. -/
structure World where
  src_mats : Nat → Mem
  dst_mats : Nat → Mem
  kernel_store : Mem
  dev : Mem
  Const_Mem : Mem

/-- The storage seen from an address: element `t` of the view is the element
`t` floats past the address.  The allocation has no storage before its
start: a negative device offset (a `within` kernel handed a half-extent above
its bucket radius) is read as offset 0. -/
def World.view (w : World) : Ptr → Mem
  | Ptr.src_mat i => w.src_mats i
  | Ptr.dst_mat i => w.dst_mats i
  | Ptr.kernel off => fun t => w.kernel_store (off + t)
  | Ptr.dev off => fun t => w.dev (off.toNat + t)

/-- Replace the storage seen from an address by `new`. -/
def World.store (w : World) (p : Ptr) (new : Mem) : World :=
  match p with
  | Ptr.src_mat i => { w with src_mats := fun k => if k = i then new else w.src_mats k }
  | Ptr.dst_mat i => { w with dst_mats := fun k => if k = i then new else w.dst_mats k }
  | Ptr.kernel off =>
    { w with kernel_store := fun a => if off ≤ a then new (a - off) else w.kernel_store a }
  | Ptr.dev off =>
    { w with dev := fun a => if off.toNat ≤ a then new (a - off.toNat) else w.dev a }

/-- The effect of `cudaMemcpy2D` on the destination view, all quantities in
`float`s: row `r < height` of the source (pitch `spitch`) lands on row `r` of
the destination (pitch `dpitch`), `width` elements per row. -/
def copy2D (old : Mem) (dpitch : Nat) (src : Mem) (spitch width height : Nat) : Mem :=
  fun t =>
    if t / dpitch < height ∧ t % dpitch < width then src (t / dpitch * spitch + t % dpitch)
    else old t

/-- The sum of `f 0, ..., f (n - 1)`. -/
def sum_upto : Nat → (Nat → Int) → Int
  | 0, _ => 0
  | n + 1, f => sum_upto n f + f n

/-- Modelled from the spec: the stencil kernels `sconv2_kernel_*` are not
among the sources; the spec gives them the contract (input tile, kernel,
output tile, dims → output tile) of a sliding window.  Element `(y, x)` of
the destination tile is the sum over the kernel taps `(i, j)` of the
coefficient `i * ker_dim.x + j` of the constant cache times the element of
the source tile at row `y + src_diff.x + i` and column `x + src_diff.y + j`
(`src_diff` is zero for the `exact` kernels).  Tile rows are
`4 * alloc_dim.x` floats long. -/
def sconv2_kernel (l : Launch) (Dsrc Const_Mem old : Mem) : Mem :=
  let spitch := (4 * l.Dsrc_alloc_dim.x).toNat
  let dpitch := (4 * l.Ddst_alloc_dim.x).toNat
  let src_diff := l.src_diff.getD ⟨0, 0⟩
  let c0 := l.const_offset.getD 0
  fun t =>
    if t / dpitch < l.Ddst_alloc_dim.y.toNat then
      sum_upto l.ker_dim.y.toNat fun i =>
        sum_upto l.ker_dim.x.toNat fun j =>
          Dsrc ((((t / dpitch : Nat) : Int) + src_diff.x + i).toNat * spitch
                + (((t % dpitch : Nat) : Int) + src_diff.y + j).toNat)
            * Const_Mem (c0 + i * l.ker_dim.x.toNat + j)
    else old t

/-- The effect of one operation on the memories.  Byte counts are turned into
`float` counts; operations that move no data leave the memories alone. -/
def exec (w : World) : Op → World
  | Op.cudaMemcpy2DAsync dst dpitch src spitch width height _ _ =>
    w.store dst
      (copy2D (w.view dst) (dpitch.toNat / sizeof_float) (w.view src)
        (spitch.toNat / sizeof_float) (width.toNat / sizeof_float) height.toNat)
  | Op.cudaMemcpyToSymbolAsync src count offset _ _ =>
    { w with
      Const_Mem := fun a =>
        if offset / sizeof_float ≤ a ∧ a < offset / sizeof_float + count / sizeof_float then
          w.view src (a - offset / sizeof_float)
        else w.Const_Mem a }
  | Op.launch l => w.store l.Ddst (sconv2_kernel l (w.view l.Dsrc) w.Const_Mem (w.view l.Ddst))
  | _ => w

/-- The effect of a run: its operations applied in program order. -/
def run (w : World) (ops : List Op) : World := ops.foldl exec w

/-- Modelled from the spec: the macro `main_loop_regulable_R_mk` is not
among the sources.  For a single source matrix the spec has the engine
degenerate to `STAGE(0) → COMPUTE(0) → DRAIN(0)` with only the first buffer
pair used, the compute step marking its destination slot as the one to
drain: the macro then contributes the launch on the pair `Dmem1`/`Dmem3` and
leaves `Dmem3` leading. -/
def main_loop_single : MainLoop := fun a m =>
  ({ m with Dmem3 := { m.Dmem3 with leading := true } }, [Op.launch a.call_A])

/-- A storage holding the same value everywhere. -/
def const_mem (v : Int) : Mem := fun _ => v

/-- The memories of the zero-border test: every source and kernel element
is one, the device allocation and the rest read as zero.  That the device
allocation reads as zero is a choice of this input, not something the
engines establish: they obtain the allocation with `cudaMalloc`, which
leaves its contents as they were, and write only the staged rectangle of the
source tile (`exec` gives `cudaMalloc` no effect on `dev`).  The input
`stale_world` is the same test on an allocation that reads otherwise. -/
def ones_world : World :=
  { src_mats := fun _ => const_mem 1, dst_mats := fun _ => const_mem 0,
    kernel_store := const_mem 1, dev := const_mem 0, Const_Mem := const_mem 0 }

/-- The memories of the stack-order test: every element of source matrix `i`
is `i + 1`, every kernel element is one, the rest reads as zero. -/
def stack_world : World :=
  { src_mats := fun i => const_mem (i + 1), dst_mats := fun _ => const_mem 0,
    kernel_store := const_mem 1, dev := const_mem 0, Const_Mem := const_mem 0 }

/-- Slot flags of a freshly declared `MIF`, all cleared. -/
def Dmems_clear : Dmems :=
  { Dmem1 := ⟨0, false, false⟩, Dmem2 := ⟨0, false, false⟩, Dmem3 := ⟨0, false, false⟩,
    Dmem4 := ⟨0, false, false⟩ }

/-! ## The pieces of a border-constant driver -/

/-- The first staging copy of a border-constant driver: source element 0 goes
to `reinterpret_cast<float*>(Dmem1->mem) + Dsrc_alloc_dim->x * R_h * 4 + R_w`,
host to device, on stream `S[0]`. -/
def stage0_BC (R_h R_w : Nat) (Dsrc_alloc_dim : int2) (src : MatrixArray) (m : Dmems) : Op :=
  Op.cudaMemcpy2DAsync
    (Ptr.dev (m.Dmem1.mem + Dsrc_alloc_dim.x * R_h * 4 + R_w))
    (Dsrc_alloc_dim.x * sizeof_float4)
    (Ptr.src_mat 0)
    (src.pitch * sizeof_float)
    (src.width * sizeof_float)
    src.height
    cudaMemcpyKind.HostToDevice
    (StreamRef.pool 0)

/-- The slots as a border-constant driver leaves them before its main loop:
`Dmem1->leading = true; Dmem1->_using = false`. -/
def mark_Dmem1 (m : Dmems) : Dmems :=
  { m with Dmem1 := { m.Dmem1 with leading := true, _using := false } }

/-- What a border-constant driver hands to the macro `main_loop_regulable_R_mk`. -/
def main_loop_args_BC (k : Stencil) (src_diff : Option int2) (R_h R_w : Nat)
    (Dsrc_alloc_dim Ddst_alloc_dim ker_dim : int2) (src kernel dst : MatrixArray) (m : Dmems) :
    MainLoopArgs :=
  { call_A := launch_offset k (mark_Dmem1 m).Dmem1 (mark_Dmem1 m).Dmem3 src_diff Dsrc_alloc_dim
      Ddst_alloc_dim ker_dim 0,
    call_B := launch_offset k (mark_Dmem1 m).Dmem2 (mark_Dmem1 m).Dmem4 src_diff Dsrc_alloc_dim
      Ddst_alloc_dim ker_dim 0,
    R_h := R_h, R_w := R_w,
    Dsrc_alloc_dim := Dsrc_alloc_dim, Ddst_alloc_dim := Ddst_alloc_dim, ker_dim := ker_dim,
    src := src, kernel := kernel, dst := dst,
    CM_offset := kernel.width * kernel.height * sizeof_float }

/-- The final drain of a border-constant driver: the destination slot
`from_slot` goes to `dst->MatptrArr.ptr[dst->ArrayNumber - 1]`, device to
host, on stream `S[2]`. -/
def drain_BC (Ddst_alloc_dim : int2) (dst : MatrixArray) (from_slot : MIF) : Op :=
  Op.cudaMemcpy2DAsync
    (Ptr.dst_mat (usub dst.ArrayNumber 1))
    (dst.pitch * sizeof_float)
    (Ptr.dev from_slot.mem)
    (Ddst_alloc_dim.x * sizeof_float4)
    (dst.width * sizeof_float)
    dst.height
    cudaMemcpyKind.DeviceToHost
    (StreamRef.pool 2)

/-! ## The buckets: radii, stencils and drivers by bucket -/

/-- The row (vertical) radius of a bucket `R<rows>x<cols>`: the constant its
engines use in `Dsrc_alloc_dim.y = Ddst_alloc_dim.y + R * 2`. -/
def Bucket.R_h : Bucket → Nat
  | Bucket.R8x8 => bounded_kernel_R8
  | Bucket.R8x16 => bounded_kernel_R8
  | Bucket.R16x8 => bounded_kernel_R16
  | Bucket.R16x16 => bounded_kernel_R16

/-- The column (horizontal) radius of a bucket `R<rows>x<cols>`: the constant
its engines use in `Dsrc_alloc_dim.x = Ddst_alloc_dim.x + R / 2`. -/
def Bucket.R_w : Bucket → Nat
  | Bucket.R8x8 => bounded_kernel_R8
  | Bucket.R8x16 => bounded_kernel_R16
  | Bucket.R16x8 => bounded_kernel_R8
  | Bucket.R16x16 => bounded_kernel_R16

/-- The `exact` stencil of a bucket. -/
def Bucket.exact : Bucket → Stencil
  | Bucket.R8x8 => Stencil.exact8x8
  | Bucket.R8x16 => Stencil.exact8x16
  | Bucket.R16x8 => Stencil.exact16x8
  | Bucket.R16x16 => Stencil.exact16x16

/-- The `within` stencil of a bucket. -/
def Bucket.within : Bucket → Stencil
  | Bucket.R8x8 => Stencil.within8x8
  | Bucket.R8x16 => Stencil.within8x16
  | Bucket.R16x8 => Stencil.within16x8
  | Bucket.R16x16 => Stencil.within16x16

/-- The `exact` border-ignored driver of a bucket. -/
def dev_main_loop_sconv2_sk_exact_NB :
    Bucket → int2 → int2 → int2 → MatrixArray → Matrix → MatrixArray → Int → Int → List Op
  | Bucket.R8x8 => dev_main_loop_sconv2_sk_exact8x8_NB
  | Bucket.R8x16 => dev_main_loop_sconv2_sk_exact8x16_NB
  | Bucket.R16x8 => dev_main_loop_sconv2_sk_exact16x8_NB
  | Bucket.R16x16 => dev_main_loop_sconv2_sk_exact16x16_NB

/-- The `within` border-ignored driver of a bucket. -/
def dev_main_loop_sconv2_sk_within_NB :
    Bucket → int2 → int2 → int2 → MatrixArray → Matrix → MatrixArray → Int → Int → List Op
  | Bucket.R8x8 => dev_main_loop_sconv2_sk_within8x8_NB
  | Bucket.R8x16 => dev_main_loop_sconv2_sk_within8x16_NB
  | Bucket.R16x8 => dev_main_loop_sconv2_sk_within16x8_NB
  | Bucket.R16x16 => dev_main_loop_sconv2_sk_within16x16_NB

/-- The `exact` border-constant driver of a bucket. -/
def main_loop_sconv2_mk_exact_BC :
    Bucket → MainLoop → int2 → int2 → int2 → MatrixArray → MatrixArray → MatrixArray → Dmems →
      Dmems × List Op
  | Bucket.R8x8 => main_loop_sconv2_mk_exact8x8_BC
  | Bucket.R8x16 => main_loop_sconv2_mk_exact8x16_BC
  | Bucket.R16x8 => main_loop_sconv2_mk_exact16x8_BC
  | Bucket.R16x16 => main_loop_sconv2_mk_exact16x16_BC

/-- The `within` border-constant driver of a bucket. -/
def main_loop_sconv2_mk_within_BC :
    Bucket → MainLoop → int2 → int2 → int2 → MatrixArray → MatrixArray → MatrixArray → Dmems →
      Dmems × List Op
  | Bucket.R8x8 => main_loop_sconv2_mk_within8x8_BC
  | Bucket.R8x16 => main_loop_sconv2_mk_within8x16_BC
  | Bucket.R16x8 => main_loop_sconv2_mk_within16x8_BC
  | Bucket.R16x16 => main_loop_sconv2_mk_within16x16_BC

/-! ## Reading a run: allocations, uploads -/

/-- The allocation requests of a run (`_device_malloc` and `cudaMalloc`), in
bytes, in program order. -/
def alloc_requests : List Op → List Int
  | [] => []
  | Op._device_malloc bytes :: ops => bytes :: alloc_requests ops
  | Op.cudaMalloc bytes :: ops => bytes :: alloc_requests ops
  | _ :: ops => alloc_requests ops

/-- The elements of the kernel storage read by the constant-cache uploads of
a run, in program order: an upload of `count` bytes from `kernel + off` reads
the elements `off, ..., off + count / 4 - 1`. -/
def upload_reads : List Op → List Nat
  | [] => []
  | Op.cudaMemcpyToSymbolAsync (Ptr.kernel off) count _ _ _ :: ops =>
    List.range' off (count / sizeof_float) ++ upload_reads ops
  | _ :: ops => upload_reads ops

/-- The elements of the constant cache written by the uploads of a run, in
program order: an upload of `count` bytes at byte offset `offset` writes the
elements `offset / 4, ..., offset / 4 + count / 4 - 1`. -/
def cache_writes : List Op → List Nat
  | [] => []
  | Op.cudaMemcpyToSymbolAsync _ count offset _ _ :: ops =>
    List.range' (offset / sizeof_float) (count / sizeof_float) ++ cache_writes ops
  | _ :: ops => cache_writes ops

/-- The streams the constant-cache uploads of a run are enqueued on, in
program order. -/
def upload_streams : List Op → List StreamRef
  | [] => []
  | Op.cudaMemcpyToSymbolAsync _ _ _ _ stream :: ops => stream :: upload_streams ops
  | _ :: ops => upload_streams ops

/-- The source and destination tile addresses handed to the stencil launches
of a run, in program order. -/
def launch_tiles : List Op → List (Ptr × Ptr)
  | [] => []
  | Op.launch l :: ops => (l.Dsrc, l.Ddst) :: launch_tiles ops
  | _ :: ops => launch_tiles ops

/-- The streams the stencil launches of a run are issued on, in program
order. -/
def launch_streams : List Op → List StreamRef
  | [] => []
  | Op.launch l :: ops => l.stream :: launch_streams ops
  | _ :: ops => launch_streams ops

/-- The streams of everything a run enqueues (uploads, copies, launches), in
program order. -/
def op_streams : List Op → List StreamRef
  | [] => []
  | Op.cudaMemcpyToSymbolAsync _ _ _ _ stream :: ops => stream :: op_streams ops
  | Op.cudaMemcpy2DAsync _ _ _ _ _ _ _ stream :: ops => stream :: op_streams ops
  | Op.launch l :: ops => l.stream :: op_streams ops
  | _ :: ops => op_streams ops

/-- The steps of the spec's pipeline: staging of source element `i`, a
compute step, draining into destination element `i`. -/
inductive Step
  | STAGE (i : Nat)
  | COMPUTE
  | DRAIN (i : Nat)
deriving DecidableEq, Repr

/-- The pipeline steps of a run, in program order: a copy that reads source
element `i` is `STAGE i`, a stencil launch is `COMPUTE`, a copy that writes
destination element `i` is `DRAIN i`. -/
def pipeline_steps : List Op → List Step
  | [] => []
  | Op.cudaMemcpy2DAsync _ _ (Ptr.src_mat i) _ _ _ _ _ :: ops => Step.STAGE i :: pipeline_steps ops
  | Op.cudaMemcpy2DAsync (Ptr.dst_mat i) _ _ _ _ _ _ _ :: ops => Step.DRAIN i :: pipeline_steps ops
  | Op.launch _ :: ops => Step.COMPUTE :: pipeline_steps ops
  | _ :: ops => pipeline_steps ops

/-- At most one source slot and at most one destination slot is `leading`. -/
def Dmems.one_leading_per_role (m : Dmems) : Bool :=
  !(m.Dmem1.leading && m.Dmem2.leading) && !(m.Dmem3.leading && m.Dmem4.leading)

/-- Modelled from the spec: iteration `i` of the macro
`main_loop_regulable_R_mk` (`Conv3_macros.h`, not among the sources).  The
spec has the pipeline alternate between buffer pair A (`Dmem1`/`Dmem3`) and
pair B (`Dmem2`/`Dmem4`): `COMPUTE(i)` runs on the pair whose source slot is
leading and marks its destination slot as the leading one; `leading` flips on
the source pair; when a next stack element exists, `STAGE(i + 1)` goes into
the source slot that has just become leading (placed like the driver's first
staging, on stream 0) and `DRAIN(i)` is enqueued from the destination slot
just computed (shaped like the driver's final drain, on stream 2), which is
marked in use.  The drain of the last element is the driver's. -/
def pingpong_step (a : MainLoopArgs) (i : Nat) (m : Dmems) : Dmems × List Op :=
  let on_A := m.Dmem1.leading
  let compute := Op.launch (if on_A then a.call_A else a.call_B)
  let m : Dmems :=
    { m with Dmem3 := { m.Dmem3 with leading := on_A },
             Dmem4 := { m.Dmem4 with leading := !on_A } }
  let m : Dmems :=
    { m with Dmem1 := { m.Dmem1 with leading := !on_A },
             Dmem2 := { m.Dmem2 with leading := on_A } }
  if i + 1 < a.src.ArrayNumber then
    let next := if on_A then m.Dmem2 else m.Dmem1
    let done := if on_A then m.Dmem3 else m.Dmem4
    let stage :=
      Op.cudaMemcpy2DAsync
        (Ptr.dev (next.mem + a.Dsrc_alloc_dim.x * a.R_h * 4 + a.R_w))
        (a.Dsrc_alloc_dim.x * sizeof_float4)
        (Ptr.src_mat (i + 1))
        (a.src.pitch * sizeof_float)
        (a.src.width * sizeof_float)
        a.src.height
        cudaMemcpyKind.HostToDevice
        (StreamRef.pool 0)
    let drain :=
      Op.cudaMemcpy2DAsync
        (Ptr.dst_mat i)
        (a.dst.pitch * sizeof_float)
        (Ptr.dev done.mem)
        (a.Ddst_alloc_dim.x * sizeof_float4)
        (a.dst.width * sizeof_float)
        a.dst.height
        cudaMemcpyKind.DeviceToHost
        (StreamRef.pool 2)
    let m : Dmems :=
      if on_A then { m with Dmem3 := { m.Dmem3 with _using := true } }
      else { m with Dmem4 := { m.Dmem4 with _using := true } }
    (m, [compute, stage, drain])
  else
    (m, [compute])

/-- Modelled from the spec: the first `k` iterations of the macro
`main_loop_regulable_R_mk`, in stack order. -/
def pingpong_run (a : MainLoopArgs) : Nat → Dmems → Dmems × List Op
  | 0, m => (m, [])
  | k + 1, m =>
    let r := pingpong_run a k m
    let s := pingpong_step a k r.1
    (s.1, r.2 ++ s.2)

/-- Modelled from the spec: the macro `main_loop_regulable_R_mk`
(`Conv3_macros.h`, not among the sources) on a stack: one iteration per
source stack element. -/
def main_loop_pingpong : MainLoop := fun a m => pingpong_run a a.src.ArrayNumber m

end decx

/-! ## Elementwise operators: `de::cpu::Add` (`cpu_add.h`) -/

namespace de

open decx

/-- What `de::cpu::Add` reads of a host matrix `_Matrix<T>`: its element
count; the element data is referred to by the operand it belongs to. -/
structure _Matrix where
  _element_num : Nat
deriving DecidableEq, Repr

/-- The operands of an elementwise call, standing for their data pointers. -/
inductive Operand
  | A | B | src | dst
deriving DecidableEq, Repr

/-- What an elementwise front-end does besides writing its handle: a call of
an arithmetic routine, or a console message. -/
inductive ArithOp
  /-- Call `decx::Kadd_m(A, B, dst, len)`. -/
  | Kadd_m (a b d : Operand) (len : Nat)
  /-- Call `decx::Kadd_c(src, x, dst, len)`. -/
  | Kadd_c (s : Operand) (x : Int) (d : Operand) (len : Nat)
  /-- Call `Print_Error_Message(level, msg)`. -/
  | Print_Error_Message (level : Nat) (msg : ErrMsg)
deriving DecidableEq, Repr

/-- How a call ends: it returns a handle to the caller, or it ends the
process with an exit code. -/
inductive Ending
  | returned (handle : DH)
  | exit (code : Int)
deriving DecidableEq, Repr

/-- A run of an elementwise front-end: the last state of its local handle,
what it did, and how it ended. -/
structure ArithRun where
  handle : DH
  ops : List ArithOp
  ending : Ending
deriving DecidableEq, Repr

/-- Modelled from the spec: `decx::Not_init` is declared in `core/basic.h`,
which is not among the sources; it marks the handle as `NotInitialized`. -/
def Not_init (_handle : DH) : DH := ⟨some Status.NotInitialized⟩

/-- Front-end `de::cpu::Add(Matrix& A, Matrix& B, Matrix& dst)`; `is_init` is
`decx::cpI.is_init`. -/
def cpu.Add (is_init : Bool) (A _B _dst : _Matrix) : ArithRun :=
  let handle : DH := ⟨none⟩
  let handle := Success handle
  if !is_init then
    let handle := Not_init handle
    { handle := handle, ops := [ArithOp.Print_Error_Message 4 ErrMsg.NOT_INIT],
      ending := Ending.exit (-1) }
  else
    { handle := handle,
      ops := [ArithOp.Kadd_m Operand.A Operand.B Operand.dst A._element_num],
      ending := Ending.returned handle }

/-- Front-end `de::cpu::Add(Matrix& src, const T __x, Matrix& dst)`, the
matrix + scalar overload; `is_init` is `decx::cpI.is_init`. -/
def cpu.Add_scalar (is_init : Bool) (src : _Matrix) (__x : Int) (_dst : _Matrix) : ArithRun :=
  let handle : DH := ⟨none⟩
  let handle := Success handle
  if !is_init then
    let handle := Not_init handle
    { handle := handle, ops := [ArithOp.Print_Error_Message 4 ErrMsg.NOT_INIT],
      ending := Ending.exit (-1) }
  else
    { handle := handle,
      ops := [ArithOp.Kadd_c Operand.src __x Operand.dst src._element_num],
      ending := Ending.returned handle }

/-! ## Elementwise operators: `de::cuda::Sub` (`cuda_subtract.h`) -/

/-- What `de::cuda::Sub` reads of a device vector `_GPU_Vector<T>`: its
length; the element data is referred to by the operand it belongs to. -/
structure _GPU_Vector where
  _length : Nat
deriving DecidableEq, Repr

/-- Device routines a vector front-end invokes. -/
inductive DevOp
  /-- Call `decx::dev_Ksub_m(A, B, dst, len)`. -/
  | dev_Ksub_m (a b d : Operand) (len : Nat)
deriving DecidableEq, Repr

/-- Modelled from the spec: `decx::MDim_Not_Matching` is declared in
`core/basic.h`, which is not among the sources; it marks the handle as
`DimensionMismatch`. -/
def MDim_Not_Matching (_handle : DH) : DH := ⟨some Status.DimensionMismatch⟩

/-- Front-end `de::cuda::Sub(GPU_Vector& A, GPU_Vector& B, GPU_Vector& dst)`:
the handle it returns and the device routines it invokes; `is_init` is
`decx::cuP.is_init`. -/
def cuda.Sub (is_init : Bool) (A B _dst : _GPU_Vector) : DH × List DevOp :=
  let handle : DH := ⟨none⟩
  if !is_init then
    (Not_init handle, [])
  else if A._length ≠ B._length then
    (MDim_Not_Matching handle, [])
  else
    let len := A._length
    (Success handle, [DevOp.dev_Ksub_m Operand.A Operand.B Operand.dst len])

end de

namespace decx

/-! ## Destination sizing (C1, C2) -/

/-- C1: for every source stack, kernel, previous destination and handle,
`sConv2_border_zero_mk` leaves the destination stack with the width, the
height and the matrix count of the source stack, whatever the kernel dims. -/
theorem C1_border_zero_dst_dims (row_pitch : Nat → Nat) (main_loop_regulable_R_mk : MainLoop)
    (init : Dmems) (src kernel dst : MatrixArray) (handle : DH) :
    (sConv2_border_zero_mk row_pitch main_loop_regulable_R_mk init src kernel dst handle).dst.width
        = src.width
    ∧ (sConv2_border_zero_mk row_pitch main_loop_regulable_R_mk init src kernel dst handle).dst.height
        = src.height
    ∧ (sConv2_border_zero_mk row_pitch main_loop_regulable_R_mk init src kernel dst
        handle).dst.ArrayNumber = src.ArrayNumber := by
  simp [sConv2_border_zero_mk, conv2_mc_dst_rearrangement, make_uint4]

/-- The destination container the border-ignored dispatcher leaves behind is
the rearranged one, whichever engine it routes to. -/
theorem border_ignore_dst (row_pitch : Nat → Nat) (_device_malloc : Int → Bool)
    (src : MatrixArray) (kernel : Matrix) (dst : MatrixArray) (handle : DH) :
    (dev_sConv2_border_ignore_sk row_pitch _device_malloc src kernel dst handle).dst
      = _dev_conv2_dst_rearrangement row_pitch dst
          (make_uint3 (usub src.width (((kernel.width / 2 : Nat) : Int) * 2))
            (usub src.height (((kernel.height / 2 : Nat) : Int) * 2)) src.ArrayNumber) := by
  unfold dev_sConv2_border_ignore_sk
  simp only []
  split_ifs <;> rfl

/-- Unsigned subtraction is the ordinary difference when it does not go
below zero. -/
theorem usub_of_le (a b : Nat) (ha : a < 4294967296) (hb : 2 * b ≤ a) :
    usub a (((b : Nat) : Int) * 2) = a - 2 * b := by
  unfold usub UINT_RANGE
  omega

/-- C2, as amended: when neither the doubled half-width nor the doubled
half-height of the kernel exceeds the source dim (a `uint`),
`dev_sConv2_border_ignore_sk` sizes the destination to width
`w - 2 * (kw / 2)`, height `h - 2 * (kh / 2)` and the source matrix count. -/
theorem C2_border_ignore_dst_dims (row_pitch : Nat → Nat) (_device_malloc : Int → Bool)
    (src : MatrixArray) (kernel : Matrix) (dst : MatrixArray) (handle : DH)
    (hw : src.width < 4294967296) (hh : src.height < 4294967296)
    (hkw : 2 * (kernel.width / 2) ≤ src.width) (hkh : 2 * (kernel.height / 2) ≤ src.height) :
    (dev_sConv2_border_ignore_sk row_pitch _device_malloc src kernel dst handle).dst.width
        = src.width - 2 * (kernel.width / 2)
    ∧ (dev_sConv2_border_ignore_sk row_pitch _device_malloc src kernel dst handle).dst.height
        = src.height - 2 * (kernel.height / 2)
    ∧ (dev_sConv2_border_ignore_sk row_pitch _device_malloc src kernel dst handle).dst.ArrayNumber
        = src.ArrayNumber := by
  rw [border_ignore_dst]
  simp only [_dev_conv2_dst_rearrangement, make_uint3]
  exact ⟨usub_of_le _ _ hw hkw, usub_of_le _ _ hh hkh, trivial⟩

/-- Witness of C2 (amended): a 10 × 12 stack of three matrices and a 5 × 3
kernel give an 6 × 10 destination stack of three matrices. -/
theorem C2_border_ignore_dst_dims_witness :
    (dev_sConv2_border_ignore_sk id (fun _ => false) ⟨10, 12, 10, 3⟩ ⟨5, 3, 5⟩ ⟨0, 0, 0, 0⟩
        ⟨none⟩).dst.width = 10 - 2 * (5 / 2)
    ∧ (dev_sConv2_border_ignore_sk id (fun _ => false) ⟨10, 12, 10, 3⟩ ⟨5, 3, 5⟩ ⟨0, 0, 0, 0⟩
        ⟨none⟩).dst.height = 12 - 2 * (3 / 2)
    ∧ (dev_sConv2_border_ignore_sk id (fun _ => false) ⟨10, 12, 10, 3⟩ ⟨5, 3, 5⟩ ⟨0, 0, 0, 0⟩
        ⟨none⟩).dst.ArrayNumber = 3 :=
  C2_border_ignore_dst_dims id (fun _ => false) ⟨10, 12, 10, 3⟩ ⟨5, 3, 5⟩ ⟨0, 0, 0, 0⟩ ⟨none⟩
    (by decide) (by decide) (by decide) (by decide)

/-- Counterexample to C2 as stated: a 2 × 2 source and a 5 × 5 kernel.  The
claimed width `2 - 2 * (5 / 2)` is `-2` (zero in truncated subtraction); the
dispatcher sizes the destination to width `4294967294`. -/
theorem C2_counterexample :
    (dev_sConv2_border_ignore_sk id (fun _ => false) ⟨2, 2, 2, 1⟩ ⟨5, 5, 5⟩ ⟨0, 0, 0, 0⟩
        ⟨none⟩).dst.width = 4294967294
    ∧ ((dev_sConv2_border_ignore_sk id (fun _ => false) ⟨2, 2, 2, 1⟩ ⟨5, 5, 5⟩ ⟨0, 0, 0, 0⟩
        ⟨none⟩).dst.width : Int) ≠ (2 : Int) - 2 * (5 / 2)
    ∧ (dev_sConv2_border_ignore_sk id (fun _ => false) ⟨2, 2, 2, 1⟩ ⟨5, 5, 5⟩ ⟨0, 0, 0, 0⟩
        ⟨none⟩).dst.width ≠ 2 - 2 * (5 / 2) := by
  decide

/-! ## Stack order of the border-ignored drivers (C3) -/

theorem staged_sources_append (a b : List Op) :
    staged_sources (a ++ b) = staged_sources a ++ staged_sources b := by
  induction a with
  | nil => rfl
  | cons op ops ih =>
    rw [List.cons_append]
    cases op with
    | cudaMemcpy2DAsync d dp sr sp wd ht kd st => cases sr <;> simp [staged_sources, ih]
    | _ => simp [staged_sources, ih]

theorem drained_dests_append (a b : List Op) :
    drained_dests (a ++ b) = drained_dests a ++ drained_dests b := by
  induction a with
  | nil => rfl
  | cons op ops ih =>
    rw [List.cons_append]
    cases op with
    | cudaMemcpy2DAsync d dp sr sp wd ht kd st => cases d <;> simp [drained_dests, ih]
    | _ => simp [drained_dests, ih]

/-- A loop whose iteration `i` stages source element `i`, launches, and drains
into destination element `i` reads the source stack and writes the destination
stack in stack order. -/
theorem for_loop_stack_order (n : Nat) (stage launch drain : Nat → Op)
    (hs : ∀ i, staged_sources [stage i, launch i, drain i] = [i])
    (hd : ∀ i, drained_dests [stage i, launch i, drain i] = [i]) :
    staged_sources (for_loop n fun i => [stage i, launch i, drain i]) = List.range n
    ∧ drained_dests (for_loop n fun i => [stage i, launch i, drain i]) = List.range n := by
  induction n with
  | zero => exact ⟨rfl, rfl⟩
  | succ n ih =>
    simp only [for_loop, staged_sources_append, drained_dests_append, ih.1, ih.2, hs, hd,
      List.range_succ, and_self]

/-- Seven of the eight border-ignored drivers keep the stack order: iteration
`i` stages source element `i` and drains into destination element `i`. -/
theorem NB_drivers_stack_order (Dsrc_alloc_dim Ddst_alloc_dim ker_dim : int2)
    (src : MatrixArray) (kernel : Matrix) (dst : MatrixArray) (Dsrc Ddst : Int)
    (driver : int2 → int2 → int2 → MatrixArray → Matrix → MatrixArray → Int → Int → List Op)
    (h : driver = dev_main_loop_sconv2_sk_within8x8_NB
       ∨ driver = dev_main_loop_sconv2_sk_exact8x8_NB
       ∨ driver = dev_main_loop_sconv2_sk_within8x16_NB
       ∨ driver = dev_main_loop_sconv2_sk_exact8x16_NB
       ∨ driver = dev_main_loop_sconv2_sk_within16x8_NB
       ∨ driver = dev_main_loop_sconv2_sk_within16x16_NB
       ∨ driver = dev_main_loop_sconv2_sk_exact16x16_NB) :
    staged_sources (driver Dsrc_alloc_dim Ddst_alloc_dim ker_dim src kernel dst Dsrc Ddst)
        = List.range src.ArrayNumber
    ∧ drained_dests (driver Dsrc_alloc_dim Ddst_alloc_dim ker_dim src kernel dst Dsrc Ddst)
        = List.range src.ArrayNumber := by
  rcases h with h | h | h | h | h | h | h <;> subst h <;>
    exact for_loop_stack_order _ _ _ _ (fun _ => rfl) (fun _ => rfl)

/-- The driver `dev_main_loop_sconv2_sk_exact16x8_NB` stages source element 0
in every iteration, while it drains into destination element `i`. -/
theorem exact16x8_NB_stages_element_zero (Dsrc_alloc_dim Ddst_alloc_dim ker_dim : int2)
    (src : MatrixArray) (kernel : Matrix) (dst : MatrixArray) (Dsrc Ddst : Int) :
    staged_sources (dev_main_loop_sconv2_sk_exact16x8_NB Dsrc_alloc_dim Ddst_alloc_dim ker_dim
        src kernel dst Dsrc Ddst) = List.replicate src.ArrayNumber 0
    ∧ drained_dests (dev_main_loop_sconv2_sk_exact16x8_NB Dsrc_alloc_dim Ddst_alloc_dim ker_dim
        src kernel dst Dsrc Ddst) = List.range src.ArrayNumber := by
  unfold dev_main_loop_sconv2_sk_exact16x8_NB
  induction src.ArrayNumber with
  | zero => exact ⟨rfl, rfl⟩
  | succ n ih =>
    rw [for_loop, staged_sources_append, drained_dests_append, ih.1, ih.2,
      List.range_succ, List.replicate_succ']
    exact ⟨rfl, rfl⟩

set_option maxRecDepth 100000 in
/-- C3, the failing run: a stack of two 20 × 40 matrices and a 17 × 33 kernel
(half-extents 8 and 16, the exact kernel of bucket R16x8).  The run of
`dev_sConv2_border_ignore_sk` stages source element 0 in both iterations and
drains into destination elements 0 and 1; with every element of source matrix
0 equal to 1, of source matrix 1 equal to 2 and an all-ones kernel, element
`(0, 0)` of destination matrix 1 ends as `561 = 17 * 33 * 1`, the window sum of
source matrix 0, where source matrix 1 gives `1122`. -/
theorem C3_exact16x8_stack_order_broken :
    launched (dev_sConv2_border_ignore_sk id (fun _ => false) ⟨20, 40, 20, 2⟩ ⟨17, 33, 17⟩
        ⟨0, 0, 0, 0⟩ ⟨none⟩).ops = [Stencil.exact16x8, Stencil.exact16x8]
    ∧ staged_sources (dev_sConv2_border_ignore_sk id (fun _ => false) ⟨20, 40, 20, 2⟩
        ⟨17, 33, 17⟩ ⟨0, 0, 0, 0⟩ ⟨none⟩).ops = [0, 0]
    ∧ drained_dests (dev_sConv2_border_ignore_sk id (fun _ => false) ⟨20, 40, 20, 2⟩
        ⟨17, 33, 17⟩ ⟨0, 0, 0, 0⟩ ⟨none⟩).ops = [0, 1]
    ∧ (run stack_world (dev_sConv2_border_ignore_sk id (fun _ => false) ⟨20, 40, 20, 2⟩
        ⟨17, 33, 17⟩ ⟨0, 0, 0, 0⟩ ⟨none⟩).ops).dst_mats 1 0 = 561 := by
  decide

/-! ## Routing, validation and the status handle (C5, C6, C10) -/

/-- The border-ignored dispatcher routes by comparing each half-extent with
`bounded_kernel_R8` only. -/
theorem border_ignore_ops (row_pitch : Nat → Nat) (_device_malloc : Int → Bool)
    (src : MatrixArray) (kernel : Matrix) (dst : MatrixArray) (handle : DH) :
    (dev_sConv2_border_ignore_sk row_pitch _device_malloc src kernel dst handle).ops
      = dev_Conv2_NB_SK
          (if kernel.width / 2 ≤ 8 then
            (if kernel.height / 2 ≤ 8 then Bucket.R8x8 else Bucket.R16x8)
           else (if kernel.height / 2 ≤ 8 then Bucket.R8x16 else Bucket.R16x16))
          _device_malloc src kernel
          (dev_sConv2_border_ignore_sk row_pitch _device_malloc src kernel dst handle).dst := by
  rw [border_ignore_dst]
  unfold dev_sConv2_border_ignore_sk
  simp only [bounded_kernel_R8]
  by_cases hx : kernel.width / 2 ≤ 8 <;> by_cases hy : kernel.height / 2 ≤ 8
  · rw [if_pos (by omega), if_pos (by omega)]; simp [hx, hy, dev_Conv2_NB_SK]
  · rw [if_pos (by omega), if_neg (by omega)]; simp [hx, hy, dev_Conv2_NB_SK]
  · rw [if_neg (by omega), if_pos (by omega)]; simp [hx, hy, dev_Conv2_NB_SK]
  · rw [if_neg (by omega), if_neg (by omega)]; simp [hx, hy, dev_Conv2_NB_SK]

/-- The border-constant dispatcher routes by comparing each half-extent with
`bounded_kernel_R8` only. -/
theorem border_zero_ops (row_pitch : Nat → Nat) (main_loop_regulable_R_mk : MainLoop)
    (init : Dmems) (src kernel dst : MatrixArray) (handle : DH) :
    (sConv2_border_zero_mk row_pitch main_loop_regulable_R_mk init src kernel dst handle).ops
      = _Conv2_BC_MK
          (if kernel.width / 2 ≤ 8 then
            (if kernel.height / 2 ≤ 8 then Bucket.R8x8 else Bucket.R16x8)
           else (if kernel.height / 2 ≤ 8 then Bucket.R8x16 else Bucket.R16x16))
          main_loop_regulable_R_mk init src kernel
          (sConv2_border_zero_mk row_pitch main_loop_regulable_R_mk init src kernel dst
            handle).dst := by
  unfold sConv2_border_zero_mk
  simp only [bounded_kernel_R8]
  by_cases hx : kernel.width / 2 ≤ 8 <;> by_cases hy : kernel.height / 2 ≤ 8
  · rw [if_pos (by omega), if_pos (by omega)]; simp [hx, hy, _Conv2_BC_MK]
  · rw [if_pos (by omega), if_neg (by omega)]; simp [hx, hy, _Conv2_BC_MK]
  · rw [if_neg (by omega), if_pos (by omega)]; simp [hx, hy, _Conv2_BC_MK]
  · rw [if_neg (by omega), if_neg (by omega)]; simp [hx, hy, _Conv2_BC_MK]

/-- Every border-ignored engine opens with its allocation request. -/
theorem NB_engine_head (b : Bucket) (_device_malloc : Int → Bool) (src : MatrixArray)
    (kernel : Matrix) (dst : MatrixArray) :
    ∃ n rest, dev_Conv2_NB_SK b _device_malloc src kernel dst = Op._device_malloc n :: rest := by
  cases b <;>
    simp only [dev_Conv2_NB_SK, dev_Conv2_NB_R8x8_SK, dev_Conv2_NB_R8x16_SK,
      dev_Conv2_NB_R16x8_SK, dev_Conv2_NB_R16x16_SK] <;>
    split_ifs <;> simp

/-- C5, as amended: for a kernel whose half-width or half-height exceeds 16
neither dispatcher rejects the call.  The axis is classed large, as any
half-extent above 8 is, and the engine of the resulting bucket (R16x8, R8x16
or R16x16) runs on the resized destination; `sConv2_border_zero_mk` then marks
the handle `Success`. -/
theorem C5_oversize_kernel_routed (row_pitch : Nat → Nat) (_device_malloc : Int → Bool)
    (main_loop_regulable_R_mk : MainLoop) (init : Dmems)
    (src : MatrixArray) (kernel : Matrix) (kernels : MatrixArray) (dst : MatrixArray)
    (handle : DH)
    (hk : 16 < kernel.width / 2 ∨ 16 < kernel.height / 2)
    (hks : 16 < kernels.width / 2 ∨ 16 < kernels.height / 2) :
    (dev_sConv2_border_ignore_sk row_pitch _device_malloc src kernel dst handle).ops
        = dev_Conv2_NB_SK
            (if kernel.width / 2 ≤ 8 then Bucket.R16x8
             else if kernel.height / 2 ≤ 8 then Bucket.R8x16 else Bucket.R16x16)
            _device_malloc src kernel
            (dev_sConv2_border_ignore_sk row_pitch _device_malloc src kernel dst handle).dst
    ∧ (sConv2_border_zero_mk row_pitch main_loop_regulable_R_mk init src kernels dst handle).ops
        = _Conv2_BC_MK
            (if kernels.width / 2 ≤ 8 then Bucket.R16x8
             else if kernels.height / 2 ≤ 8 then Bucket.R8x16 else Bucket.R16x16)
            main_loop_regulable_R_mk init src kernels
            (sConv2_border_zero_mk row_pitch main_loop_regulable_R_mk init src kernels dst
              handle).dst
    ∧ (sConv2_border_zero_mk row_pitch main_loop_regulable_R_mk init src kernels dst
        handle).handle = ⟨some Status.Success⟩ := by
  refine ⟨?_, ?_, rfl⟩
  · rw [border_ignore_ops]
    by_cases hx : kernel.width / 2 ≤ 8
    · have hy : ¬ kernel.height / 2 ≤ 8 := by omega
      simp [hx, hy]
    · simp [hx]
  · rw [border_zero_ops]
    by_cases hx : kernels.width / 2 ≤ 8
    · have hy : ¬ kernels.height / 2 ≤ 8 := by omega
      simp [hx, hy]
    · simp [hx]

/-- Witness of C5 (amended): a 35 × 35 kernel (half-extents 17) on a 64 × 64
stack of one matrix is routed to the R16x16 engines. -/
theorem C5_oversize_kernel_routed_witness :
    (dev_sConv2_border_ignore_sk id (fun _ => false) ⟨64, 64, 64, 1⟩ ⟨35, 35, 35⟩ ⟨0, 0, 0, 0⟩
        ⟨none⟩).ops
        = dev_Conv2_NB_SK
            (if (⟨35, 35, 35⟩ : Matrix).width / 2 ≤ 8 then Bucket.R16x8
             else if (⟨35, 35, 35⟩ : Matrix).height / 2 ≤ 8 then Bucket.R8x16 else Bucket.R16x16)
            (fun _ => false) ⟨64, 64, 64, 1⟩ ⟨35, 35, 35⟩
            (dev_sConv2_border_ignore_sk id (fun _ => false) ⟨64, 64, 64, 1⟩ ⟨35, 35, 35⟩
              ⟨0, 0, 0, 0⟩ ⟨none⟩).dst
    ∧ (sConv2_border_zero_mk id main_loop_single Dmems_clear ⟨64, 64, 64, 1⟩ ⟨35, 35, 35, 1⟩
        ⟨0, 0, 0, 0⟩ ⟨none⟩).ops
        = _Conv2_BC_MK
            (if (⟨35, 35, 35, 1⟩ : MatrixArray).width / 2 ≤ 8 then Bucket.R16x8
             else if (⟨35, 35, 35, 1⟩ : MatrixArray).height / 2 ≤ 8 then Bucket.R8x16
             else Bucket.R16x16)
            main_loop_single Dmems_clear ⟨64, 64, 64, 1⟩ ⟨35, 35, 35, 1⟩
            (sConv2_border_zero_mk id main_loop_single Dmems_clear ⟨64, 64, 64, 1⟩
              ⟨35, 35, 35, 1⟩ ⟨0, 0, 0, 0⟩ ⟨none⟩).dst
    ∧ (sConv2_border_zero_mk id main_loop_single Dmems_clear ⟨64, 64, 64, 1⟩ ⟨35, 35, 35, 1⟩
        ⟨0, 0, 0, 0⟩ ⟨none⟩).handle = ⟨some Status.Success⟩ :=
  C5_oversize_kernel_routed id (fun _ => false) main_loop_single Dmems_clear ⟨64, 64, 64, 1⟩
    ⟨35, 35, 35⟩ ⟨35, 35, 35, 1⟩ ⟨0, 0, 0, 0⟩ ⟨none⟩ (by decide) (by decide)

/-- Counterexample to C5 as stated: a 35 × 35 kernel has half-extents 17,
above the large radius limit 16.  Both dispatchers run the R16x16 engine,
which launches the `within16x16` stencil, and `sConv2_border_zero_mk` returns
with the handle holding `Success`. -/
theorem C5_counterexample :
    (16 < (35 : Nat) / 2)
    ∧ (dev_sConv2_border_ignore_sk id (fun _ => false) ⟨64, 64, 64, 1⟩ ⟨35, 35, 35⟩
        ⟨0, 0, 0, 0⟩ ⟨none⟩).ops
        = dev_Conv2_NB_R16x16_SK (fun _ => false) ⟨64, 64, 64, 1⟩ ⟨35, 35, 35⟩ ⟨30, 30, 30, 1⟩
    ∧ launched (dev_sConv2_border_ignore_sk id (fun _ => false) ⟨64, 64, 64, 1⟩ ⟨35, 35, 35⟩
        ⟨0, 0, 0, 0⟩ ⟨none⟩).ops = [Stencil.within16x16]
    ∧ (sConv2_border_zero_mk id main_loop_single Dmems_clear ⟨64, 64, 64, 1⟩ ⟨35, 35, 35, 1⟩
        ⟨0, 0, 0, 0⟩ ⟨none⟩).ops
        = _Conv2_BC_R16x16_MK main_loop_single Dmems_clear ⟨64, 64, 64, 1⟩ ⟨35, 35, 35, 1⟩
            ⟨64, 64, 64, 1⟩
    ∧ launched (sConv2_border_zero_mk id main_loop_single Dmems_clear ⟨64, 64, 64, 1⟩
        ⟨35, 35, 35, 1⟩ ⟨0, 0, 0, 0⟩ ⟨none⟩).ops = [Stencil.within16x16]
    ∧ (sConv2_border_zero_mk id main_loop_single Dmems_clear ⟨64, 64, 64, 1⟩ ⟨35, 35, 35, 1⟩
        ⟨0, 0, 0, 0⟩ ⟨none⟩).handle = ⟨some Status.Success⟩ := by
  decide

/-- C6, as amended: `dev_sConv2_border_ignore_sk` validates nothing.  For
every source and kernel, also when a destination axis would be non-positive,
it resizes the destination to the dims it computed (in unsigned arithmetic)
and runs the engine of one of the four buckets on the resized destination,
which opens with the allocation request. -/
theorem C6_border_ignore_no_validation (row_pitch : Nat → Nat) (_device_malloc : Int → Bool)
    (src : MatrixArray) (kernel : Matrix) (dst : MatrixArray) (handle : DH) :
    (dev_sConv2_border_ignore_sk row_pitch _device_malloc src kernel dst handle).dst
        = _dev_conv2_dst_rearrangement row_pitch dst
            (make_uint3 (usub src.width (((kernel.width / 2 : Nat) : Int) * 2))
              (usub src.height (((kernel.height / 2 : Nat) : Int) * 2)) src.ArrayNumber)
    ∧ (∃ b : Bucket,
        (dev_sConv2_border_ignore_sk row_pitch _device_malloc src kernel dst handle).ops
          = dev_Conv2_NB_SK b _device_malloc src kernel
              (dev_sConv2_border_ignore_sk row_pitch _device_malloc src kernel dst handle).dst)
    ∧ (∃ n rest,
        (dev_sConv2_border_ignore_sk row_pitch _device_malloc src kernel dst handle).ops
          = Op._device_malloc n :: rest) := by
  refine ⟨border_ignore_dst _ _ _ _ _ _, ⟨_, border_ignore_ops _ _ _ _ _ _⟩, ?_⟩
  rw [border_ignore_ops]
  exact NB_engine_head _ _ _ _ _

/-- Counterexample to C6 as stated: a 4 × 4 source and a 5 × 5 kernel make
both destination axes `4 - 2 * 2 = 0`.  The dispatcher resizes the destination
(here from 7 × 7 × 7 to 0 × 0 × 1), runs the R8x8 engine to its end (the
`within8x8` stencil is launched) and leaves the handle unwritten. -/
theorem C6_counterexample :
    ((4 : Nat) ≤ 2 * (5 / 2))
    ∧ (dev_sConv2_border_ignore_sk id (fun _ => false) ⟨4, 4, 4, 1⟩ ⟨5, 5, 5⟩ ⟨7, 7, 7, 7⟩
        ⟨none⟩).dst = ⟨0, 0, 0, 1⟩
    ∧ (dev_sConv2_border_ignore_sk id (fun _ => false) ⟨4, 4, 4, 1⟩ ⟨5, 5, 5⟩ ⟨7, 7, 7, 7⟩
        ⟨none⟩).ops
        = dev_Conv2_NB_R8x8_SK (fun _ => false) ⟨4, 4, 4, 1⟩ ⟨5, 5, 5⟩ ⟨0, 0, 0, 1⟩
    ∧ launched (dev_sConv2_border_ignore_sk id (fun _ => false) ⟨4, 4, 4, 1⟩ ⟨5, 5, 5⟩
        ⟨7, 7, 7, 7⟩ ⟨none⟩).ops = [Stencil.within8x8]
    ∧ (dev_sConv2_border_ignore_sk id (fun _ => false) ⟨4, 4, 4, 1⟩ ⟨5, 5, 5⟩ ⟨7, 7, 7, 7⟩
        ⟨none⟩).handle = ⟨none⟩ := by
  decide

/-! ## Allocation failure in the border-ignored engines (C7, C8, C9) -/

/-- An engine whose allocation request is reported as failed issues the
request and the console message, and nothing else. -/
theorem NB_engine_alloc_fail (b : Bucket) (_device_malloc : Int → Bool) (src : MatrixArray)
    (kernel : Matrix) (dst : MatrixArray)
    (hfail : ∀ n, Op._device_malloc n ∈ dev_Conv2_NB_SK b _device_malloc src kernel dst →
      _device_malloc n = true) :
    ∃ n, dev_Conv2_NB_SK b _device_malloc src kernel dst
      = [Op._device_malloc n, Op.Print_Error_Message 4 ErrMsg.ALLOC_FAIL] := by
  cases b <;>
    simp only [dev_Conv2_NB_SK, dev_Conv2_NB_R8x8_SK, dev_Conv2_NB_R8x16_SK,
      dev_Conv2_NB_R16x8_SK, dev_Conv2_NB_R16x16_SK] at hfail ⊢ <;>
    split_ifs at hfail ⊢ with hm <;>
    first
      | exact ⟨_, rfl⟩
      | exact absurd (hfail _ (List.mem_cons_self _ _)) hm

/-- C7, as amended: when the allocation request of the border-ignored engine
is reported as failed, the run of `dev_sConv2_border_ignore_sk` consists of
that request and of `Print_Error_Message(4, ALLOC_FAIL)`: the failure is
reported on the console and the dispatcher returns. -/
theorem C7_alloc_failure_is_printed (row_pitch : Nat → Nat) (_device_malloc : Int → Bool)
    (src : MatrixArray) (kernel : Matrix) (dst : MatrixArray) (handle : DH)
    (hfail : ∀ n,
      Op._device_malloc n
          ∈ (dev_sConv2_border_ignore_sk row_pitch _device_malloc src kernel dst handle).ops →
        _device_malloc n = true) :
    ∃ n, (dev_sConv2_border_ignore_sk row_pitch _device_malloc src kernel dst handle).ops
      = [Op._device_malloc n, Op.Print_Error_Message 4 ErrMsg.ALLOC_FAIL] := by
  rw [border_ignore_ops] at hfail ⊢
  exact NB_engine_alloc_fail _ _ _ _ _ hfail

/-- Witness of C7 (amended): an allocator that refuses every request, a
10 × 10 stack of one matrix and a 3 × 3 kernel. -/
theorem C7_alloc_failure_is_printed_witness :
    ∃ n, (dev_sConv2_border_ignore_sk id (fun _ => true) ⟨10, 10, 10, 1⟩ ⟨3, 3, 3⟩ ⟨0, 0, 0, 0⟩
        ⟨none⟩).ops
      = [Op._device_malloc n, Op.Print_Error_Message 4 ErrMsg.ALLOC_FAIL] :=
  C7_alloc_failure_is_printed id (fun _ => true) ⟨10, 10, 10, 1⟩ ⟨3, 3, 3⟩ ⟨0, 0, 0, 0⟩ ⟨none⟩
    (fun _ _ => rfl)

/-- Counterexample to C7 as stated: with an allocator that refuses every
request the dispatcher returns with the handle as the caller passed it
(unwritten), not holding `AllocationFailure`. -/
theorem C7_counterexample :
    (dev_sConv2_border_ignore_sk id (fun _ => true) ⟨10, 10, 10, 1⟩ ⟨3, 3, 3⟩ ⟨0, 0, 0, 0⟩
        ⟨none⟩).ops
      = [Op._device_malloc 14336, Op.Print_Error_Message 4 ErrMsg.ALLOC_FAIL]
    ∧ (dev_sConv2_border_ignore_sk id (fun _ => true) ⟨10, 10, 10, 1⟩ ⟨3, 3, 3⟩ ⟨0, 0, 0, 0⟩
        ⟨none⟩).handle = ⟨none⟩
    ∧ (dev_sConv2_border_ignore_sk id (fun _ => true) ⟨10, 10, 10, 1⟩ ⟨3, 3, 3⟩ ⟨0, 0, 0, 0⟩
        ⟨none⟩).handle ≠ ⟨some Status.AllocationFailure⟩ := by
  decide

/-- C8, as amended: when the allocation request is reported as failed, the
destination container on return is the one the dispatcher resized before it
called the engine (border-ignored dims, source matrix count), and the run
holds no copy into a destination element and no device work at all. -/
theorem C8_alloc_failure_dst_resized (row_pitch : Nat → Nat) (_device_malloc : Int → Bool)
    (src : MatrixArray) (kernel : Matrix) (dst : MatrixArray) (handle : DH)
    (hfail : ∀ n,
      Op._device_malloc n
          ∈ (dev_sConv2_border_ignore_sk row_pitch _device_malloc src kernel dst handle).ops →
        _device_malloc n = true) :
    (dev_sConv2_border_ignore_sk row_pitch _device_malloc src kernel dst handle).dst
        = _dev_conv2_dst_rearrangement row_pitch dst
            (make_uint3 (usub src.width (((kernel.width / 2 : Nat) : Int) * 2))
              (usub src.height (((kernel.height / 2 : Nat) : Int) * 2)) src.ArrayNumber)
    ∧ drained_dests
        (dev_sConv2_border_ignore_sk row_pitch _device_malloc src kernel dst handle).ops = []
    ∧ ∀ op ∈ (dev_sConv2_border_ignore_sk row_pitch _device_malloc src kernel dst handle).ops,
        op.is_device_work = false := by
  refine ⟨border_ignore_dst _ _ _ _ _ _, ?_⟩
  rw [border_ignore_ops] at hfail ⊢
  obtain ⟨n, hn⟩ := NB_engine_alloc_fail _ _ _ _ _ hfail
  rw [hn]
  refine ⟨rfl, ?_⟩
  intro op hop
  simp only [List.mem_cons, List.mem_singleton, List.not_mem_nil, or_false] at hop
  rcases hop with h | h <;> subst h <;> rfl

/-- Witness of C8 (amended): an allocator that refuses every request, a
10 × 10 stack of one matrix, a 3 × 3 kernel and an empty destination. -/
theorem C8_alloc_failure_dst_resized_witness :
    (dev_sConv2_border_ignore_sk id (fun _ => true) ⟨10, 10, 10, 1⟩ ⟨3, 3, 3⟩ ⟨0, 0, 0, 0⟩
        ⟨none⟩).dst
        = _dev_conv2_dst_rearrangement id ⟨0, 0, 0, 0⟩
            (make_uint3 (usub (10 : Nat) ((((3 : Nat) / 2 : Nat) : Int) * 2))
              (usub (10 : Nat) ((((3 : Nat) / 2 : Nat) : Int) * 2)) 1)
    ∧ drained_dests
        (dev_sConv2_border_ignore_sk id (fun _ => true) ⟨10, 10, 10, 1⟩ ⟨3, 3, 3⟩ ⟨0, 0, 0, 0⟩
          ⟨none⟩).ops = []
    ∧ ∀ op ∈ (dev_sConv2_border_ignore_sk id (fun _ => true) ⟨10, 10, 10, 1⟩ ⟨3, 3, 3⟩
          ⟨0, 0, 0, 0⟩ ⟨none⟩).ops,
        op.is_device_work = false :=
  C8_alloc_failure_dst_resized id (fun _ => true) ⟨10, 10, 10, 1⟩ ⟨3, 3, 3⟩ ⟨0, 0, 0, 0⟩ ⟨none⟩
    (fun _ _ => rfl)

/-- Counterexample to C8 as stated: with an allocator that refuses every
request, a 10 × 10 stack of one matrix and a 3 × 3 kernel, a destination that
was empty before the call (0 × 0, no matrices) is 8 × 8 with one matrix on
return. -/
theorem C8_counterexample :
    (dev_sConv2_border_ignore_sk id (fun _ => true) ⟨10, 10, 10, 1⟩ ⟨3, 3, 3⟩ ⟨0, 0, 0, 0⟩
        ⟨none⟩).ops
      = [Op._device_malloc 14336, Op.Print_Error_Message 4 ErrMsg.ALLOC_FAIL]
    ∧ (dev_sConv2_border_ignore_sk id (fun _ => true) ⟨10, 10, 10, 1⟩ ⟨3, 3, 3⟩ ⟨0, 0, 0, 0⟩
        ⟨none⟩).dst = ⟨8, 8, 8, 1⟩
    ∧ (dev_sConv2_border_ignore_sk id (fun _ => true) ⟨10, 10, 10, 1⟩ ⟨3, 3, 3⟩ ⟨0, 0, 0, 0⟩
        ⟨none⟩).dst ≠ ⟨0, 0, 0, 0⟩ := by
  decide

/-- C9: in each of the four border-ignored bucket engines, when the
allocation request is reported as failed the engine issues that request and
`Print_Error_Message(4, ALLOC_FAIL)` and returns: no operation of the run is
device work (no stream creation, kernel upload, stage, launch, drain, release,
barrier or stream teardown). -/
theorem C9_alloc_failure_no_device_work (b : Bucket) (_device_malloc : Int → Bool)
    (src : MatrixArray) (kernel : Matrix) (dst : MatrixArray)
    (hfail : ∀ n, Op._device_malloc n ∈ dev_Conv2_NB_SK b _device_malloc src kernel dst →
      _device_malloc n = true) :
    (∃ n, dev_Conv2_NB_SK b _device_malloc src kernel dst
        = [Op._device_malloc n, Op.Print_Error_Message 4 ErrMsg.ALLOC_FAIL])
    ∧ (∀ op ∈ dev_Conv2_NB_SK b _device_malloc src kernel dst, op.is_device_work = false)
    ∧ Op.cudaStreamCreate ∉ dev_Conv2_NB_SK b _device_malloc src kernel dst
    ∧ Op._device_dealloc ∉ dev_Conv2_NB_SK b _device_malloc src kernel dst
    ∧ launched (dev_Conv2_NB_SK b _device_malloc src kernel dst) = []
    ∧ staged_sources (dev_Conv2_NB_SK b _device_malloc src kernel dst) = []
    ∧ drained_dests (dev_Conv2_NB_SK b _device_malloc src kernel dst) = [] := by
  obtain ⟨n, hn⟩ := NB_engine_alloc_fail b _device_malloc src kernel dst hfail
  rw [hn]
  refine ⟨⟨n, rfl⟩, ?_, by simp, by simp, rfl, rfl, rfl⟩
  intro op hop
  simp only [List.mem_cons, List.mem_singleton, List.not_mem_nil, or_false] at hop
  rcases hop with h | h <;> subst h <;> rfl

/-- Witness of C9: the R16x16 engine with an allocator that refuses every
request. -/
theorem C9_alloc_failure_no_device_work_witness :
    (∃ n, dev_Conv2_NB_SK Bucket.R16x16 (fun _ => true) ⟨64, 64, 64, 2⟩ ⟨33, 33, 33⟩
          ⟨32, 32, 32, 2⟩
        = [Op._device_malloc n, Op.Print_Error_Message 4 ErrMsg.ALLOC_FAIL])
    ∧ (∀ op ∈ dev_Conv2_NB_SK Bucket.R16x16 (fun _ => true) ⟨64, 64, 64, 2⟩ ⟨33, 33, 33⟩
          ⟨32, 32, 32, 2⟩, op.is_device_work = false)
    ∧ Op.cudaStreamCreate ∉ dev_Conv2_NB_SK Bucket.R16x16 (fun _ => true) ⟨64, 64, 64, 2⟩
          ⟨33, 33, 33⟩ ⟨32, 32, 32, 2⟩
    ∧ Op._device_dealloc ∉ dev_Conv2_NB_SK Bucket.R16x16 (fun _ => true) ⟨64, 64, 64, 2⟩
          ⟨33, 33, 33⟩ ⟨32, 32, 32, 2⟩
    ∧ launched (dev_Conv2_NB_SK Bucket.R16x16 (fun _ => true) ⟨64, 64, 64, 2⟩ ⟨33, 33, 33⟩
          ⟨32, 32, 32, 2⟩) = []
    ∧ staged_sources (dev_Conv2_NB_SK Bucket.R16x16 (fun _ => true) ⟨64, 64, 64, 2⟩
          ⟨33, 33, 33⟩ ⟨32, 32, 32, 2⟩) = []
    ∧ drained_dests (dev_Conv2_NB_SK Bucket.R16x16 (fun _ => true) ⟨64, 64, 64, 2⟩
          ⟨33, 33, 33⟩ ⟨32, 32, 32, 2⟩) = [] :=
  C9_alloc_failure_no_device_work Bucket.R16x16 (fun _ => true) ⟨64, 64, 64, 2⟩ ⟨33, 33, 33⟩
    ⟨32, 32, 32, 2⟩ (fun _ _ => rfl)

/-! ## The status handle on the successful path (C10) -/

/-- The border-ignored dispatcher never writes the status handle. -/
theorem border_ignore_handle (row_pitch : Nat → Nat) (_device_malloc : Int → Bool)
    (src : MatrixArray) (kernel : Matrix) (dst : MatrixArray) (handle : DH) :
    (dev_sConv2_border_ignore_sk row_pitch _device_malloc src kernel dst handle).handle
      = handle := by
  unfold dev_sConv2_border_ignore_sk
  simp only []
  split_ifs <;> rfl

/-- The border-constant dispatcher always marks the handle `Success`. -/
theorem border_zero_handle (row_pitch : Nat → Nat) (main_loop_regulable_R_mk : MainLoop)
    (init : Dmems) (src kernel dst : MatrixArray) (handle : DH) :
    (sConv2_border_zero_mk row_pitch main_loop_regulable_R_mk init src kernel dst handle).handle
      = ⟨some Status.Success⟩ := rfl

/-- C10, the failing run: a 10 × 10 stack of one matrix, a 3 × 3 kernel, an
allocator that grants the request and a handle nobody has written.
`dev_sConv2_border_ignore_sk` runs the R8x8 engine to its end (stage, launch,
drain, release, barrier, stream teardown) and returns with the handle still
unwritten, while `sConv2_border_zero_mk` on the same dims returns `Success`. -/
theorem C10_border_ignore_handle_not_success :
    (dev_sConv2_border_ignore_sk id (fun _ => false) ⟨10, 10, 10, 1⟩ ⟨3, 3, 3⟩ ⟨0, 0, 0, 0⟩
        ⟨none⟩).handle = ⟨none⟩
    ∧ (dev_sConv2_border_ignore_sk id (fun _ => false) ⟨10, 10, 10, 1⟩ ⟨3, 3, 3⟩ ⟨0, 0, 0, 0⟩
        ⟨none⟩).handle ≠ ⟨some Status.Success⟩
    ∧ launched (dev_sConv2_border_ignore_sk id (fun _ => false) ⟨10, 10, 10, 1⟩ ⟨3, 3, 3⟩
        ⟨0, 0, 0, 0⟩ ⟨none⟩).ops = [Stencil.within8x8]
    ∧ drained_dests (dev_sConv2_border_ignore_sk id (fun _ => false) ⟨10, 10, 10, 1⟩ ⟨3, 3, 3⟩
        ⟨0, 0, 0, 0⟩ ⟨none⟩).ops = [0]
    ∧ (dev_sConv2_border_ignore_sk id (fun _ => false) ⟨10, 10, 10, 1⟩ ⟨3, 3, 3⟩ ⟨0, 0, 0, 0⟩
        ⟨none⟩).ops.getLast? = some Op.cudaStreamDestroy
    ∧ (sConv2_border_zero_mk id main_loop_single Dmems_clear ⟨10, 10, 10, 1⟩ ⟨3, 3, 3, 1⟩
        ⟨0, 0, 0, 0⟩ ⟨none⟩).handle = ⟨some Status.Success⟩ := by
  decide

/-! ## Zero-border correctness of the border-constant engine (C4) -/

theorem run_cons (w : World) (op : Op) (ops : List Op) :
    run w (op :: ops) = run (exec w op) ops := rfl

theorem run_append (w : World) (a b : List Op) : run w (a ++ b) = run (run w a) b := by
  unfold run
  exact List.foldl_append _ _ _ _

/-- The kernel upload loop packs the kernel rows into the constant cache and
touches nothing else. -/
theorem upload_loop_run (kind : cudaMemcpyKind) (stream : StreamRef) (kw kp : Nat) :
    ∀ (todo lin ker : Nat) (w : World),
      (run w (upload_loop kind stream kw kp todo lin ker)).src_mats = w.src_mats
      ∧ (run w (upload_loop kind stream kw kp todo lin ker)).dst_mats = w.dst_mats
      ∧ (run w (upload_loop kind stream kw kp todo lin ker)).kernel_store = w.kernel_store
      ∧ (run w (upload_loop kind stream kw kp todo lin ker)).dev = w.dev
      ∧ (∀ a, a < lin →
          (run w (upload_loop kind stream kw kp todo lin ker)).Const_Mem a = w.Const_Mem a)
      ∧ (∀ i j, i < todo → j < kw →
          (run w (upload_loop kind stream kw kp todo lin ker)).Const_Mem (lin + i * kw + j)
            = w.kernel_store (ker + i * kp + j)) := by
  intro todo
  induction todo with
  | zero =>
    intro lin ker w
    exact ⟨rfl, rfl, rfl, rfl, fun _ _ => rfl, fun i j hi _ => absurd hi (Nat.not_lt_zero i)⟩
  | succ todo ih =>
    intro lin ker w
    rw [upload_loop, run_cons]
    obtain ⟨h1, h2, h3, h4, h5, h6⟩ := ih (lin + kw) (ker + kp)
      (exec w (Op.cudaMemcpyToSymbolAsync (Ptr.kernel ker) (kw * sizeof_float)
        (lin * sizeof_float) kind stream))
    refine ⟨h1, h2, h3, h4, ?_, ?_⟩
    · intro a ha
      rw [h5 a (by omega)]
      simp only [exec, sizeof_float]
      rw [if_neg (by omega)]
    · intro i j hi hj
      cases i with
      | zero =>
        rw [Nat.zero_mul, Nat.zero_mul, Nat.add_zero, Nat.add_zero, h5 _ (by omega)]
        simp only [exec, sizeof_float, World.view]
        rw [if_pos (by omega)]
        congr 1
        omega
      | succ i =>
        have e1 : lin + (i + 1) * kw + j = lin + kw + i * kw + j := by
          rw [Nat.succ_mul]; omega
        have e2 : ker + (i + 1) * kp + j = ker + kp + i * kp + j := by
          rw [Nat.succ_mul]; omega
        rw [e1, e2, h6 i j (by omega) hj]
        rfl

/-- The tile dims of a plan, as natural numbers, for destination dims that
fit an `int`. -/
theorem alloc_plan_dims (R_h R_w kw kh : Nat) (dst : MatrixArray)
    (hw : dst.width < 2147483648) (hh : dst.height < 2147483648) :
    (alloc_plan R_h R_w kw kh dst).ker_dim = ⟨kw, kh⟩
    ∧ (alloc_plan R_h R_w kw kh dst).Ddst_alloc_dim
        = ⟨((16 * ((dst.width + 63) / 64) : Nat) : Int),
            ((16 * ((dst.height + 15) / 16) : Nat) : Int)⟩
    ∧ (alloc_plan R_h R_w kw kh dst).Dsrc_alloc_dim
        = ⟨((16 * ((dst.width + 63) / 64) + R_w / 2 : Nat) : Int),
            ((16 * ((dst.height + 15) / 16) + R_h * 2 : Nat) : Int)⟩ := by
  have cw : utils.ceil (int_cast dst.width) 64 = (((dst.width + 63) / 64 : Nat) : Int) := by
    unfold utils.ceil int_cast UINT_RANGE
    split_ifs <;> omega
  have ch : utils.ceil (int_cast dst.height) 16 = (((dst.height + 15) / 16 : Nat) : Int) := by
    unfold utils.ceil int_cast UINT_RANGE
    split_ifs <;> omega
  refine ⟨rfl, ?_, ?_⟩
  · simp only [alloc_plan, cw, ch, bounded_kernel_R8]
    congr 1 <;> push_cast <;> ring
  · simp only [alloc_plan, cw, ch, bounded_kernel_R8]
    congr 1 <;> push_cast <;> ring

theorem launched_append (a b : List Op) : launched (a ++ b) = launched a ++ launched b := by
  induction a with
  | nil => rfl
  | cons op ops ih =>
    rw [List.cons_append]
    cases op <;> simp [launched, ih]

theorem alloc_requests_append (a b : List Op) :
    alloc_requests (a ++ b) = alloc_requests a ++ alloc_requests b := by
  induction a with
  | nil => rfl
  | cons op ops ih =>
    rw [List.cons_append]
    cases op <;> simp [alloc_requests, ih]

/-- A border-ignored engine whose allocation request is granted: the request,
the stream creation, the kernel upload loop, the `exact` driver when the
kernel is `(2 * R_w + 1)` wide and `(2 * R_h + 1)` high and the `within`
driver otherwise, then the release of the allocation, the barrier and the
stream teardown, in this order. -/
theorem NB_engine_ok (b : Bucket) (_device_malloc : Int → Bool) (src : MatrixArray)
    (kernel : Matrix) (dst : MatrixArray)
    (hok : _device_malloc
      (((alloc_plan b.R_h b.R_w kernel.width kernel.height dst).dev_src_size
        + (alloc_plan b.R_h b.R_w kernel.width kernel.height dst).dev_dst_size)
          * sizeof_float4) = false) :
    dev_Conv2_NB_SK b _device_malloc src kernel dst
      = [Op._device_malloc
            (((alloc_plan b.R_h b.R_w kernel.width kernel.height dst).dev_src_size
              + (alloc_plan b.R_h b.R_w kernel.width kernel.height dst).dev_dst_size)
                * sizeof_float4),
          Op.cudaStreamCreate]
        ++ upload_loop cudaMemcpyKind.DeviceToDevice StreamRef.S kernel.width kernel.pitch
            kernel.height 0 0
        ++ (if kernel.width = 2 * b.R_w + 1 ∧ kernel.height = 2 * b.R_h + 1 then
              dev_main_loop_sconv2_sk_exact_NB b
                (alloc_plan b.R_h b.R_w kernel.width kernel.height dst).Dsrc_alloc_dim
                (alloc_plan b.R_h b.R_w kernel.width kernel.height dst).Ddst_alloc_dim
                (alloc_plan b.R_h b.R_w kernel.width kernel.height dst).ker_dim
                src kernel dst 0
                (4 * (alloc_plan b.R_h b.R_w kernel.width kernel.height dst).dev_src_size)
            else
              dev_main_loop_sconv2_sk_within_NB b
                (alloc_plan b.R_h b.R_w kernel.width kernel.height dst).Dsrc_alloc_dim
                (alloc_plan b.R_h b.R_w kernel.width kernel.height dst).Ddst_alloc_dim
                (alloc_plan b.R_h b.R_w kernel.width kernel.height dst).ker_dim
                src kernel dst 0
                (4 * (alloc_plan b.R_h b.R_w kernel.width kernel.height dst).dev_src_size))
        ++ [Op._device_dealloc, Op.cudaDeviceSynchronize, Op.cudaStreamDestroy] := by
  have e8 : ∀ n : Nat, ((n : Int) = ((8 : Nat) : Int) * 2 + 1) ↔ n = 2 * 8 + 1 := by
    intro n; omega
  have e16 : ∀ n : Nat, ((n : Int) = ((16 : Nat) : Int) * 2 + 1) ↔ n = 2 * 16 + 1 := by
    intro n; omega
  have kx : ∀ R_h R_w, (alloc_plan R_h R_w kernel.width kernel.height dst).ker_dim.x
      = (kernel.width : Int) := fun _ _ => rfl
  have ky : ∀ R_h R_w, (alloc_plan R_h R_w kernel.width kernel.height dst).ker_dim.y
      = (kernel.height : Int) := fun _ _ => rfl
  cases b <;>
    simp only [Bucket.R_h, Bucket.R_w, bounded_kernel_R8, bounded_kernel_R16] at hok ⊢ <;>
    simp only [dev_Conv2_NB_SK, dev_Conv2_NB_R8x8_SK, dev_Conv2_NB_R8x16_SK,
      dev_Conv2_NB_R16x8_SK, dev_Conv2_NB_R16x16_SK, dev_main_loop_sconv2_sk_exact_NB,
      dev_main_loop_sconv2_sk_within_NB, bounded_kernel_R8, bounded_kernel_R16, hok, kx, ky,
      e8, e16, Bool.false_eq_true, if_false]

/-- A border-constant driver, for any main loop: the first staging copy, a
barrier, what the main loop issues, the final drain from `Dmem3` if `Dmem3`
is leading after the main loop and from `Dmem4` otherwise, and a barrier. -/
theorem main_loop_BC_ops (main_loop_regulable_R_mk : MainLoop) (k : Stencil)
    (src_diff : Option int2) (R_h R_w : Nat) (Dsrc_alloc_dim Ddst_alloc_dim ker_dim : int2)
    (src kernel dst : MatrixArray) (m : Dmems) :
    (main_loop_BC main_loop_regulable_R_mk k src_diff R_h R_w Dsrc_alloc_dim Ddst_alloc_dim
        ker_dim src kernel dst m).2
      = [stage0_BC R_h R_w Dsrc_alloc_dim src m, Op.cudaDeviceSynchronize]
        ++ (main_loop_regulable_R_mk
              (main_loop_args_BC k src_diff R_h R_w Dsrc_alloc_dim Ddst_alloc_dim ker_dim src
                kernel dst m) (mark_Dmem1 m)).2
        ++ [drain_BC Ddst_alloc_dim dst
              (if (main_loop_regulable_R_mk
                    (main_loop_args_BC k src_diff R_h R_w Dsrc_alloc_dim Ddst_alloc_dim ker_dim
                      src kernel dst m) (mark_Dmem1 m)).1.Dmem3.leading then
                (main_loop_regulable_R_mk
                    (main_loop_args_BC k src_diff R_h R_w Dsrc_alloc_dim Ddst_alloc_dim ker_dim
                      src kernel dst m) (mark_Dmem1 m)).1.Dmem3
               else
                (main_loop_regulable_R_mk
                    (main_loop_args_BC k src_diff R_h R_w Dsrc_alloc_dim Ddst_alloc_dim ker_dim
                      src kernel dst m) (mark_Dmem1 m)).1.Dmem4),
            Op.cudaDeviceSynchronize] := by
  simp only [main_loop_BC, main_loop_args_BC, mark_Dmem1, stage0_BC, drain_BC]
  split_ifs with h <;> rfl

/-- The stencil and the `src_diff` a border-constant driver of a bucket hands
to its main loop: the `exact` driver the `exact` stencil and no `src_diff`,
the `within` driver the `within` stencil and the distance of the kernel
half-extents from the bucket radii. -/
theorem BC_drivers_eq (b : Bucket) (main_loop_regulable_R_mk : MainLoop)
    (Dsrc_alloc_dim Ddst_alloc_dim ker_dim : int2) (src kernel dst : MatrixArray) (m : Dmems) :
    main_loop_sconv2_mk_exact_BC b main_loop_regulable_R_mk Dsrc_alloc_dim Ddst_alloc_dim ker_dim
        src kernel dst m
      = main_loop_BC main_loop_regulable_R_mk b.exact none b.R_h b.R_w Dsrc_alloc_dim
          Ddst_alloc_dim ker_dim src kernel dst m
    ∧ main_loop_sconv2_mk_within_BC b main_loop_regulable_R_mk Dsrc_alloc_dim Ddst_alloc_dim
        ker_dim src kernel dst m
      = main_loop_BC main_loop_regulable_R_mk b.within
          (some ⟨(b.R_h : Int) - ker_dim.y / 2, (b.R_w : Int) - ker_dim.x / 2⟩) b.R_h b.R_w
          Dsrc_alloc_dim Ddst_alloc_dim ker_dim src kernel dst m := by
  cases b <;> exact ⟨rfl, rfl⟩

/-- A border-constant engine: the allocation, the three streams, the kernel
upload loop on stream `S[0]`, the `exact` driver when the kernel is
`(2 * R_w + 1)` wide and `(2 * R_h + 1)` high and the `within` driver
otherwise, then the release of the allocation and of the streams. -/
theorem BC_engine_ops (b : Bucket) (main_loop_regulable_R_mk : MainLoop) (init : Dmems)
    (src kernel dst : MatrixArray) :
    _Conv2_BC_MK b main_loop_regulable_R_mk init src kernel dst
      = [Op.cudaMalloc
            (2 * ((alloc_plan b.R_h b.R_w kernel.width kernel.height dst).dev_src_size
              + (alloc_plan b.R_h b.R_w kernel.width kernel.height dst).dev_dst_size)
                * sizeof_float4),
          Op.stream_accessor_ptr 0, Op.stream_accessor_ptr 1, Op.stream_accessor_ptr 2]
        ++ upload_loop cudaMemcpyKind.HostToDevice (StreamRef.pool 0) kernel.width kernel.pitch
            kernel.height 0 0
        ++ (if kernel.width = 2 * b.R_w + 1 ∧ kernel.height = 2 * b.R_h + 1 then
              main_loop_sconv2_mk_exact_BC b main_loop_regulable_R_mk
                (alloc_plan b.R_h b.R_w kernel.width kernel.height dst).Dsrc_alloc_dim
                (alloc_plan b.R_h b.R_w kernel.width kernel.height dst).Ddst_alloc_dim
                (alloc_plan b.R_h b.R_w kernel.width kernel.height dst).ker_dim
                src kernel dst
                (slice_Dmems init (alloc_plan b.R_h b.R_w kernel.width kernel.height dst))
            else
              main_loop_sconv2_mk_within_BC b main_loop_regulable_R_mk
                (alloc_plan b.R_h b.R_w kernel.width kernel.height dst).Dsrc_alloc_dim
                (alloc_plan b.R_h b.R_w kernel.width kernel.height dst).Ddst_alloc_dim
                (alloc_plan b.R_h b.R_w kernel.width kernel.height dst).ker_dim
                src kernel dst
                (slice_Dmems init (alloc_plan b.R_h b.R_w kernel.width kernel.height dst))).2
        ++ [Op.cudaFree, Op.detach 0, Op.detach 1, Op.detach 2] := by
  have e8 : ∀ n : Nat, ((n : Int) = ((8 : Nat) : Int) * 2 + 1) ↔ n = 2 * 8 + 1 := by
    intro n; omega
  have e16 : ∀ n : Nat, ((n : Int) = ((16 : Nat) : Int) * 2 + 1) ↔ n = 2 * 16 + 1 := by
    intro n; omega
  have kx : ∀ R_h R_w, (alloc_plan R_h R_w kernel.width kernel.height dst).ker_dim.x
      = (kernel.width : Int) := fun _ _ => rfl
  have ky : ∀ R_h R_w, (alloc_plan R_h R_w kernel.width kernel.height dst).ker_dim.y
      = (kernel.height : Int) := fun _ _ => rfl
  cases b <;>
    simp only [Bucket.R_h, Bucket.R_w, bounded_kernel_R8, bounded_kernel_R16] <;>
    simp only [_Conv2_BC_MK, _Conv2_BC_R8x8_MK, _Conv2_BC_R8x16_MK, _Conv2_BC_R16x8_MK,
      _Conv2_BC_R16x16_MK, main_loop_sconv2_mk_exact_BC, main_loop_sconv2_mk_within_BC,
      bounded_kernel_R8, bounded_kernel_R16, kx, ky, e8, e16]

/-- The kernel upload loop in closed form: iteration `k` copies
`kernel_width` floats from element `offset_ker + k * kernel_pitch` of the
kernel storage to element `offset_lin + k * kernel_width` of the constant
cache. -/
theorem upload_loop_eq_map (kind : cudaMemcpyKind) (stream : StreamRef) (kw kp : Nat) :
    ∀ (todo lin ker : Nat),
      upload_loop kind stream kw kp todo lin ker
        = (List.range todo).map fun k =>
            Op.cudaMemcpyToSymbolAsync (Ptr.kernel (ker + k * kp)) (kw * sizeof_float)
              ((lin + k * kw) * sizeof_float) kind stream := by
  intro todo
  induction todo with
  | zero => intro lin ker; rfl
  | succ todo ih =>
    intro lin ker
    rw [upload_loop, ih, List.range_succ_eq_map, List.map_cons, List.map_map]
    simp only [Nat.zero_mul, Nat.add_zero, List.cons.injEq, true_and]
    apply List.map_congr_left
    intro k _
    simp only [Function.comp, Nat.succ_eq_add_one]
    have e1 : ker + kp + k * kp = ker + (k + 1) * kp := by rw [Nat.succ_mul]; omega
    have e2 : lin + kw + k * kw = lin + (k + 1) * kw := by rw [Nat.succ_mul]; omega
    rw [e1, e2]

/-! ## Radius bucketing and the exact flag (C11, C12, C13) -/

theorem launched_for_loop (n : Nat) (body : Nat → List Op) (k : Stencil)
    (h : ∀ i, launched (body i) = [k]) : launched (for_loop n body) = List.replicate n k := by
  induction n with
  | zero => rfl
  | succ n ih => rw [for_loop, launched_append, ih, h, List.replicate_succ']

theorem launched_upload_loop (kind : cudaMemcpyKind) (stream : StreamRef) (kw kp : Nat) :
    ∀ (todo lin ker : Nat), launched (upload_loop kind stream kw kp todo lin ker) = [] := by
  intro todo
  induction todo with
  | zero => intro _ _; rfl
  | succ todo ih =>
    intro lin ker
    rw [upload_loop]
    exact ih _ _

/-- The border-ignored drivers of a bucket launch the stencil of their name,
once per stack element. -/
theorem NB_drivers_launched (b : Bucket) (Dsrc_alloc_dim Ddst_alloc_dim ker_dim : int2)
    (src : MatrixArray) (kernel : Matrix) (dst : MatrixArray) (Dsrc Ddst : Int) :
    launched (dev_main_loop_sconv2_sk_exact_NB b Dsrc_alloc_dim Ddst_alloc_dim ker_dim src kernel
        dst Dsrc Ddst) = List.replicate src.ArrayNumber b.exact
    ∧ launched (dev_main_loop_sconv2_sk_within_NB b Dsrc_alloc_dim Ddst_alloc_dim ker_dim src
        kernel dst Dsrc Ddst) = List.replicate src.ArrayNumber b.within := by
  cases b <;>
    exact ⟨launched_for_loop _ _ _ (fun _ => rfl), launched_for_loop _ _ _ (fun _ => rfl)⟩

/-- The stencils a border-ignored engine launches: none when the allocation
is refused; otherwise one per stack element, the `exact` stencil of the bucket
when the kernel is `(2 * R_w + 1)` wide and `(2 * R_h + 1)` high and the
`within` stencil of the bucket otherwise. -/
theorem NB_engine_launched (b : Bucket) (_device_malloc : Int → Bool) (src : MatrixArray)
    (kernel : Matrix) (dst : MatrixArray) :
    launched (dev_Conv2_NB_SK b _device_malloc src kernel dst)
      = if _device_malloc
          (((alloc_plan b.R_h b.R_w kernel.width kernel.height dst).dev_src_size
            + (alloc_plan b.R_h b.R_w kernel.width kernel.height dst).dev_dst_size)
              * sizeof_float4) = true then []
        else List.replicate src.ArrayNumber
          (if kernel.width = 2 * b.R_w + 1 ∧ kernel.height = 2 * b.R_h + 1 then b.exact
           else b.within) := by
  by_cases hm : _device_malloc
      (((alloc_plan b.R_h b.R_w kernel.width kernel.height dst).dev_src_size
        + (alloc_plan b.R_h b.R_w kernel.width kernel.height dst).dev_dst_size)
          * sizeof_float4) = true
  · rw [if_pos hm]
    cases b <;>
      simp only [Bucket.R_h, Bucket.R_w] at hm <;>
      simp [dev_Conv2_NB_SK, dev_Conv2_NB_R8x8_SK, dev_Conv2_NB_R8x16_SK,
        dev_Conv2_NB_R16x8_SK, dev_Conv2_NB_R16x16_SK, hm, launched]
  · rw [if_neg hm, NB_engine_ok b _ _ _ _ (by simpa using hm), launched_append, launched_append,
      launched_append, launched_upload_loop]
    have h1 : ∀ n, launched [Op._device_malloc n, Op.cudaStreamCreate] = [] := fun _ => rfl
    have h2 : launched [Op._device_dealloc, Op.cudaDeviceSynchronize, Op.cudaStreamDestroy]
        = [] := rfl
    rw [h1, h2, List.nil_append, List.nil_append, List.append_nil]
    split_ifs
    · exact (NB_drivers_launched b _ _ _ _ _ _ _ _).1
    · exact (NB_drivers_launched b _ _ _ _ _ _ _ _).2

/-- The stencils launched in a border-constant engine are those its main loop
launches; when the main loop launches only the two calls it is handed, each
of them is the `exact` stencil of the bucket when the kernel is
`(2 * R_w + 1)` wide and `(2 * R_h + 1)` high and the `within` stencil of the
bucket otherwise. -/
theorem BC_engine_launched (b : Bucket) (main_loop_regulable_R_mk : MainLoop) (init : Dmems)
    (src kernel dst : MatrixArray)
    (hml : ∀ a m, ∀ s ∈ launched (main_loop_regulable_R_mk a m).2,
      s = a.call_A.kernel ∨ s = a.call_B.kernel) :
    ∀ s ∈ launched (_Conv2_BC_MK b main_loop_regulable_R_mk init src kernel dst),
      s = if kernel.width = 2 * b.R_w + 1 ∧ kernel.height = 2 * b.R_h + 1 then b.exact
          else b.within := by
  intro s hs
  have h1 : ∀ n, launched [Op.cudaMalloc n, Op.stream_accessor_ptr 0, Op.stream_accessor_ptr 1,
      Op.stream_accessor_ptr 2] = [] := fun _ => rfl
  have h2 : launched [Op.cudaFree, Op.detach 0, Op.detach 1, Op.detach 2] = [] := rfl
  have h3 : ∀ op, launched [op, Op.cudaDeviceSynchronize] = launched [op] := by
    intro op; cases op <;> rfl
  have h4 : ∀ R_h R_w D src m, launched [stage0_BC R_h R_w D src m] = [] :=
    fun _ _ _ _ _ => rfl
  have h5 : ∀ D dst slot, launched [drain_BC D dst slot] = [] := fun _ _ _ => rfl
  rw [BC_engine_ops, launched_append, launched_append, launched_append, launched_upload_loop,
    h1, h2, List.nil_append, List.nil_append, List.append_nil] at hs
  split_ifs at hs ⊢
  · rw [(BC_drivers_eq b _ _ _ _ _ _ _ _).1, main_loop_BC_ops, launched_append,
      launched_append, h3, h3, h4, h5, List.nil_append, List.append_nil] at hs
    rcases hml _ _ s hs with h | h <;> rw [h] <;> rfl
  · rw [(BC_drivers_eq b _ _ _ _ _ _ _ _).2, main_loop_BC_ops, launched_append,
      launched_append, h3, h3, h4, h5, List.nil_append, List.append_nil] at hs
    rcases hml _ _ s hs with h | h <;> rw [h] <;> rfl

/-- The single-matrix main loop launches only the first call it is handed. -/
theorem main_loop_single_launches (a : MainLoopArgs) (m : Dmems) :
    ∀ s ∈ launched (main_loop_single a m).2, s = a.call_A.kernel ∨ s = a.call_B.kernel := by
  intro s hs
  have e : launched (main_loop_single a m).2 = [a.call_A.kernel] := rfl
  rw [e, List.mem_singleton] at hs
  exact Or.inl hs

/-- Every border-ignored engine opens with the request for the two tiles its
bucket radii plan. -/
theorem NB_engine_request (b : Bucket) (_device_malloc : Int → Bool) (src : MatrixArray)
    (kernel : Matrix) (dst : MatrixArray) :
    ∃ rest, dev_Conv2_NB_SK b _device_malloc src kernel dst
      = Op._device_malloc
          (((alloc_plan b.R_h b.R_w kernel.width kernel.height dst).dev_src_size
            + (alloc_plan b.R_h b.R_w kernel.width kernel.height dst).dev_dst_size)
              * sizeof_float4) :: rest := by
  cases b <;>
    simp only [dev_Conv2_NB_SK, dev_Conv2_NB_R8x8_SK, dev_Conv2_NB_R8x16_SK,
      dev_Conv2_NB_R16x8_SK, dev_Conv2_NB_R16x16_SK, Bucket.R_h, Bucket.R_w] <;>
    split_ifs <;> simp

/-- C11: both dispatchers compare each half-extent of the kernel with
`R_s = 8` and route accordingly: half-width and half-height at most 8 to
R8x8, half-width at most 8 and half-height above 8 to R16x8, half-width above
8 and half-height at most 8 to R8x16, both above 8 to R16x16.  The two
dispatchers pick the same bucket for the same kernel dims, and the bucket
picked has the radius of the vertical class as its row radius and the radius
of the horizontal class as its column radius, which are the radii its engine
plans the source tile with. -/
theorem C11_radius_bucketing (row_pitch : Nat → Nat) (_device_malloc : Int → Bool)
    (main_loop_regulable_R_mk : MainLoop) (init : Dmems) (src dst : MatrixArray) (handle : DH)
    (kw kh kp kp2 nk : Nat) :
    (dev_sConv2_border_ignore_sk row_pitch _device_malloc src ⟨kw, kh, kp⟩ dst handle).ops
        = dev_Conv2_NB_SK
            (if kw / 2 ≤ 8 then (if kh / 2 ≤ 8 then Bucket.R8x8 else Bucket.R16x8)
             else (if kh / 2 ≤ 8 then Bucket.R8x16 else Bucket.R16x16))
            _device_malloc src ⟨kw, kh, kp⟩
            (dev_sConv2_border_ignore_sk row_pitch _device_malloc src ⟨kw, kh, kp⟩ dst handle).dst
    ∧ (sConv2_border_zero_mk row_pitch main_loop_regulable_R_mk init src ⟨kw, kh, kp2, nk⟩ dst
        handle).ops
        = _Conv2_BC_MK
            (if kw / 2 ≤ 8 then (if kh / 2 ≤ 8 then Bucket.R8x8 else Bucket.R16x8)
             else (if kh / 2 ≤ 8 then Bucket.R8x16 else Bucket.R16x16))
            main_loop_regulable_R_mk init src ⟨kw, kh, kp2, nk⟩
            (sConv2_border_zero_mk row_pitch main_loop_regulable_R_mk init src ⟨kw, kh, kp2, nk⟩
              dst handle).dst
    ∧ (if kw / 2 ≤ 8 then (if kh / 2 ≤ 8 then Bucket.R8x8 else Bucket.R16x8)
         else (if kh / 2 ≤ 8 then Bucket.R8x16 else Bucket.R16x16)).R_h
        = (if kh / 2 ≤ 8 then 8 else 16)
    ∧ (if kw / 2 ≤ 8 then (if kh / 2 ≤ 8 then Bucket.R8x8 else Bucket.R16x8)
         else (if kh / 2 ≤ 8 then Bucket.R8x16 else Bucket.R16x16)).R_w
        = (if kw / 2 ≤ 8 then 8 else 16)
    ∧ (∃ rest,
        (dev_sConv2_border_ignore_sk row_pitch _device_malloc src ⟨kw, kh, kp⟩ dst handle).ops
          = Op._device_malloc
              (((alloc_plan (if kh / 2 ≤ 8 then 8 else 16) (if kw / 2 ≤ 8 then 8 else 16) kw kh
                    (dev_sConv2_border_ignore_sk row_pitch _device_malloc src ⟨kw, kh, kp⟩ dst
                      handle).dst).dev_src_size
                + (alloc_plan (if kh / 2 ≤ 8 then 8 else 16) (if kw / 2 ≤ 8 then 8 else 16) kw kh
                    (dev_sConv2_border_ignore_sk row_pitch _device_malloc src ⟨kw, kh, kp⟩ dst
                      handle).dst).dev_dst_size) * sizeof_float4) :: rest)
    ∧ (∃ rest,
        (sConv2_border_zero_mk row_pitch main_loop_regulable_R_mk init src ⟨kw, kh, kp2, nk⟩ dst
            handle).ops
          = Op.cudaMalloc
              (2 * ((alloc_plan (if kh / 2 ≤ 8 then 8 else 16) (if kw / 2 ≤ 8 then 8 else 16) kw
                    kh (sConv2_border_zero_mk row_pitch main_loop_regulable_R_mk init src
                      ⟨kw, kh, kp2, nk⟩ dst handle).dst).dev_src_size
                + (alloc_plan (if kh / 2 ≤ 8 then 8 else 16) (if kw / 2 ≤ 8 then 8 else 16) kw kh
                    (sConv2_border_zero_mk row_pitch main_loop_regulable_R_mk init src
                      ⟨kw, kh, kp2, nk⟩ dst handle).dst).dev_dst_size) * sizeof_float4)
            :: rest) := by
  have hRh : (if kw / 2 ≤ 8 then (if kh / 2 ≤ 8 then Bucket.R8x8 else Bucket.R16x8)
      else (if kh / 2 ≤ 8 then Bucket.R8x16 else Bucket.R16x16)).R_h
      = (if kh / 2 ≤ 8 then 8 else 16) := by
    split_ifs <;> rfl
  have hRw : (if kw / 2 ≤ 8 then (if kh / 2 ≤ 8 then Bucket.R8x8 else Bucket.R16x8)
      else (if kh / 2 ≤ 8 then Bucket.R8x16 else Bucket.R16x16)).R_w
      = (if kw / 2 ≤ 8 then 8 else 16) := by
    split_ifs <;> rfl
  refine ⟨border_ignore_ops _ _ _ _ _ _, border_zero_ops _ _ _ _ _ _ _, hRh, hRw, ?_, ?_⟩
  · rw [border_ignore_ops, ← hRh, ← hRw]
    exact NB_engine_request _ _ _ _ _
  · rw [border_zero_ops, BC_engine_ops, ← hRh, ← hRw]
    exact ⟨_, rfl⟩

/-- C12, as amended: the engine of a bucket with radii `R_w` (horizontal) and
`R_h` (vertical) selects the `exact` specialisation if and only if the kernel
is exactly `2 * R_w + 1` wide and `2 * R_h + 1` high, and the `within`
specialisation in every other case: a border-ignored engine whose allocation
is granted launches that stencil once per stack element, and every stencil
launched in a border-constant engine (whose main loop launches only the two
calls it is handed) is that stencil.  For a kernel of odd width and odd
height the test is the same as `width / 2 = R_w` and `height / 2 = R_h`. -/
theorem C12_exact_flag (b : Bucket) (_device_malloc : Int → Bool)
    (main_loop_regulable_R_mk : MainLoop) (init : Dmems) (src : MatrixArray) (kernel : Matrix)
    (srcs kernels : MatrixArray) (dst : MatrixArray)
    (hml : ∀ a m, ∀ s ∈ launched (main_loop_regulable_R_mk a m).2,
      s = a.call_A.kernel ∨ s = a.call_B.kernel) :
    launched (dev_Conv2_NB_SK b _device_malloc src kernel dst)
        = (if _device_malloc
            (((alloc_plan b.R_h b.R_w kernel.width kernel.height dst).dev_src_size
              + (alloc_plan b.R_h b.R_w kernel.width kernel.height dst).dev_dst_size)
                * sizeof_float4) = true then []
           else List.replicate src.ArrayNumber
            (if kernel.width = 2 * b.R_w + 1 ∧ kernel.height = 2 * b.R_h + 1 then b.exact
             else b.within))
    ∧ (∀ s ∈ launched (_Conv2_BC_MK b main_loop_regulable_R_mk init srcs kernels dst),
        s = if kernels.width = 2 * b.R_w + 1 ∧ kernels.height = 2 * b.R_h + 1 then b.exact
            else b.within)
    ∧ (kernel.width % 2 = 1 → kernel.height % 2 = 1 →
        ((kernel.width = 2 * b.R_w + 1 ∧ kernel.height = 2 * b.R_h + 1)
          ↔ (kernel.width / 2 = b.R_w ∧ kernel.height / 2 = b.R_h))) := by
  refine ⟨NB_engine_launched b _ _ _ _, BC_engine_launched b _ _ _ _ _ hml, ?_⟩
  intro h1 h2
  omega

/-- Witness of C12 (amended): the R16x8 engines on a stack of two 40 × 60
matrices with the 17 × 33 kernel, allocation granted, single-matrix main
loop. -/
theorem C12_exact_flag_witness :
    launched (dev_Conv2_NB_SK Bucket.R16x8 (fun _ => false) ⟨40, 60, 40, 2⟩ ⟨17, 33, 17⟩
        ⟨24, 28, 24, 2⟩)
        = (if (fun _ => false : Int → Bool)
            (((alloc_plan Bucket.R16x8.R_h Bucket.R16x8.R_w (⟨17, 33, 17⟩ : Matrix).width
                  (⟨17, 33, 17⟩ : Matrix).height ⟨24, 28, 24, 2⟩).dev_src_size
              + (alloc_plan Bucket.R16x8.R_h Bucket.R16x8.R_w (⟨17, 33, 17⟩ : Matrix).width
                  (⟨17, 33, 17⟩ : Matrix).height ⟨24, 28, 24, 2⟩).dev_dst_size)
                * sizeof_float4) = true then []
           else List.replicate (⟨40, 60, 40, 2⟩ : MatrixArray).ArrayNumber
            (if (⟨17, 33, 17⟩ : Matrix).width = 2 * Bucket.R16x8.R_w + 1
                ∧ (⟨17, 33, 17⟩ : Matrix).height = 2 * Bucket.R16x8.R_h + 1 then
              Bucket.R16x8.exact
             else Bucket.R16x8.within))
    ∧ (∀ s ∈ launched (_Conv2_BC_MK Bucket.R16x8 main_loop_single Dmems_clear ⟨40, 60, 40, 1⟩
          ⟨17, 33, 17, 1⟩ ⟨40, 60, 40, 1⟩),
        s = if (⟨17, 33, 17, 1⟩ : MatrixArray).width = 2 * Bucket.R16x8.R_w + 1
              ∧ (⟨17, 33, 17, 1⟩ : MatrixArray).height = 2 * Bucket.R16x8.R_h + 1 then
            Bucket.R16x8.exact
            else Bucket.R16x8.within)
    ∧ ((⟨17, 33, 17⟩ : Matrix).width % 2 = 1 → (⟨17, 33, 17⟩ : Matrix).height % 2 = 1 →
        (((⟨17, 33, 17⟩ : Matrix).width = 2 * Bucket.R16x8.R_w + 1
            ∧ (⟨17, 33, 17⟩ : Matrix).height = 2 * Bucket.R16x8.R_h + 1)
          ↔ ((⟨17, 33, 17⟩ : Matrix).width / 2 = Bucket.R16x8.R_w
            ∧ (⟨17, 33, 17⟩ : Matrix).height / 2 = Bucket.R16x8.R_h))) :=
  C12_exact_flag Bucket.R16x8 (fun _ => false) main_loop_single Dmems_clear ⟨40, 60, 40, 2⟩
    ⟨17, 33, 17⟩ ⟨40, 60, 40, 1⟩ ⟨17, 33, 17, 1⟩ ⟨24, 28, 24, 2⟩ main_loop_single_launches

/-- Counterexample to C12 as stated: a 16 × 16 kernel has half-extents
`16 / 2 = 8`, the maxima of bucket R8x8, to which both dispatchers route it;
the engines launch the `within8x8` stencil, not the `exact8x8` one. -/
theorem C12_counterexample :
    ((16 : Nat) / 2 = Bucket.R8x8.R_w ∧ (16 : Nat) / 2 = Bucket.R8x8.R_h)
    ∧ (dev_sConv2_border_ignore_sk id (fun _ => false) ⟨40, 40, 40, 1⟩ ⟨16, 16, 16⟩
        ⟨0, 0, 0, 0⟩ ⟨none⟩).ops
        = dev_Conv2_NB_R8x8_SK (fun _ => false) ⟨40, 40, 40, 1⟩ ⟨16, 16, 16⟩ ⟨24, 24, 24, 1⟩
    ∧ launched (dev_sConv2_border_ignore_sk id (fun _ => false) ⟨40, 40, 40, 1⟩ ⟨16, 16, 16⟩
        ⟨0, 0, 0, 0⟩ ⟨none⟩).ops = [Stencil.within8x8]
    ∧ (sConv2_border_zero_mk id main_loop_single Dmems_clear ⟨40, 40, 40, 1⟩ ⟨16, 16, 16, 1⟩
        ⟨0, 0, 0, 0⟩ ⟨none⟩).ops
        = _Conv2_BC_R8x8_MK main_loop_single Dmems_clear ⟨40, 40, 40, 1⟩ ⟨16, 16, 16, 1⟩
            ⟨40, 40, 40, 1⟩
    ∧ launched (sConv2_border_zero_mk id main_loop_single Dmems_clear ⟨40, 40, 40, 1⟩
        ⟨16, 16, 16, 1⟩ ⟨0, 0, 0, 0⟩ ⟨none⟩).ops = [Stencil.within8x8] := by
  decide

/-- C13, as amended: selection is a pure function of the kernel dims.  For
any two runs of a dispatcher, whatever the rest of the two inputs, kernels
with the same half-extents are routed to the same bucket, and kernels with
the same width and height make the engines launch the same stencil (the same
bucket and the same exact/within flag). -/
theorem C13_selection_pure (row_pitch₁ row_pitch₂ : Nat → Nat)
    (_device_malloc₁ _device_malloc₂ : Int → Bool) (main_loop₁ main_loop₂ : MainLoop)
    (init₁ init₂ : Dmems) (src₁ src₂ dst₁ dst₂ srcs₁ srcs₂ dsts₁ dsts₂ : MatrixArray)
    (handle₁ handle₂ : DH) (kernel₁ kernel₂ : Matrix) (kernels₁ kernels₂ : MatrixArray)
    (hml₁ : ∀ a m, ∀ s ∈ launched (main_loop₁ a m).2, s = a.call_A.kernel ∨ s = a.call_B.kernel)
    (hml₂ : ∀ a m, ∀ s ∈ launched (main_loop₂ a m).2, s = a.call_A.kernel ∨ s = a.call_B.kernel) :
    (kernel₁.width / 2 = kernel₂.width / 2 → kernel₁.height / 2 = kernel₂.height / 2 →
      ∃ b,
        (dev_sConv2_border_ignore_sk row_pitch₁ _device_malloc₁ src₁ kernel₁ dst₁ handle₁).ops
          = dev_Conv2_NB_SK b _device_malloc₁ src₁ kernel₁
              (dev_sConv2_border_ignore_sk row_pitch₁ _device_malloc₁ src₁ kernel₁ dst₁
                handle₁).dst
        ∧ (dev_sConv2_border_ignore_sk row_pitch₂ _device_malloc₂ src₂ kernel₂ dst₂ handle₂).ops
          = dev_Conv2_NB_SK b _device_malloc₂ src₂ kernel₂
              (dev_sConv2_border_ignore_sk row_pitch₂ _device_malloc₂ src₂ kernel₂ dst₂
                handle₂).dst)
    ∧ (kernels₁.width / 2 = kernels₂.width / 2 → kernels₁.height / 2 = kernels₂.height / 2 →
      ∃ b,
        (sConv2_border_zero_mk row_pitch₁ main_loop₁ init₁ srcs₁ kernels₁ dsts₁ handle₁).ops
          = _Conv2_BC_MK b main_loop₁ init₁ srcs₁ kernels₁
              (sConv2_border_zero_mk row_pitch₁ main_loop₁ init₁ srcs₁ kernels₁ dsts₁
                handle₁).dst
        ∧ (sConv2_border_zero_mk row_pitch₂ main_loop₂ init₂ srcs₂ kernels₂ dsts₂ handle₂).ops
          = _Conv2_BC_MK b main_loop₂ init₂ srcs₂ kernels₂
              (sConv2_border_zero_mk row_pitch₂ main_loop₂ init₂ srcs₂ kernels₂ dsts₂
                handle₂).dst)
    ∧ (kernel₁.width = kernel₂.width → kernel₁.height = kernel₂.height →
      ∀ s₁ ∈ launched
          (dev_sConv2_border_ignore_sk row_pitch₁ _device_malloc₁ src₁ kernel₁ dst₁ handle₁).ops,
        ∀ s₂ ∈ launched
            (dev_sConv2_border_ignore_sk row_pitch₂ _device_malloc₂ src₂ kernel₂ dst₂
              handle₂).ops,
          s₁ = s₂)
    ∧ (kernels₁.width = kernels₂.width → kernels₁.height = kernels₂.height →
      ∀ s₁ ∈ launched
          (sConv2_border_zero_mk row_pitch₁ main_loop₁ init₁ srcs₁ kernels₁ dsts₁ handle₁).ops,
        ∀ s₂ ∈ launched
            (sConv2_border_zero_mk row_pitch₂ main_loop₂ init₂ srcs₂ kernels₂ dsts₂ handle₂).ops,
          s₁ = s₂) := by
  refine ⟨?_, ?_, ?_, ?_⟩
  · intro hw hh
    refine ⟨_, border_ignore_ops _ _ _ _ _ _, ?_⟩
    rw [border_ignore_ops, hw, hh]
  · intro hw hh
    refine ⟨_, border_zero_ops _ _ _ _ _ _ _, ?_⟩
    rw [border_zero_ops, hw, hh]
  · intro hw hh s₁ hs₁ s₂ hs₂
    have pick : ∀ (c : Prop) [Decidable c] (n : Nat) (k s : Stencil),
        s ∈ (if c then [] else List.replicate n k) → s = k := by
      intro c _ n k s hs
      by_cases hc : c
      · rw [if_pos hc] at hs; exact absurd hs (List.not_mem_nil _)
      · rw [if_neg hc] at hs; exact List.eq_of_mem_replicate hs
    rw [border_ignore_ops, NB_engine_launched] at hs₁ hs₂
    rw [pick _ _ _ _ hs₁, pick _ _ _ _ hs₂, hw, hh]
  · intro hw hh s₁ hs₁ s₂ hs₂
    rw [border_zero_ops] at hs₁ hs₂
    rw [BC_engine_launched _ _ _ _ _ _ hml₁ s₁ hs₁, BC_engine_launched _ _ _ _ _ _ hml₂ s₂ hs₂,
      hw, hh]

/-- Witness of C13 (amended): two runs that differ in source, destination,
kernel pitch and allocator, both with a 5 × 7 kernel. -/
theorem C13_selection_pure_witness :
    (∃ b,
      (dev_sConv2_border_ignore_sk id (fun _ => false) ⟨40, 40, 40, 2⟩ ⟨5, 7, 5⟩ ⟨0, 0, 0, 0⟩
          ⟨none⟩).ops
        = dev_Conv2_NB_SK b (fun _ => false) ⟨40, 40, 40, 2⟩ ⟨5, 7, 5⟩
            (dev_sConv2_border_ignore_sk id (fun _ => false) ⟨40, 40, 40, 2⟩ ⟨5, 7, 5⟩
              ⟨0, 0, 0, 0⟩ ⟨none⟩).dst
      ∧ (dev_sConv2_border_ignore_sk (fun n => n + 3) (fun n => decide (n < 0)) ⟨100, 80, 128, 3⟩
          ⟨5, 7, 8⟩ ⟨9, 9, 9, 9⟩ ⟨some Status.Success⟩).ops
        = dev_Conv2_NB_SK b (fun n => decide (n < 0)) ⟨100, 80, 128, 3⟩ ⟨5, 7, 8⟩
            (dev_sConv2_border_ignore_sk (fun n => n + 3) (fun n => decide (n < 0))
              ⟨100, 80, 128, 3⟩ ⟨5, 7, 8⟩ ⟨9, 9, 9, 9⟩ ⟨some Status.Success⟩).dst)
    ∧ (∀ s₁ ∈ launched
          (dev_sConv2_border_ignore_sk id (fun _ => false) ⟨40, 40, 40, 2⟩ ⟨5, 7, 5⟩ ⟨0, 0, 0, 0⟩
            ⟨none⟩).ops,
        ∀ s₂ ∈ launched
            (dev_sConv2_border_ignore_sk (fun n => n + 3) (fun n => decide (n < 0))
              ⟨100, 80, 128, 3⟩ ⟨5, 7, 8⟩ ⟨9, 9, 9, 9⟩ ⟨some Status.Success⟩).ops,
          s₁ = s₂)
    ∧ (∀ s₁ ∈ launched
          (sConv2_border_zero_mk id main_loop_single Dmems_clear ⟨40, 40, 40, 1⟩ ⟨5, 7, 5, 1⟩
            ⟨0, 0, 0, 0⟩ ⟨none⟩).ops,
        ∀ s₂ ∈ launched
            (sConv2_border_zero_mk (fun n => n + 3) main_loop_single Dmems_clear
              ⟨100, 80, 128, 1⟩ ⟨5, 7, 8, 1⟩ ⟨9, 9, 9, 9⟩ ⟨some Status.Success⟩).ops,
          s₁ = s₂) :=
  have h := C13_selection_pure id (fun n => n + 3) (fun _ => false) (fun n => decide (n < 0))
    main_loop_single main_loop_single Dmems_clear Dmems_clear
    ⟨40, 40, 40, 2⟩ ⟨100, 80, 128, 3⟩ ⟨0, 0, 0, 0⟩ ⟨9, 9, 9, 9⟩
    ⟨40, 40, 40, 1⟩ ⟨100, 80, 128, 1⟩ ⟨0, 0, 0, 0⟩ ⟨9, 9, 9, 9⟩
    ⟨none⟩ ⟨some Status.Success⟩ ⟨5, 7, 5⟩ ⟨5, 7, 8⟩ ⟨5, 7, 5, 1⟩ ⟨5, 7, 8, 1⟩
    main_loop_single_launches main_loop_single_launches
  ⟨h.1 rfl rfl, h.2.2.1 rfl rfl, h.2.2.2 rfl rfl⟩

/-- Counterexample to C13 as stated: a 17 × 17 and a 16 × 16 kernel have the
same half-extents `(8, 8)`, within the large radius limit, and both go to
bucket R8x8; the engines launch the `exact8x8` stencil for the first and the
`within8x8` stencil for the second, on the same source. -/
theorem C13_counterexample :
    ((17 : Nat) / 2 = 16 / 2 ∧ (17 : Nat) / 2 ≤ 16)
    ∧ launched (dev_sConv2_border_ignore_sk id (fun _ => false) ⟨40, 40, 40, 1⟩ ⟨17, 17, 17⟩
        ⟨0, 0, 0, 0⟩ ⟨none⟩).ops = [Stencil.exact8x8]
    ∧ launched (dev_sConv2_border_ignore_sk id (fun _ => false) ⟨40, 40, 40, 1⟩ ⟨16, 16, 16⟩
        ⟨0, 0, 0, 0⟩ ⟨none⟩).ops = [Stencil.within8x8]
    ∧ launched (sConv2_border_zero_mk id main_loop_single Dmems_clear ⟨40, 40, 40, 1⟩
        ⟨17, 17, 17, 1⟩ ⟨0, 0, 0, 0⟩ ⟨none⟩).ops = [Stencil.exact8x8]
    ∧ launched (sConv2_border_zero_mk id main_loop_single Dmems_clear ⟨40, 40, 40, 1⟩
        ⟨16, 16, 16, 1⟩ ⟨0, 0, 0, 0⟩ ⟨none⟩).ops = [Stencil.within8x8] := by
  decide

/-! ## The constant-cache kernel loader (C14) -/

theorem cache_writes_append (a b : List Op) :
    cache_writes (a ++ b) = cache_writes a ++ cache_writes b := by
  induction a with
  | nil => rfl
  | cons op ops ih =>
    rw [List.cons_append]
    cases op <;> simp [cache_writes, ih]

theorem upload_reads_append (a b : List Op) :
    upload_reads (a ++ b) = upload_reads a ++ upload_reads b := by
  induction a with
  | nil => rfl
  | cons op ops ih =>
    rw [List.cons_append]
    cases op with
    | cudaMemcpyToSymbolAsync sr c o kd st => cases sr <;> simp [upload_reads, ih]
    | _ => simp [upload_reads, ih]

theorem cache_writes_for_loop (n : Nat) (body : Nat → List Op)
    (h : ∀ i, cache_writes (body i) = []) : cache_writes (for_loop n body) = [] := by
  induction n with
  | zero => rfl
  | succ n ih => rw [for_loop, cache_writes_append, ih, h, List.append_nil]

theorem upload_reads_for_loop (n : Nat) (body : Nat → List Op)
    (h : ∀ i, upload_reads (body i) = []) : upload_reads (for_loop n body) = [] := by
  induction n with
  | zero => rfl
  | succ n ih => rw [for_loop, upload_reads_append, ih, h, List.append_nil]

/-- The border-ignored drivers upload nothing to the constant cache. -/
theorem NB_drivers_no_upload (b : Bucket) (Dsrc_alloc_dim Ddst_alloc_dim ker_dim : int2)
    (src : MatrixArray) (kernel : Matrix) (dst : MatrixArray) (Dsrc Ddst : Int) :
    cache_writes (dev_main_loop_sconv2_sk_exact_NB b Dsrc_alloc_dim Ddst_alloc_dim ker_dim src
        kernel dst Dsrc Ddst) = []
    ∧ cache_writes (dev_main_loop_sconv2_sk_within_NB b Dsrc_alloc_dim Ddst_alloc_dim ker_dim src
        kernel dst Dsrc Ddst) = []
    ∧ upload_reads (dev_main_loop_sconv2_sk_exact_NB b Dsrc_alloc_dim Ddst_alloc_dim ker_dim src
        kernel dst Dsrc Ddst) = []
    ∧ upload_reads (dev_main_loop_sconv2_sk_within_NB b Dsrc_alloc_dim Ddst_alloc_dim ker_dim src
        kernel dst Dsrc Ddst) = [] := by
  cases b <;>
    exact ⟨cache_writes_for_loop _ _ (fun _ => rfl), cache_writes_for_loop _ _ (fun _ => rfl),
      upload_reads_for_loop _ _ (fun _ => rfl), upload_reads_for_loop _ _ (fun _ => rfl)⟩

/-- The upload loop writes the cache elements from `offset_lin` on, one after
the other, `kernel_width` per iteration. -/
theorem cache_writes_upload_loop (kind : cudaMemcpyKind) (stream : StreamRef) (kw kp : Nat) :
    ∀ (todo lin ker : Nat),
      cache_writes (upload_loop kind stream kw kp todo lin ker) = List.range' lin (todo * kw) := by
  intro todo
  induction todo with
  | zero => intro lin ker; rw [Nat.zero_mul]; rfl
  | succ todo ih =>
    intro lin ker
    rw [upload_loop]
    show List.range' (lin * sizeof_float / sizeof_float) (kw * sizeof_float / sizeof_float)
        ++ cache_writes (upload_loop kind stream kw kp todo (lin + kw) (ker + kp)) = _
    rw [ih, Nat.mul_div_cancel _ (by decide : 0 < sizeof_float),
      Nat.mul_div_cancel _ (by decide : 0 < sizeof_float), List.range'_append_1, Nat.succ_mul]

/-- The upload loop reads, in iteration `k`, the first `kernel_width` elements
of the kernel row that starts `k * kernel_pitch` elements after `offset_ker`,
and nothing else. -/
theorem upload_reads_upload_loop (kind : cudaMemcpyKind) (stream : StreamRef) (kw kp : Nat) :
    ∀ (todo lin ker a : Nat),
      a ∈ upload_reads (upload_loop kind stream kw kp todo lin ker)
        ↔ ∃ k j, k < todo ∧ j < kw ∧ a = ker + k * kp + j := by
  intro todo
  induction todo with
  | zero =>
    intro lin ker a
    constructor
    · intro h; exact absurd h (List.not_mem_nil _)
    · rintro ⟨k, _, hk, _⟩; exact absurd hk (Nat.not_lt_zero k)
  | succ todo ih =>
    intro lin ker a
    rw [upload_loop]
    show a ∈ List.range' ker (kw * sizeof_float / sizeof_float)
        ++ upload_reads (upload_loop kind stream kw kp todo (lin + kw) (ker + kp)) ↔ _
    rw [List.mem_append, ih, Nat.mul_div_cancel _ (by decide : 0 < sizeof_float),
      List.mem_range'_1]
    constructor
    · rintro (⟨h1, h2⟩ | ⟨k, j, hk, hj, rfl⟩)
      · exact ⟨0, a - ker, Nat.succ_pos _, by omega, by omega⟩
      · exact ⟨k + 1, j, by omega, hj, by rw [Nat.succ_mul]; omega⟩
    · rintro ⟨k, j, hk, hj, rfl⟩
      cases k with
      | zero => left; omega
      | succ k => right; exact ⟨k, j, by omega, hj, by rw [Nat.succ_mul]; omega⟩

/-- The upload loop leaves the constant cache alone from element
`offset_lin + todo * kernel_width` on. -/
theorem upload_loop_run_above (kind : cudaMemcpyKind) (stream : StreamRef) (kw kp : Nat) :
    ∀ (todo lin ker : Nat) (w : World) (a : Nat), lin + todo * kw ≤ a →
      (run w (upload_loop kind stream kw kp todo lin ker)).Const_Mem a = w.Const_Mem a := by
  intro todo
  induction todo with
  | zero => intro lin ker w a _; rfl
  | succ todo ih =>
    intro lin ker w a ha
    rw [Nat.succ_mul] at ha
    rw [upload_loop, run_cons, ih _ _ _ _ (by omega)]
    simp only [exec, sizeof_float]
    rw [if_neg (by omega)]

theorem store_Const_Mem (w : World) (p : Ptr) (new : Mem) :
    (w.store p new).Const_Mem = w.Const_Mem := by
  cases p <;> rfl

/-- Operations that write no element of the constant cache leave it as it
was. -/
theorem run_no_cache_writes (ops : List Op) :
    ∀ w : World, cache_writes ops = [] → (run w ops).Const_Mem = w.Const_Mem := by
  induction ops with
  | nil => intro w _; rfl
  | cons op ops ih =>
    intro w h
    rw [run_cons]
    cases op with
    | cudaMemcpyToSymbolAsync sr c o kd st =>
      have h2 : List.range' (o / sizeof_float) (c / sizeof_float) ++ cache_writes ops = [] := h
      obtain ⟨h3, h4⟩ := List.append_eq_nil.mp h2
      have h5 : c / sizeof_float = 0 := by
        cases hc : c / sizeof_float with
        | zero => rfl
        | succ n => rw [hc] at h3; exact absurd h3 (List.cons_ne_nil _ _)
      rw [ih _ h4]
      funext a
      show (if o / sizeof_float ≤ a ∧ a < o / sizeof_float + c / sizeof_float then _ else _) = _
      rw [if_neg (by omega)]
    | cudaMemcpy2DAsync d dp s sp wd ht kd st =>
      rw [ih _ (by exact h)]; exact store_Const_Mem _ _ _
    | launch l => rw [ih _ (by exact h)]; exact store_Const_Mem _ _ _
    | _ => exact ih _ (by exact h)

theorem upload_loop_length (kind : cudaMemcpyKind) (stream : StreamRef) (kw kp : Nat)
    (todo lin ker : Nat) : (upload_loop kind stream kw kp todo lin ker).length = todo := by
  rw [upload_loop_eq_map, List.length_map, List.length_range]

/-- The upload loop of the engines, run from any memories: it writes the
cache elements `0, ..., kw * kh - 1` in this order, element `k * kw + j` of
the cache receives element `k * p + j` of the kernel storage, the cache is
untouched from `kw * kh` on, and with `kw ≤ p` every storage element read is
in a row below `kh` at a column below `kw`. -/
theorem upload_loop_packs (kind : cudaMemcpyKind) (stream : StreamRef) (kw kh p : Nat)
    (w : World) :
    cache_writes (upload_loop kind stream kw p kh 0 0) = List.range (kw * kh)
    ∧ (∀ k j, k < kh → j < kw →
        (run w (upload_loop kind stream kw p kh 0 0)).Const_Mem (k * kw + j)
          = w.kernel_store (k * p + j))
    ∧ (∀ a, kw * kh ≤ a →
        (run w (upload_loop kind stream kw p kh 0 0)).Const_Mem a = w.Const_Mem a)
    ∧ (kw ≤ p → ∀ a ∈ upload_reads (upload_loop kind stream kw p kh 0 0),
        a / p < kh ∧ a % p < kw) := by
  refine ⟨?_, ?_, ?_, ?_⟩
  · rw [cache_writes_upload_loop, List.range_eq_range', Nat.mul_comm]
  · intro k j hk hj
    have h := (upload_loop_run kind stream kw p kh 0 0 w).2.2.2.2.2 k j hk hj
    rw [Nat.zero_add, Nat.zero_add] at h
    exact h
  · intro a ha
    exact upload_loop_run_above kind stream kw p kh 0 0 w a (by rw [Nat.mul_comm]; omega)
  · intro hp a ha
    obtain ⟨k, j, hk, hj, rfl⟩ := (upload_reads_upload_loop kind stream kw p kh 0 0 a).mp ha
    have hpos : 0 < p := by omega
    have hjp : j < p := by omega
    rw [Nat.zero_add]
    have := (Nat.div_mod_unique hpos (a := k * p + j) (d := k) (c := j)).mpr
      ⟨by rw [Nat.mul_comm]; omega, hjp⟩
    rw [this.1, this.2]
    exact ⟨hk, hj⟩

/-- C14 (constant-cache kernel loader).  Take a kernel `kw` wide and `kh`
high whose rows are `p ≥ kw` elements apart.  In each border-ignored bucket
engine (allocation granted) the uploads of the whole run write the cache
elements `0, ..., kw * kh - 1`, each once and in this order, after the run
`cache[k * kw + j]` holds `kernel_storage[k * p + j]` for all `k < kh`,
`j < kw`, the cache is unchanged from `kw * kh` on, and every storage element
read by an upload lies in a row below `kh` at a column below `kw`, so no
padding column `kw ≤ c < p` is copied.  In each border-constant bucket
engine, for any main loop, the same holds of the engine up to the end of its
upload loop, its first `4 + kh` operations. -/
theorem C14_constant_cache_loader (b : Bucket) (_device_malloc : Int → Bool)
    (main_loop_regulable_R_mk : MainLoop) (init : Dmems)
    (src : MatrixArray) (kernel : Matrix) (dst : MatrixArray)
    (src_mk kernel_mk dst_mk : MatrixArray) (w : World)
    (hok : _device_malloc
      (((alloc_plan b.R_h b.R_w kernel.width kernel.height dst).dev_src_size
        + (alloc_plan b.R_h b.R_w kernel.width kernel.height dst).dev_dst_size)
          * sizeof_float4) = false)
    (hp : kernel.width ≤ kernel.pitch) (hp_mk : kernel_mk.width ≤ kernel_mk.pitch) :
    (cache_writes (dev_Conv2_NB_SK b _device_malloc src kernel dst)
        = List.range (kernel.width * kernel.height)
      ∧ (∀ k j, k < kernel.height → j < kernel.width →
          (run w (dev_Conv2_NB_SK b _device_malloc src kernel dst)).Const_Mem
              (k * kernel.width + j)
            = w.kernel_store (k * kernel.pitch + j))
      ∧ (∀ a, kernel.width * kernel.height ≤ a →
          (run w (dev_Conv2_NB_SK b _device_malloc src kernel dst)).Const_Mem a = w.Const_Mem a)
      ∧ (∀ a ∈ upload_reads (dev_Conv2_NB_SK b _device_malloc src kernel dst),
          a / kernel.pitch < kernel.height ∧ a % kernel.pitch < kernel.width))
    ∧ (cache_writes ((_Conv2_BC_MK b main_loop_regulable_R_mk init src_mk kernel_mk dst_mk).take
          (4 + kernel_mk.height))
        = List.range (kernel_mk.width * kernel_mk.height)
      ∧ (∀ k j, k < kernel_mk.height → j < kernel_mk.width →
          (run w ((_Conv2_BC_MK b main_loop_regulable_R_mk init src_mk kernel_mk dst_mk).take
              (4 + kernel_mk.height))).Const_Mem (k * kernel_mk.width + j)
            = w.kernel_store (k * kernel_mk.pitch + j))
      ∧ (∀ a, kernel_mk.width * kernel_mk.height ≤ a →
          (run w ((_Conv2_BC_MK b main_loop_regulable_R_mk init src_mk kernel_mk dst_mk).take
              (4 + kernel_mk.height))).Const_Mem a = w.Const_Mem a)
      ∧ (∀ a ∈ upload_reads
            ((_Conv2_BC_MK b main_loop_regulable_R_mk init src_mk kernel_mk dst_mk).take
              (4 + kernel_mk.height)),
          a / kernel_mk.pitch < kernel_mk.height ∧ a % kernel_mk.pitch < kernel_mk.width)) := by
  constructor
  · obtain ⟨p1, p2, p3, p4⟩ := upload_loop_packs cudaMemcpyKind.DeviceToDevice StreamRef.S
      kernel.width kernel.height kernel.pitch w
    obtain ⟨d1, d2, d3, d4⟩ := NB_drivers_no_upload b
      (alloc_plan b.R_h b.R_w kernel.width kernel.height dst).Dsrc_alloc_dim
      (alloc_plan b.R_h b.R_w kernel.width kernel.height dst).Ddst_alloc_dim
      (alloc_plan b.R_h b.R_w kernel.width kernel.height dst).ker_dim src kernel dst 0
      (4 * (alloc_plan b.R_h b.R_w kernel.width kernel.height dst).dev_src_size)
    have hpre : ∀ n, run w [Op._device_malloc n, Op.cudaStreamCreate] = w := fun _ => rfl
    have cpre : ∀ n, cache_writes [Op._device_malloc n, Op.cudaStreamCreate] = [] := fun _ => rfl
    have rpre : ∀ n, upload_reads [Op._device_malloc n, Op.cudaStreamCreate] = [] := fun _ => rfl
    have cpost : cache_writes [Op._device_dealloc, Op.cudaDeviceSynchronize, Op.cudaStreamDestroy]
        = [] := rfl
    have rpost : upload_reads [Op._device_dealloc, Op.cudaDeviceSynchronize, Op.cudaStreamDestroy]
        = [] := rfl
    have hpost : ∀ v : World,
        run v [Op._device_dealloc, Op.cudaDeviceSynchronize, Op.cudaStreamDestroy] = v :=
      fun _ => rfl
    have cw : cache_writes (dev_Conv2_NB_SK b _device_malloc src kernel dst)
        = List.range (kernel.width * kernel.height) := by
      rw [NB_engine_ok b _device_malloc src kernel dst hok, cache_writes_append,
        cache_writes_append, cache_writes_append, cpre, cpost, p1]
      split_ifs
      · rw [d1]; simp
      · rw [d2]; simp
    have cm : (run w (dev_Conv2_NB_SK b _device_malloc src kernel dst)).Const_Mem
        = (run w (upload_loop cudaMemcpyKind.DeviceToDevice StreamRef.S kernel.width kernel.pitch
            kernel.height 0 0)).Const_Mem := by
      rw [NB_engine_ok b _device_malloc src kernel dst hok, run_append, run_append, run_append,
        hpre, hpost]
      apply run_no_cache_writes
      split_ifs
      · exact d1
      · exact d2
    refine ⟨cw, ?_, ?_, ?_⟩
    · intro k j hk hj; rw [cm]; exact p2 k j hk hj
    · intro a ha; rw [cm]; exact p3 a ha
    · intro a ha
      apply p4 hp
      rw [NB_engine_ok b _device_malloc src kernel dst hok, upload_reads_append,
        upload_reads_append, upload_reads_append, rpre, rpost] at ha
      split_ifs at ha
      · rw [d3] at ha; simpa using ha
      · rw [d4] at ha; simpa using ha
  · obtain ⟨p1, p2, p3, p4⟩ := upload_loop_packs cudaMemcpyKind.HostToDevice (StreamRef.pool 0)
      kernel_mk.width kernel_mk.height kernel_mk.pitch w
    have ht : (_Conv2_BC_MK b main_loop_regulable_R_mk init src_mk kernel_mk dst_mk).take
          (4 + kernel_mk.height)
        = [Op.cudaMalloc
            (2 * ((alloc_plan b.R_h b.R_w kernel_mk.width kernel_mk.height dst_mk).dev_src_size
              + (alloc_plan b.R_h b.R_w kernel_mk.width kernel_mk.height dst_mk).dev_dst_size)
                * sizeof_float4),
          Op.stream_accessor_ptr 0, Op.stream_accessor_ptr 1, Op.stream_accessor_ptr 2]
          ++ upload_loop cudaMemcpyKind.HostToDevice (StreamRef.pool 0) kernel_mk.width
              kernel_mk.pitch kernel_mk.height 0 0 := by
      rw [BC_engine_ops, List.append_assoc]
      apply List.take_left'
      rw [List.length_append, upload_loop_length]
      rfl
    have hpre : ∀ n, run w [Op.cudaMalloc n, Op.stream_accessor_ptr 0, Op.stream_accessor_ptr 1,
        Op.stream_accessor_ptr 2] = w := fun _ => rfl
    have cpre : ∀ n, cache_writes [Op.cudaMalloc n, Op.stream_accessor_ptr 0,
        Op.stream_accessor_ptr 1, Op.stream_accessor_ptr 2] = [] := fun _ => rfl
    have rpre : ∀ n, upload_reads [Op.cudaMalloc n, Op.stream_accessor_ptr 0,
        Op.stream_accessor_ptr 1, Op.stream_accessor_ptr 2] = [] := fun _ => rfl
    rw [ht, cache_writes_append, cpre, upload_reads_append, rpre, run_append, hpre,
      List.nil_append, List.nil_append]
    exact ⟨p1, p2, p3, p4 hp_mk⟩

/-- Witness of C14: the R8x8 engines on a 3 × 3 kernel stored with a row
pitch of 4, allocation granted, single-matrix main loop, the memories of the
zero-border test. -/
theorem C14_constant_cache_loader_witness :
    (cache_writes (dev_Conv2_NB_SK Bucket.R8x8 (fun _ => false) ⟨12, 12, 12, 1⟩ ⟨3, 3, 4⟩
          ⟨10, 10, 12, 1⟩)
        = List.range ((⟨3, 3, 4⟩ : Matrix).width * (⟨3, 3, 4⟩ : Matrix).height)
      ∧ (∀ k j, k < (⟨3, 3, 4⟩ : Matrix).height → j < (⟨3, 3, 4⟩ : Matrix).width →
          (run ones_world (dev_Conv2_NB_SK Bucket.R8x8 (fun _ => false) ⟨12, 12, 12, 1⟩ ⟨3, 3, 4⟩
              ⟨10, 10, 12, 1⟩)).Const_Mem (k * (⟨3, 3, 4⟩ : Matrix).width + j)
            = ones_world.kernel_store (k * (⟨3, 3, 4⟩ : Matrix).pitch + j))
      ∧ (∀ a, (⟨3, 3, 4⟩ : Matrix).width * (⟨3, 3, 4⟩ : Matrix).height ≤ a →
          (run ones_world (dev_Conv2_NB_SK Bucket.R8x8 (fun _ => false) ⟨12, 12, 12, 1⟩ ⟨3, 3, 4⟩
              ⟨10, 10, 12, 1⟩)).Const_Mem a = ones_world.Const_Mem a)
      ∧ (∀ a ∈ upload_reads (dev_Conv2_NB_SK Bucket.R8x8 (fun _ => false) ⟨12, 12, 12, 1⟩
            ⟨3, 3, 4⟩ ⟨10, 10, 12, 1⟩),
          a / (⟨3, 3, 4⟩ : Matrix).pitch < (⟨3, 3, 4⟩ : Matrix).height
            ∧ a % (⟨3, 3, 4⟩ : Matrix).pitch < (⟨3, 3, 4⟩ : Matrix).width))
    ∧ (cache_writes ((_Conv2_BC_MK Bucket.R8x8 main_loop_single Dmems_clear ⟨10, 10, 12, 1⟩
          ⟨3, 3, 4, 1⟩ ⟨10, 10, 12, 1⟩).take (4 + (⟨3, 3, 4, 1⟩ : MatrixArray).height))
        = List.range ((⟨3, 3, 4, 1⟩ : MatrixArray).width * (⟨3, 3, 4, 1⟩ : MatrixArray).height)
      ∧ (∀ k j, k < (⟨3, 3, 4, 1⟩ : MatrixArray).height → j < (⟨3, 3, 4, 1⟩ : MatrixArray).width →
          (run ones_world ((_Conv2_BC_MK Bucket.R8x8 main_loop_single Dmems_clear ⟨10, 10, 12, 1⟩
              ⟨3, 3, 4, 1⟩ ⟨10, 10, 12, 1⟩).take
                (4 + (⟨3, 3, 4, 1⟩ : MatrixArray).height))).Const_Mem
              (k * (⟨3, 3, 4, 1⟩ : MatrixArray).width + j)
            = ones_world.kernel_store (k * (⟨3, 3, 4, 1⟩ : MatrixArray).pitch + j))
      ∧ (∀ a, (⟨3, 3, 4, 1⟩ : MatrixArray).width * (⟨3, 3, 4, 1⟩ : MatrixArray).height ≤ a →
          (run ones_world ((_Conv2_BC_MK Bucket.R8x8 main_loop_single Dmems_clear ⟨10, 10, 12, 1⟩
              ⟨3, 3, 4, 1⟩ ⟨10, 10, 12, 1⟩).take
                (4 + (⟨3, 3, 4, 1⟩ : MatrixArray).height))).Const_Mem a = ones_world.Const_Mem a)
      ∧ (∀ a ∈ upload_reads
            ((_Conv2_BC_MK Bucket.R8x8 main_loop_single Dmems_clear ⟨10, 10, 12, 1⟩
              ⟨3, 3, 4, 1⟩ ⟨10, 10, 12, 1⟩).take (4 + (⟨3, 3, 4, 1⟩ : MatrixArray).height)),
          a / (⟨3, 3, 4, 1⟩ : MatrixArray).pitch < (⟨3, 3, 4, 1⟩ : MatrixArray).height
            ∧ a % (⟨3, 3, 4, 1⟩ : MatrixArray).pitch < (⟨3, 3, 4, 1⟩ : MatrixArray).width)) :=
  C14_constant_cache_loader Bucket.R8x8 (fun _ => false) main_loop_single Dmems_clear
    ⟨12, 12, 12, 1⟩ ⟨3, 3, 4⟩ ⟨10, 10, 12, 1⟩ ⟨10, 10, 12, 1⟩ ⟨3, 3, 4, 1⟩ ⟨10, 10, 12, 1⟩
    ones_world rfl (by decide) (by decide)

/-! ## Tile dims (C15, C17) -/

/-- C15 (destination tile rounding).  For destination dims that fit an `int`
(the engines hand them to `decx::utils::ceil<int>`) and every bucket, the
plan of the bucket's engines has `4 * Ddst_alloc_dim.x`, the tile width in
floats, equal to the least multiple of 64 that is at least the destination
width, and `Ddst_alloc_dim.y` equal to the least multiple of 16 that is at
least the destination height; so every element `(r, c)` of the drained
`width × height` region, at float offset `r * (4 * Ddst_alloc_dim.x) + c` of
the tile, lies inside the `4 * dev_dst_size` floats of the destination
tile. -/
theorem C15_dst_tile_rounding (b : Bucket) (kw kh : Nat) (dst : MatrixArray)
    (hw : dst.width < 2147483648) (hh : dst.height < 2147483648) :
    ((64 : Int) ∣ 4 * (alloc_plan b.R_h b.R_w kw kh dst).Ddst_alloc_dim.x
      ∧ (dst.width : Int) ≤ 4 * (alloc_plan b.R_h b.R_w kw kh dst).Ddst_alloc_dim.x
      ∧ ∀ m : Int, (64 : Int) ∣ m → (dst.width : Int) ≤ m →
          4 * (alloc_plan b.R_h b.R_w kw kh dst).Ddst_alloc_dim.x ≤ m)
    ∧ ((16 : Int) ∣ (alloc_plan b.R_h b.R_w kw kh dst).Ddst_alloc_dim.y
      ∧ (dst.height : Int) ≤ (alloc_plan b.R_h b.R_w kw kh dst).Ddst_alloc_dim.y
      ∧ ∀ m : Int, (16 : Int) ∣ m → (dst.height : Int) ≤ m →
          (alloc_plan b.R_h b.R_w kw kh dst).Ddst_alloc_dim.y ≤ m)
    ∧ (alloc_plan b.R_h b.R_w kw kh dst).dev_dst_size
        = (alloc_plan b.R_h b.R_w kw kh dst).Ddst_alloc_dim.x
          * (alloc_plan b.R_h b.R_w kw kh dst).Ddst_alloc_dim.y
    ∧ ∀ r c : Nat, r < dst.height → c < dst.width →
        (r : Int) * (4 * (alloc_plan b.R_h b.R_w kw kh dst).Ddst_alloc_dim.x) + c
          < 4 * (alloc_plan b.R_h b.R_w kw kh dst).dev_dst_size := by
  obtain ⟨-, hd, -⟩ := alloc_plan_dims b.R_h b.R_w kw kh dst hw hh
  have hs : (alloc_plan b.R_h b.R_w kw kh dst).dev_dst_size
      = (alloc_plan b.R_h b.R_w kw kh dst).Ddst_alloc_dim.x
        * (alloc_plan b.R_h b.R_w kw kh dst).Ddst_alloc_dim.y := rfl
  rw [hs, hd]
  simp only []
  refine ⟨⟨by omega, by omega, fun m h1 h2 => by omega⟩,
    ⟨by omega, by omega, fun m h1 h2 => by omega⟩, trivial, ?_⟩
  intro r c hr hc
  have h1 : (c : Int) < 4 * ((16 * ((dst.width + 63) / 64) : Nat) : Int) := by omega
  have h2 : (r : Int) + 1 ≤ ((16 * ((dst.height + 15) / 16) : Nat) : Int) := by omega
  have h3 : (0 : Int) ≤ 4 * ((16 * ((dst.width + 63) / 64) : Nat) : Int) := by omega
  have h4 := mul_le_mul_of_nonneg_right h2 h3
  nlinarith [h4]

/-- Witness of C15: bucket R16x8, a 100 × 37 destination. -/
theorem C15_dst_tile_rounding_witness :
    ((64 : Int) ∣ 4 * (alloc_plan Bucket.R16x8.R_h Bucket.R16x8.R_w 5 19
          ⟨100, 37, 100, 1⟩).Ddst_alloc_dim.x
      ∧ ((⟨100, 37, 100, 1⟩ : MatrixArray).width : Int)
          ≤ 4 * (alloc_plan Bucket.R16x8.R_h Bucket.R16x8.R_w 5 19
              ⟨100, 37, 100, 1⟩).Ddst_alloc_dim.x
      ∧ ∀ m : Int, (64 : Int) ∣ m → ((⟨100, 37, 100, 1⟩ : MatrixArray).width : Int) ≤ m →
          4 * (alloc_plan Bucket.R16x8.R_h Bucket.R16x8.R_w 5 19
              ⟨100, 37, 100, 1⟩).Ddst_alloc_dim.x ≤ m)
    ∧ ((16 : Int) ∣ (alloc_plan Bucket.R16x8.R_h Bucket.R16x8.R_w 5 19
          ⟨100, 37, 100, 1⟩).Ddst_alloc_dim.y
      ∧ ((⟨100, 37, 100, 1⟩ : MatrixArray).height : Int)
          ≤ (alloc_plan Bucket.R16x8.R_h Bucket.R16x8.R_w 5 19 ⟨100, 37, 100, 1⟩).Ddst_alloc_dim.y
      ∧ ∀ m : Int, (16 : Int) ∣ m → ((⟨100, 37, 100, 1⟩ : MatrixArray).height : Int) ≤ m →
          (alloc_plan Bucket.R16x8.R_h Bucket.R16x8.R_w 5 19 ⟨100, 37, 100, 1⟩).Ddst_alloc_dim.y
            ≤ m)
    ∧ (alloc_plan Bucket.R16x8.R_h Bucket.R16x8.R_w 5 19 ⟨100, 37, 100, 1⟩).dev_dst_size
        = (alloc_plan Bucket.R16x8.R_h Bucket.R16x8.R_w 5 19 ⟨100, 37, 100, 1⟩).Ddst_alloc_dim.x
          * (alloc_plan Bucket.R16x8.R_h Bucket.R16x8.R_w 5 19 ⟨100, 37, 100, 1⟩).Ddst_alloc_dim.y
    ∧ ∀ r c : Nat, r < (⟨100, 37, 100, 1⟩ : MatrixArray).height →
        c < (⟨100, 37, 100, 1⟩ : MatrixArray).width →
        (r : Int) * (4 * (alloc_plan Bucket.R16x8.R_h Bucket.R16x8.R_w 5 19
            ⟨100, 37, 100, 1⟩).Ddst_alloc_dim.x) + c
          < 4 * (alloc_plan Bucket.R16x8.R_h Bucket.R16x8.R_w 5 19
              ⟨100, 37, 100, 1⟩).dev_dst_size :=
  C15_dst_tile_rounding Bucket.R16x8 5 19 ⟨100, 37, 100, 1⟩ (by decide) (by decide)

/-- C17 (tile invariant under the constant-border policy).  For every source
whose dims fit an `int`, with the destination as `sConv2_border_zero_mk`
sizes it, and each of the four border-constant buckets with column radius
`R_w` and row radius `R_h` (each 8 or 16), the source tile planned by the
bucket's engine is at least `width + 2 * R_w` floats wide
(`4 * Dsrc_alloc_dim.x`) and at least `height + 2 * R_h` rows high, and it is
the tile the engine requests room for. -/
theorem C17_BC_tile_invariant (b : Bucket) (row_pitch : Nat → Nat)
    (main_loop_regulable_R_mk : MainLoop) (init : Dmems) (src kernel dst : MatrixArray)
    (handle : DH) (hw : src.width < 2147483648) (hh : src.height < 2147483648) :
    (src.width : Int) + 2 * b.R_w
        ≤ 4 * (alloc_plan b.R_h b.R_w kernel.width kernel.height
            (sConv2_border_zero_mk row_pitch main_loop_regulable_R_mk init src kernel dst
              handle).dst).Dsrc_alloc_dim.x
    ∧ (src.height : Int) + 2 * b.R_h
        ≤ (alloc_plan b.R_h b.R_w kernel.width kernel.height
            (sConv2_border_zero_mk row_pitch main_loop_regulable_R_mk init src kernel dst
              handle).dst).Dsrc_alloc_dim.y
    ∧ (b.R_w = 8 ∨ b.R_w = 16) ∧ (b.R_h = 8 ∨ b.R_h = 16)
    ∧ ∃ rest,
        _Conv2_BC_MK b main_loop_regulable_R_mk init src kernel
            (sConv2_border_zero_mk row_pitch main_loop_regulable_R_mk init src kernel dst
              handle).dst
          = Op.cudaMalloc
              (2 * ((alloc_plan b.R_h b.R_w kernel.width kernel.height
                      (sConv2_border_zero_mk row_pitch main_loop_regulable_R_mk init src kernel dst
                        handle).dst).Dsrc_alloc_dim.x
                    * (alloc_plan b.R_h b.R_w kernel.width kernel.height
                      (sConv2_border_zero_mk row_pitch main_loop_regulable_R_mk init src kernel dst
                        handle).dst).Dsrc_alloc_dim.y
                  + (alloc_plan b.R_h b.R_w kernel.width kernel.height
                      (sConv2_border_zero_mk row_pitch main_loop_regulable_R_mk init src kernel dst
                        handle).dst).dev_dst_size) * sizeof_float4) :: rest := by
  have e : (sConv2_border_zero_mk row_pitch main_loop_regulable_R_mk init src kernel dst
      handle).dst = ⟨src.width, src.height, row_pitch src.width, src.ArrayNumber⟩ := rfl
  obtain ⟨-, -, hs⟩ := alloc_plan_dims b.R_h b.R_w kernel.width kernel.height
    (sConv2_border_zero_mk row_pitch main_loop_regulable_R_mk init src kernel dst handle).dst
    (by rw [e]; exact hw) (by rw [e]; exact hh)
  refine ⟨?_, ?_, ?_, ?_, ?_⟩
  · rw [hs, e]
    cases b <;> simp only [Bucket.R_h, Bucket.R_w, bounded_kernel_R8, bounded_kernel_R16] <;>
      omega
  · rw [hs, e]
    cases b <;> simp only [Bucket.R_h, Bucket.R_w, bounded_kernel_R8, bounded_kernel_R16] <;>
      omega
  · cases b <;> simp [Bucket.R_w, bounded_kernel_R8, bounded_kernel_R16]
  · cases b <;> simp [Bucket.R_h, bounded_kernel_R8, bounded_kernel_R16]
  · rw [BC_engine_ops]
    exact ⟨_, rfl⟩

/-- Witness of C17: bucket R8x16, a 100 × 37 source. -/
theorem C17_BC_tile_invariant_witness :
    ((⟨100, 37, 100, 2⟩ : MatrixArray).width : Int) + 2 * Bucket.R8x16.R_w
        ≤ 4 * (alloc_plan Bucket.R8x16.R_h Bucket.R8x16.R_w
            (⟨19, 5, 19, 2⟩ : MatrixArray).width (⟨19, 5, 19, 2⟩ : MatrixArray).height
            (sConv2_border_zero_mk id main_loop_single Dmems_clear ⟨100, 37, 100, 2⟩
              ⟨19, 5, 19, 2⟩ ⟨0, 0, 0, 0⟩ ⟨none⟩).dst).Dsrc_alloc_dim.x
    ∧ ((⟨100, 37, 100, 2⟩ : MatrixArray).height : Int) + 2 * Bucket.R8x16.R_h
        ≤ (alloc_plan Bucket.R8x16.R_h Bucket.R8x16.R_w
            (⟨19, 5, 19, 2⟩ : MatrixArray).width (⟨19, 5, 19, 2⟩ : MatrixArray).height
            (sConv2_border_zero_mk id main_loop_single Dmems_clear ⟨100, 37, 100, 2⟩
              ⟨19, 5, 19, 2⟩ ⟨0, 0, 0, 0⟩ ⟨none⟩).dst).Dsrc_alloc_dim.y
    ∧ (Bucket.R8x16.R_w = 8 ∨ Bucket.R8x16.R_w = 16)
    ∧ (Bucket.R8x16.R_h = 8 ∨ Bucket.R8x16.R_h = 16)
    ∧ ∃ rest,
        _Conv2_BC_MK Bucket.R8x16 main_loop_single Dmems_clear ⟨100, 37, 100, 2⟩ ⟨19, 5, 19, 2⟩
            (sConv2_border_zero_mk id main_loop_single Dmems_clear ⟨100, 37, 100, 2⟩
              ⟨19, 5, 19, 2⟩ ⟨0, 0, 0, 0⟩ ⟨none⟩).dst
          = Op.cudaMalloc
              (2 * ((alloc_plan Bucket.R8x16.R_h Bucket.R8x16.R_w
                      (⟨19, 5, 19, 2⟩ : MatrixArray).width (⟨19, 5, 19, 2⟩ : MatrixArray).height
                      (sConv2_border_zero_mk id main_loop_single Dmems_clear ⟨100, 37, 100, 2⟩
                        ⟨19, 5, 19, 2⟩ ⟨0, 0, 0, 0⟩ ⟨none⟩).dst).Dsrc_alloc_dim.x
                    * (alloc_plan Bucket.R8x16.R_h Bucket.R8x16.R_w
                      (⟨19, 5, 19, 2⟩ : MatrixArray).width (⟨19, 5, 19, 2⟩ : MatrixArray).height
                      (sConv2_border_zero_mk id main_loop_single Dmems_clear ⟨100, 37, 100, 2⟩
                        ⟨19, 5, 19, 2⟩ ⟨0, 0, 0, 0⟩ ⟨none⟩).dst).Dsrc_alloc_dim.y
                  + (alloc_plan Bucket.R8x16.R_h Bucket.R8x16.R_w
                      (⟨19, 5, 19, 2⟩ : MatrixArray).width (⟨19, 5, 19, 2⟩ : MatrixArray).height
                      (sConv2_border_zero_mk id main_loop_single Dmems_clear ⟨100, 37, 100, 2⟩
                        ⟨19, 5, 19, 2⟩ ⟨0, 0, 0, 0⟩ ⟨none⟩).dst).dev_dst_size)
                * sizeof_float4) :: rest :=
  C17_BC_tile_invariant Bucket.R8x16 id main_loop_single Dmems_clear ⟨100, 37, 100, 2⟩
    ⟨19, 5, 19, 2⟩ ⟨0, 0, 0, 0⟩ ⟨none⟩ (by decide) (by decide)

/-! ## The single allocation and its slices (C16) -/

theorem launch_tiles_append (a b : List Op) :
    launch_tiles (a ++ b) = launch_tiles a ++ launch_tiles b := by
  induction a with
  | nil => rfl
  | cons op ops ih =>
    rw [List.cons_append]
    cases op <;> simp [launch_tiles, ih]

theorem alloc_requests_upload_loop (kind : cudaMemcpyKind) (stream : StreamRef) (kw kp : Nat) :
    ∀ (todo lin ker : Nat), alloc_requests (upload_loop kind stream kw kp todo lin ker) = [] := by
  intro todo
  induction todo with
  | zero => intro _ _; rfl
  | succ todo ih =>
    intro lin ker
    rw [upload_loop]
    exact ih _ _

theorem launch_tiles_upload_loop (kind : cudaMemcpyKind) (stream : StreamRef) (kw kp : Nat) :
    ∀ (todo lin ker : Nat), launch_tiles (upload_loop kind stream kw kp todo lin ker) = [] := by
  intro todo
  induction todo with
  | zero => intro _ _; rfl
  | succ todo ih =>
    intro lin ker
    rw [upload_loop]
    exact ih _ _

theorem alloc_requests_for_loop (n : Nat) (body : Nat → List Op)
    (h : ∀ i, alloc_requests (body i) = []) : alloc_requests (for_loop n body) = [] := by
  induction n with
  | zero => rfl
  | succ n ih => rw [for_loop, alloc_requests_append, ih, h, List.append_nil]

theorem launch_tiles_for_loop (n : Nat) (body : Nat → List Op) (t : Ptr × Ptr)
    (h : ∀ i, launch_tiles (body i) = [t]) :
    launch_tiles (for_loop n body) = List.replicate n t := by
  induction n with
  | zero => rfl
  | succ n ih => rw [for_loop, launch_tiles_append, ih, h, List.replicate_succ']

/-- The border-ignored drivers request no allocation and hand every launch
the two addresses they were given. -/
theorem NB_drivers_tiles (b : Bucket) (Dsrc_alloc_dim Ddst_alloc_dim ker_dim : int2)
    (src : MatrixArray) (kernel : Matrix) (dst : MatrixArray) (Dsrc Ddst : Int) :
    alloc_requests (dev_main_loop_sconv2_sk_exact_NB b Dsrc_alloc_dim Ddst_alloc_dim ker_dim src
        kernel dst Dsrc Ddst) = []
    ∧ alloc_requests (dev_main_loop_sconv2_sk_within_NB b Dsrc_alloc_dim Ddst_alloc_dim ker_dim
        src kernel dst Dsrc Ddst) = []
    ∧ launch_tiles (dev_main_loop_sconv2_sk_exact_NB b Dsrc_alloc_dim Ddst_alloc_dim ker_dim src
        kernel dst Dsrc Ddst) = List.replicate src.ArrayNumber (Ptr.dev Dsrc, Ptr.dev Ddst)
    ∧ launch_tiles (dev_main_loop_sconv2_sk_within_NB b Dsrc_alloc_dim Ddst_alloc_dim ker_dim src
        kernel dst Dsrc Ddst) = List.replicate src.ArrayNumber (Ptr.dev Dsrc, Ptr.dev Ddst) := by
  cases b <;>
    exact ⟨alloc_requests_for_loop _ _ (fun _ => rfl), alloc_requests_for_loop _ _ (fun _ => rfl),
      launch_tiles_for_loop _ _ _ (fun _ => rfl), launch_tiles_for_loop _ _ _ (fun _ => rfl)⟩

/-- The tile sizes of a plan are not negative when the destination dims fit
an `int`. -/
theorem alloc_plan_sizes_nonneg (R_h R_w kw kh : Nat) (dst : MatrixArray)
    (hw : dst.width < 2147483648) (hh : dst.height < 2147483648) :
    0 ≤ (alloc_plan R_h R_w kw kh dst).dev_src_size
    ∧ 0 ≤ (alloc_plan R_h R_w kw kh dst).dev_dst_size := by
  obtain ⟨-, hd, hs⟩ := alloc_plan_dims R_h R_w kw kh dst hw hh
  have e1 : (alloc_plan R_h R_w kw kh dst).dev_src_size
      = (alloc_plan R_h R_w kw kh dst).Dsrc_alloc_dim.x
        * (alloc_plan R_h R_w kw kh dst).Dsrc_alloc_dim.y := rfl
  have e2 : (alloc_plan R_h R_w kw kh dst).dev_dst_size
      = (alloc_plan R_h R_w kw kh dst).Ddst_alloc_dim.x
        * (alloc_plan R_h R_w kw kh dst).Ddst_alloc_dim.y := rfl
  rw [e1, e2, hd, hs]
  exact ⟨mul_nonneg (Int.natCast_nonneg _) (Int.natCast_nonneg _),
    mul_nonneg (Int.natCast_nonneg _) (Int.natCast_nonneg _)⟩

/-- The allocation request of a border-ignored engine, granted or not. -/
theorem NB_engine_alloc_requests (b : Bucket) (_device_malloc : Int → Bool) (src : MatrixArray)
    (kernel : Matrix) (dst : MatrixArray) :
    alloc_requests (dev_Conv2_NB_SK b _device_malloc src kernel dst)
      = [((alloc_plan b.R_h b.R_w kernel.width kernel.height dst).dev_src_size
          + (alloc_plan b.R_h b.R_w kernel.width kernel.height dst).dev_dst_size)
            * sizeof_float4] := by
  by_cases hm : _device_malloc
      (((alloc_plan b.R_h b.R_w kernel.width kernel.height dst).dev_src_size
        + (alloc_plan b.R_h b.R_w kernel.width kernel.height dst).dev_dst_size)
          * sizeof_float4) = true
  · cases b <;>
      simp only [Bucket.R_h, Bucket.R_w] at hm ⊢ <;>
      simp [dev_Conv2_NB_SK, dev_Conv2_NB_R8x8_SK, dev_Conv2_NB_R8x16_SK,
        dev_Conv2_NB_R16x8_SK, dev_Conv2_NB_R16x16_SK, hm, alloc_requests]
  · obtain ⟨d1, d2, -, -⟩ := NB_drivers_tiles b
      (alloc_plan b.R_h b.R_w kernel.width kernel.height dst).Dsrc_alloc_dim
      (alloc_plan b.R_h b.R_w kernel.width kernel.height dst).Ddst_alloc_dim
      (alloc_plan b.R_h b.R_w kernel.width kernel.height dst).ker_dim src kernel dst 0
      (4 * (alloc_plan b.R_h b.R_w kernel.width kernel.height dst).dev_src_size)
    have h1 : ∀ n, alloc_requests [Op._device_malloc n, Op.cudaStreamCreate] = [n] := fun _ => rfl
    have h2 : alloc_requests [Op._device_dealloc, Op.cudaDeviceSynchronize, Op.cudaStreamDestroy]
        = [] := rfl
    rw [NB_engine_ok b _ _ _ _ (by simpa using hm), alloc_requests_append, alloc_requests_append,
      alloc_requests_append, alloc_requests_upload_loop, h1, h2]
    split_ifs
    · rw [d1]; rfl
    · rw [d2]; rfl

/-- The tiles a border-ignored engine hands to its launches when the
allocation is granted: the source tile at the start of the allocation, the
destination tile `dev_src_size` `float4`s further. -/
theorem NB_engine_tiles (b : Bucket) (_device_malloc : Int → Bool) (src : MatrixArray)
    (kernel : Matrix) (dst : MatrixArray)
    (hok : _device_malloc
      (((alloc_plan b.R_h b.R_w kernel.width kernel.height dst).dev_src_size
        + (alloc_plan b.R_h b.R_w kernel.width kernel.height dst).dev_dst_size)
          * sizeof_float4) = false) :
    launch_tiles (dev_Conv2_NB_SK b _device_malloc src kernel dst)
      = List.replicate src.ArrayNumber
          (Ptr.dev 0,
            Ptr.dev (4 * (alloc_plan b.R_h b.R_w kernel.width kernel.height dst).dev_src_size)) := by
  obtain ⟨-, -, d3, d4⟩ := NB_drivers_tiles b
    (alloc_plan b.R_h b.R_w kernel.width kernel.height dst).Dsrc_alloc_dim
    (alloc_plan b.R_h b.R_w kernel.width kernel.height dst).Ddst_alloc_dim
    (alloc_plan b.R_h b.R_w kernel.width kernel.height dst).ker_dim src kernel dst 0
    (4 * (alloc_plan b.R_h b.R_w kernel.width kernel.height dst).dev_src_size)
  have h1 : ∀ n, launch_tiles [Op._device_malloc n, Op.cudaStreamCreate] = [] := fun _ => rfl
  have h2 : launch_tiles [Op._device_dealloc, Op.cudaDeviceSynchronize, Op.cudaStreamDestroy]
      = [] := rfl
  rw [NB_engine_ok b _ _ _ _ hok, launch_tiles_append, launch_tiles_append,
    launch_tiles_append, launch_tiles_upload_loop, h1, h2, List.nil_append, List.append_nil]
  split_ifs
  · exact d3
  · exact d4

/-- What a border-constant engine adds to the allocation requests and to the
launches of its main loop: one request, and no launch. -/
theorem BC_engine_requests_tiles (b : Bucket) (main_loop_regulable_R_mk : MainLoop) (init : Dmems)
    (src kernel dst : MatrixArray) :
    ∃ a : MainLoopArgs, ∃ m : Dmems,
      a.call_A.Dsrc = Ptr.dev 0
      ∧ a.call_A.Ddst
          = Ptr.dev (4 * (2 * (alloc_plan b.R_h b.R_w kernel.width kernel.height dst).dev_src_size))
      ∧ a.call_B.Dsrc
          = Ptr.dev (4 * (alloc_plan b.R_h b.R_w kernel.width kernel.height dst).dev_src_size)
      ∧ a.call_B.Ddst
          = Ptr.dev (4 * (2 * (alloc_plan b.R_h b.R_w kernel.width kernel.height dst).dev_src_size
              + (alloc_plan b.R_h b.R_w kernel.width kernel.height dst).dev_dst_size))
      ∧ alloc_requests (_Conv2_BC_MK b main_loop_regulable_R_mk init src kernel dst)
          = (2 * ((alloc_plan b.R_h b.R_w kernel.width kernel.height dst).dev_src_size
              + (alloc_plan b.R_h b.R_w kernel.width kernel.height dst).dev_dst_size)
                * sizeof_float4) :: alloc_requests (main_loop_regulable_R_mk a m).2
      ∧ launch_tiles (_Conv2_BC_MK b main_loop_regulable_R_mk init src kernel dst)
          = launch_tiles (main_loop_regulable_R_mk a m).2 := by
  have h1 : ∀ n, alloc_requests [Op.cudaMalloc n, Op.stream_accessor_ptr 0,
      Op.stream_accessor_ptr 1, Op.stream_accessor_ptr 2] = [n] := fun _ => rfl
  have h2 : alloc_requests [Op.cudaFree, Op.detach 0, Op.detach 1, Op.detach 2] = [] := rfl
  have h3 : ∀ n, launch_tiles [Op.cudaMalloc n, Op.stream_accessor_ptr 0,
      Op.stream_accessor_ptr 1, Op.stream_accessor_ptr 2] = [] := fun _ => rfl
  have h4 : launch_tiles [Op.cudaFree, Op.detach 0, Op.detach 1, Op.detach 2] = [] := rfl
  have h5 : ∀ R_h R_w D src m,
      alloc_requests [stage0_BC R_h R_w D src m, Op.cudaDeviceSynchronize] = [] :=
    fun _ _ _ _ _ => rfl
  have h6 : ∀ D dst sl, alloc_requests [drain_BC D dst sl, Op.cudaDeviceSynchronize] = [] :=
    fun _ _ _ => rfl
  have h7 : ∀ R_h R_w D src m,
      launch_tiles [stage0_BC R_h R_w D src m, Op.cudaDeviceSynchronize] = [] :=
    fun _ _ _ _ _ => rfl
  have h8 : ∀ D dst sl, launch_tiles [drain_BC D dst sl, Op.cudaDeviceSynchronize] = [] :=
    fun _ _ _ => rfl
  have key : ∀ (k : Stencil) (sd : Option int2),
      ∃ a : MainLoopArgs, ∃ m : Dmems,
        a.call_A.Dsrc = Ptr.dev 0
        ∧ a.call_A.Ddst
            = Ptr.dev (4 * (2 * (alloc_plan b.R_h b.R_w kernel.width kernel.height dst).dev_src_size))
        ∧ a.call_B.Dsrc
            = Ptr.dev (4 * (alloc_plan b.R_h b.R_w kernel.width kernel.height dst).dev_src_size)
        ∧ a.call_B.Ddst
            = Ptr.dev (4 * (2 * (alloc_plan b.R_h b.R_w kernel.width kernel.height dst).dev_src_size
                + (alloc_plan b.R_h b.R_w kernel.width kernel.height dst).dev_dst_size))
        ∧ alloc_requests (main_loop_BC main_loop_regulable_R_mk k sd b.R_h b.R_w
              (alloc_plan b.R_h b.R_w kernel.width kernel.height dst).Dsrc_alloc_dim
              (alloc_plan b.R_h b.R_w kernel.width kernel.height dst).Ddst_alloc_dim
              (alloc_plan b.R_h b.R_w kernel.width kernel.height dst).ker_dim src kernel dst
              (slice_Dmems init (alloc_plan b.R_h b.R_w kernel.width kernel.height dst))).2
            = alloc_requests (main_loop_regulable_R_mk a m).2
        ∧ launch_tiles (main_loop_BC main_loop_regulable_R_mk k sd b.R_h b.R_w
              (alloc_plan b.R_h b.R_w kernel.width kernel.height dst).Dsrc_alloc_dim
              (alloc_plan b.R_h b.R_w kernel.width kernel.height dst).Ddst_alloc_dim
              (alloc_plan b.R_h b.R_w kernel.width kernel.height dst).ker_dim src kernel dst
              (slice_Dmems init (alloc_plan b.R_h b.R_w kernel.width kernel.height dst))).2
            = launch_tiles (main_loop_regulable_R_mk a m).2 := by
    intro k sd
    refine ⟨main_loop_args_BC k sd b.R_h b.R_w
        (alloc_plan b.R_h b.R_w kernel.width kernel.height dst).Dsrc_alloc_dim
        (alloc_plan b.R_h b.R_w kernel.width kernel.height dst).Ddst_alloc_dim
        (alloc_plan b.R_h b.R_w kernel.width kernel.height dst).ker_dim src kernel dst
        (slice_Dmems init (alloc_plan b.R_h b.R_w kernel.width kernel.height dst)),
      mark_Dmem1 (slice_Dmems init (alloc_plan b.R_h b.R_w kernel.width kernel.height dst)),
      rfl, ?_, ?_, ?_, ?_, ?_⟩
    · show Ptr.dev _ = Ptr.dev _
      congr 1
      simp only [mark_Dmem1, slice_Dmems]; ring
    · show Ptr.dev _ = Ptr.dev _
      congr 1
      simp only [mark_Dmem1, slice_Dmems]; ring
    · show Ptr.dev _ = Ptr.dev _
      congr 1
      simp only [mark_Dmem1, slice_Dmems]; ring
    · rw [main_loop_BC_ops, alloc_requests_append, alloc_requests_append, h5, h6,
        List.nil_append, List.append_nil]
    · rw [main_loop_BC_ops, launch_tiles_append, launch_tiles_append, h7, h8,
        List.nil_append, List.append_nil]
  rw [BC_engine_ops, alloc_requests_append, alloc_requests_append, alloc_requests_append,
    alloc_requests_upload_loop, h1, h2, launch_tiles_append, launch_tiles_append,
    launch_tiles_append, launch_tiles_upload_loop, h3, h4]
  simp only [List.nil_append, List.append_nil, List.singleton_append]
  split_ifs
  · rw [(BC_drivers_eq b main_loop_regulable_R_mk _ _ _ src kernel dst _).1]
    obtain ⟨a, m, c1, c2, c3, c4, c5, c6⟩ := key b.exact none
    exact ⟨a, m, c1, c2, c3, c4, by rw [c5], c6⟩
  · rw [(BC_drivers_eq b main_loop_regulable_R_mk _ _ _ src kernel dst _).2]
    obtain ⟨a, m, c1, c2, c3, c4, c5, c6⟩ := key b.within _
    exact ⟨a, m, c1, c2, c3, c4, by rw [c5], c6⟩

/-- Consecutive regions: with sizes `s` and `d` that are not negative, the
four regions `[0, s)`, `[s, 2s)`, `[2s, 2s + d)`, `[2s + d, 2s + 2d)` cover
`[0, 2 (s + d))` and no two of them share an element; likewise `[0, s)` and
`[s, s + d)` in `[0, s + d)`. -/
theorem regions_partition (s d : Int) (hs : 0 ≤ s) (hd : 0 ≤ d) (e : Int) :
    ((0 ≤ e ∧ e < 2 * (s + d))
        ↔ ((0 ≤ e ∧ e < s) ∨ (s ≤ e ∧ e < 2 * s) ∨ (2 * s ≤ e ∧ e < 2 * s + d)
            ∨ (2 * s + d ≤ e ∧ e < 2 * s + 2 * d)))
    ∧ ¬ ((0 ≤ e ∧ e < s) ∧ (s ≤ e ∧ e < 2 * s))
    ∧ ¬ ((0 ≤ e ∧ e < s) ∧ (2 * s ≤ e ∧ e < 2 * s + d))
    ∧ ¬ ((0 ≤ e ∧ e < s) ∧ (2 * s + d ≤ e ∧ e < 2 * s + 2 * d))
    ∧ ¬ ((s ≤ e ∧ e < 2 * s) ∧ (2 * s ≤ e ∧ e < 2 * s + d))
    ∧ ¬ ((s ≤ e ∧ e < 2 * s) ∧ (2 * s + d ≤ e ∧ e < 2 * s + 2 * d))
    ∧ ¬ ((2 * s ≤ e ∧ e < 2 * s + d) ∧ (2 * s + d ≤ e ∧ e < 2 * s + 2 * d))
    ∧ ((0 ≤ e ∧ e < s + d) ↔ ((0 ≤ e ∧ e < s) ∨ (s ≤ e ∧ e < s + d)))
    ∧ ¬ ((0 ≤ e ∧ e < s) ∧ (s ≤ e ∧ e < s + d)) := by
  omega

/-- C16 (single allocation and slicing).  Let `s` and `d` be the source and
destination tile sizes of the bucket's plan, in `float4` elements, for
destination dims that fit an `int`.  A border-constant engine whose main
loop requests nothing itself and launches on the two tile pairs it is handed
requests one allocation, of `2 * (s + d)` `float4`s; its four slots start at
`float4` offsets `0`, `s`, `2 s`, `2 s + d` (addresses count `float`s, four
per `float4`), and every launch gets the pair `(src_A, dst_A)` or the pair
`(src_B, dst_B)`.  A border-ignored engine requests one allocation, of
`s + d` `float4`s, and when it is granted every launch gets the source tile
at offset `0` and the destination tile at offset `s`.  The regions
`[0, s)`, `[s, 2s)`, `[2s, 2s + d)`, `[2s + d, 2s + 2d)` are pairwise
disjoint and cover the `2 (s + d)` elements, and `[0, s)`, `[s, s + d)` are
disjoint and cover the `s + d` elements. -/
theorem C16_single_allocation_sliced (b : Bucket) (_device_malloc : Int → Bool)
    (main_loop_regulable_R_mk : MainLoop) (init : Dmems) (src dst : MatrixArray)
    (kw kh kp kp_mk nk : Nat)
    (hw : dst.width < 2147483648) (hh : dst.height < 2147483648)
    (hml : ∀ a m, alloc_requests (main_loop_regulable_R_mk a m).2 = []
      ∧ ∀ t ∈ launch_tiles (main_loop_regulable_R_mk a m).2,
          t = (a.call_A.Dsrc, a.call_A.Ddst) ∨ t = (a.call_B.Dsrc, a.call_B.Ddst))
    (hok : _device_malloc
      (((alloc_plan b.R_h b.R_w kw kh dst).dev_src_size
        + (alloc_plan b.R_h b.R_w kw kh dst).dev_dst_size) * sizeof_float4) = false) :
    let s := (alloc_plan b.R_h b.R_w kw kh dst).dev_src_size
    let d := (alloc_plan b.R_h b.R_w kw kh dst).dev_dst_size
    (s = (alloc_plan b.R_h b.R_w kw kh dst).Dsrc_alloc_dim.x
          * (alloc_plan b.R_h b.R_w kw kh dst).Dsrc_alloc_dim.y
      ∧ d = (alloc_plan b.R_h b.R_w kw kh dst).Ddst_alloc_dim.x
          * (alloc_plan b.R_h b.R_w kw kh dst).Ddst_alloc_dim.y
      ∧ 0 ≤ s ∧ 0 ≤ d)
    ∧ (alloc_requests (_Conv2_BC_MK b main_loop_regulable_R_mk init src ⟨kw, kh, kp_mk, nk⟩ dst)
          = [2 * (s + d) * sizeof_float4]
      ∧ (slice_Dmems init (alloc_plan b.R_h b.R_w kw kh dst)).Dmem1.mem = 4 * 0
      ∧ (slice_Dmems init (alloc_plan b.R_h b.R_w kw kh dst)).Dmem2.mem = 4 * s
      ∧ (slice_Dmems init (alloc_plan b.R_h b.R_w kw kh dst)).Dmem3.mem = 4 * (2 * s)
      ∧ (slice_Dmems init (alloc_plan b.R_h b.R_w kw kh dst)).Dmem4.mem = 4 * (2 * s + d)
      ∧ ∀ t ∈ launch_tiles
            (_Conv2_BC_MK b main_loop_regulable_R_mk init src ⟨kw, kh, kp_mk, nk⟩ dst),
          t = (Ptr.dev 0, Ptr.dev (4 * (2 * s)))
            ∨ t = (Ptr.dev (4 * s), Ptr.dev (4 * (2 * s + d))))
    ∧ (alloc_requests (dev_Conv2_NB_SK b _device_malloc src ⟨kw, kh, kp⟩ dst)
          = [(s + d) * sizeof_float4]
      ∧ launch_tiles (dev_Conv2_NB_SK b _device_malloc src ⟨kw, kh, kp⟩ dst)
          = List.replicate src.ArrayNumber (Ptr.dev 0, Ptr.dev (4 * s)))
    ∧ ∀ e : Int,
        ((0 ≤ e ∧ e < 2 * (s + d))
            ↔ ((0 ≤ e ∧ e < s) ∨ (s ≤ e ∧ e < 2 * s) ∨ (2 * s ≤ e ∧ e < 2 * s + d)
                ∨ (2 * s + d ≤ e ∧ e < 2 * s + 2 * d)))
        ∧ ¬ ((0 ≤ e ∧ e < s) ∧ (s ≤ e ∧ e < 2 * s))
        ∧ ¬ ((0 ≤ e ∧ e < s) ∧ (2 * s ≤ e ∧ e < 2 * s + d))
        ∧ ¬ ((0 ≤ e ∧ e < s) ∧ (2 * s + d ≤ e ∧ e < 2 * s + 2 * d))
        ∧ ¬ ((s ≤ e ∧ e < 2 * s) ∧ (2 * s ≤ e ∧ e < 2 * s + d))
        ∧ ¬ ((s ≤ e ∧ e < 2 * s) ∧ (2 * s + d ≤ e ∧ e < 2 * s + 2 * d))
        ∧ ¬ ((2 * s ≤ e ∧ e < 2 * s + d) ∧ (2 * s + d ≤ e ∧ e < 2 * s + 2 * d))
        ∧ ((0 ≤ e ∧ e < s + d) ↔ ((0 ≤ e ∧ e < s) ∨ (s ≤ e ∧ e < s + d)))
        ∧ ¬ ((0 ≤ e ∧ e < s) ∧ (s ≤ e ∧ e < s + d)) := by
  intro s d
  obtain ⟨hs, hd⟩ := alloc_plan_sizes_nonneg b.R_h b.R_w kw kh dst hw hh
  obtain ⟨a, m, c1, c2, c3, c4, c5, c6⟩ := BC_engine_requests_tiles b main_loop_regulable_R_mk
    init src ⟨kw, kh, kp_mk, nk⟩ dst
  refine ⟨⟨rfl, rfl, hs, hd⟩, ⟨?_, ?_, ?_, ?_, ?_, ?_⟩, ⟨?_, ?_⟩,
    fun e => regions_partition s d hs hd e⟩
  · rw [c5, (hml a m).1]
  · rfl
  · show (0 : Int) + 4 * s = 4 * s
    ring
  · show (0 : Int) + 4 * s + 4 * s = 4 * (2 * s)
    ring
  · show (0 : Int) + 4 * s + 4 * s + 4 * d = 4 * (2 * s + d)
    ring
  · intro t ht
    rw [c6] at ht
    rcases (hml a m).2 t ht with h | h
    · left; rw [h, c1, c2]
    · right; rw [h, c3, c4]
  · exact NB_engine_alloc_requests b _device_malloc src ⟨kw, kh, kp⟩ dst
  · exact NB_engine_tiles b _device_malloc src ⟨kw, kh, kp⟩ dst hok

/-- The single-matrix main loop requests no allocation and launches on the
first tile pair. -/
theorem main_loop_single_tiles (a : MainLoopArgs) (m : Dmems) :
    alloc_requests (main_loop_single a m).2 = []
    ∧ ∀ t ∈ launch_tiles (main_loop_single a m).2,
        t = (a.call_A.Dsrc, a.call_A.Ddst) ∨ t = (a.call_B.Dsrc, a.call_B.Ddst) := by
  refine ⟨rfl, fun t ht => ?_⟩
  have e : launch_tiles (main_loop_single a m).2 = [(a.call_A.Dsrc, a.call_A.Ddst)] := rfl
  rw [e, List.mem_singleton] at ht
  exact Or.inl ht

/-- Witness of C16: bucket R8x8, a 10 × 10 destination, a 3 × 3 kernel,
allocation granted, single-matrix main loop. -/
theorem C16_single_allocation_sliced_witness :
    let s := (alloc_plan Bucket.R8x8.R_h Bucket.R8x8.R_w 3 3 ⟨10, 10, 12, 1⟩).dev_src_size
    let d := (alloc_plan Bucket.R8x8.R_h Bucket.R8x8.R_w 3 3 ⟨10, 10, 12, 1⟩).dev_dst_size
    (s = (alloc_plan Bucket.R8x8.R_h Bucket.R8x8.R_w 3 3 ⟨10, 10, 12, 1⟩).Dsrc_alloc_dim.x
          * (alloc_plan Bucket.R8x8.R_h Bucket.R8x8.R_w 3 3 ⟨10, 10, 12, 1⟩).Dsrc_alloc_dim.y
      ∧ d = (alloc_plan Bucket.R8x8.R_h Bucket.R8x8.R_w 3 3 ⟨10, 10, 12, 1⟩).Ddst_alloc_dim.x
          * (alloc_plan Bucket.R8x8.R_h Bucket.R8x8.R_w 3 3 ⟨10, 10, 12, 1⟩).Ddst_alloc_dim.y
      ∧ 0 ≤ s ∧ 0 ≤ d)
    ∧ (alloc_requests (_Conv2_BC_MK Bucket.R8x8 main_loop_single Dmems_clear ⟨10, 10, 12, 1⟩
            ⟨3, 3, 4, 1⟩ ⟨10, 10, 12, 1⟩)
          = [2 * (s + d) * sizeof_float4]
      ∧ (slice_Dmems Dmems_clear
          (alloc_plan Bucket.R8x8.R_h Bucket.R8x8.R_w 3 3 ⟨10, 10, 12, 1⟩)).Dmem1.mem = 4 * 0
      ∧ (slice_Dmems Dmems_clear
          (alloc_plan Bucket.R8x8.R_h Bucket.R8x8.R_w 3 3 ⟨10, 10, 12, 1⟩)).Dmem2.mem = 4 * s
      ∧ (slice_Dmems Dmems_clear
          (alloc_plan Bucket.R8x8.R_h Bucket.R8x8.R_w 3 3 ⟨10, 10, 12, 1⟩)).Dmem3.mem
          = 4 * (2 * s)
      ∧ (slice_Dmems Dmems_clear
          (alloc_plan Bucket.R8x8.R_h Bucket.R8x8.R_w 3 3 ⟨10, 10, 12, 1⟩)).Dmem4.mem
          = 4 * (2 * s + d)
      ∧ ∀ t ∈ launch_tiles
            (_Conv2_BC_MK Bucket.R8x8 main_loop_single Dmems_clear ⟨10, 10, 12, 1⟩ ⟨3, 3, 4, 1⟩
              ⟨10, 10, 12, 1⟩),
          t = (Ptr.dev 0, Ptr.dev (4 * (2 * s)))
            ∨ t = (Ptr.dev (4 * s), Ptr.dev (4 * (2 * s + d))))
    ∧ (alloc_requests (dev_Conv2_NB_SK Bucket.R8x8 (fun _ => false) ⟨10, 10, 12, 1⟩ ⟨3, 3, 3⟩
            ⟨10, 10, 12, 1⟩)
          = [(s + d) * sizeof_float4]
      ∧ launch_tiles (dev_Conv2_NB_SK Bucket.R8x8 (fun _ => false) ⟨10, 10, 12, 1⟩ ⟨3, 3, 3⟩
            ⟨10, 10, 12, 1⟩)
          = List.replicate (⟨10, 10, 12, 1⟩ : MatrixArray).ArrayNumber
              (Ptr.dev 0, Ptr.dev (4 * s)))
    ∧ ∀ e : Int,
        ((0 ≤ e ∧ e < 2 * (s + d))
            ↔ ((0 ≤ e ∧ e < s) ∨ (s ≤ e ∧ e < 2 * s) ∨ (2 * s ≤ e ∧ e < 2 * s + d)
                ∨ (2 * s + d ≤ e ∧ e < 2 * s + 2 * d)))
        ∧ ¬ ((0 ≤ e ∧ e < s) ∧ (s ≤ e ∧ e < 2 * s))
        ∧ ¬ ((0 ≤ e ∧ e < s) ∧ (2 * s ≤ e ∧ e < 2 * s + d))
        ∧ ¬ ((0 ≤ e ∧ e < s) ∧ (2 * s + d ≤ e ∧ e < 2 * s + 2 * d))
        ∧ ¬ ((s ≤ e ∧ e < 2 * s) ∧ (2 * s ≤ e ∧ e < 2 * s + d))
        ∧ ¬ ((s ≤ e ∧ e < 2 * s) ∧ (2 * s + d ≤ e ∧ e < 2 * s + 2 * d))
        ∧ ¬ ((2 * s ≤ e ∧ e < 2 * s + d) ∧ (2 * s + d ≤ e ∧ e < 2 * s + 2 * d))
        ∧ ((0 ≤ e ∧ e < s + d) ↔ ((0 ≤ e ∧ e < s) ∨ (s ≤ e ∧ e < s + d)))
        ∧ ¬ ((0 ≤ e ∧ e < s) ∧ (s ≤ e ∧ e < s + d)) :=
  C16_single_allocation_sliced Bucket.R8x8 (fun _ => false) main_loop_single Dmems_clear
    ⟨10, 10, 12, 1⟩ ⟨10, 10, 12, 1⟩ 3 3 3 4 1 (by decide) (by decide) main_loop_single_tiles rfl

/-! ## The elementwise front-end `de::cpu::Add` (C18) -/

/-- C18: both overloads of `de::cpu::Add`.  With the CPU backend not
initialised the call marks its handle `NotInitialized`, prints the
`NOT_INIT` message and ends the process with exit code `-1`: the add routine
is not invoked and no handle is returned.  With the backend initialised the
call invokes the add routine once (`Kadd_m` on `A`, `B`, `dst`, resp.
`Kadd_c` on `src`, the scalar, `dst`) over the element count of its first
operand and returns a handle holding `Success`. -/
theorem C18_cpu_Add (A B src dst : de._Matrix) (x : Int) :
    de.cpu.Add false A B dst
        = { handle := ⟨some Status.NotInitialized⟩,
            ops := [de.ArithOp.Print_Error_Message 4 ErrMsg.NOT_INIT],
            ending := de.Ending.exit (-1) }
    ∧ de.cpu.Add_scalar false src x dst
        = { handle := ⟨some Status.NotInitialized⟩,
            ops := [de.ArithOp.Print_Error_Message 4 ErrMsg.NOT_INIT],
            ending := de.Ending.exit (-1) }
    ∧ de.cpu.Add true A B dst
        = { handle := ⟨some Status.Success⟩,
            ops := [de.ArithOp.Kadd_m de.Operand.A de.Operand.B de.Operand.dst A._element_num],
            ending := de.Ending.returned ⟨some Status.Success⟩ }
    ∧ de.cpu.Add_scalar true src x dst
        = { handle := ⟨some Status.Success⟩,
            ops := [de.ArithOp.Kadd_c de.Operand.src x de.Operand.dst src._element_num],
            ending := de.Ending.returned ⟨some Status.Success⟩ } :=
  ⟨rfl, rfl, rfl, rfl⟩

/-! ## Barriers: before the release (C19), before the first launch (C20) -/

/-- A loop of at least one iteration whose body is three operations, none of
them a barrier, ends with the third operation of its last iteration, and
issues no barrier before it. -/
theorem for_loop_three_last (n : Nat) (f g h : Nat → Op)
    (hf : ∀ i, f i ≠ Op.cudaDeviceSynchronize) (hg : ∀ i, g i ≠ Op.cudaDeviceSynchronize)
    (hh : ∀ i, h i ≠ Op.cudaDeviceSynchronize) :
    ∃ mid, for_loop (n + 1) (fun i => [f i, g i, h i]) = mid ++ [h n]
      ∧ Op.cudaDeviceSynchronize ∉ mid := by
  have hloop : ∀ k, Op.cudaDeviceSynchronize ∉ for_loop k (fun i => [f i, g i, h i]) := by
    intro k
    induction k with
    | zero => exact List.not_mem_nil _
    | succ k ih =>
      rw [for_loop, List.mem_append]
      rintro (hm | hm)
      · exact ih hm
      · simp only [List.mem_cons, List.mem_singleton, List.not_mem_nil, or_false] at hm
        rcases hm with hm | hm | hm
        · exact hf k hm.symm
        · exact hg k hm.symm
        · exact hh k hm.symm
  refine ⟨for_loop n (fun i => [f i, g i, h i]) ++ [f n, g n], ?_, ?_⟩
  · rw [for_loop, List.append_assoc]; rfl
  · rw [List.mem_append]
    rintro (hm | hm)
    · exact hloop n hm
    · simp only [List.mem_cons, List.mem_singleton, List.not_mem_nil, or_false] at hm
      rcases hm with hm | hm
      · exact hf n hm.symm
      · exact hg n hm.symm

/-- Every border-ignored driver, on a stack of `n + 1` matrices, ends with
the drain of element `n` and issues no barrier. -/
theorem NB_drivers_last (b : Bucket) (Dsrc_alloc_dim Ddst_alloc_dim ker_dim : int2)
    (w h p n : Nat) (kernel : Matrix) (dst : MatrixArray) (Dsrc Ddst : Int) :
    (∃ mid, dev_main_loop_sconv2_sk_exact_NB b Dsrc_alloc_dim Ddst_alloc_dim ker_dim
          ⟨w, h, p, n + 1⟩ kernel dst Dsrc Ddst = mid ++ [drain_NB Ddst_alloc_dim dst Ddst n]
        ∧ Op.cudaDeviceSynchronize ∉ mid)
    ∧ (∃ mid, dev_main_loop_sconv2_sk_within_NB b Dsrc_alloc_dim Ddst_alloc_dim ker_dim
          ⟨w, h, p, n + 1⟩ kernel dst Dsrc Ddst = mid ++ [drain_NB Ddst_alloc_dim dst Ddst n]
        ∧ Op.cudaDeviceSynchronize ∉ mid) := by
  cases b <;>
    exact ⟨for_loop_three_last n _ _ _
        (fun _ => by simp [stage_within, stage_exact])
        (fun _ => by simp [launch_within, launch_exact])
        (fun _ => by simp [drain_NB]),
      for_loop_three_last n _ _ _
        (fun _ => by simp [stage_within, stage_exact])
        (fun _ => by simp [launch_within, launch_exact])
        (fun _ => by simp [drain_NB])⟩

theorem sync_not_mem_upload_loop (kind : cudaMemcpyKind) (stream : StreamRef) (kw kp : Nat)
    (todo lin ker : Nat) :
    Op.cudaDeviceSynchronize ∉ upload_loop kind stream kw kp todo lin ker := by
  rw [upload_loop_eq_map]
  simp

theorem append_tail_shift (A B C : List Op) (x y : Op) (T : List Op) :
    A ++ (B ++ C ++ [x, y]) ++ T = (A ++ (B ++ C)) ++ (x :: y :: T) := by
  simp

/-- C19, where the code departs from it: in every border-ignored bucket
engine, on a stack of `n + 1` matrices with the allocation granted, the last
drain is followed at once by `_device_dealloc`, and the only barrier of the
run comes after that release: no barrier stands between the last drain and
the release.  The border-constant engines do take the barrier between their
final drain and `cudaFree`. -/
theorem C19_NB_release_before_barrier (b : Bucket) (w h p n : Nat) (kernel : Matrix)
    (dst : MatrixArray) (main_loop_regulable_R_mk : MainLoop) (init : Dmems)
    (src_mk kernel_mk dst_mk : MatrixArray) :
    (∃ front,
      dev_Conv2_NB_SK b (fun _ => false) ⟨w, h, p, n + 1⟩ kernel dst
        = front
          ++ [drain_NB (alloc_plan b.R_h b.R_w kernel.width kernel.height dst).Ddst_alloc_dim dst
                (4 * (alloc_plan b.R_h b.R_w kernel.width kernel.height dst).dev_src_size) n,
              Op._device_dealloc, Op.cudaDeviceSynchronize, Op.cudaStreamDestroy]
      ∧ Op.cudaDeviceSynchronize ∉ front)
    ∧ ∃ front from_slot,
        _Conv2_BC_MK b main_loop_regulable_R_mk init src_mk kernel_mk dst_mk
          = front
            ++ [drain_BC
                  (alloc_plan b.R_h b.R_w kernel_mk.width kernel_mk.height dst_mk).Ddst_alloc_dim
                  dst_mk from_slot,
                Op.cudaDeviceSynchronize, Op.cudaFree, Op.detach 0, Op.detach 1, Op.detach 2] := by
  constructor
  · obtain ⟨⟨m1, e1, n1⟩, ⟨m2, e2, n2⟩⟩ := NB_drivers_last b
      (alloc_plan b.R_h b.R_w kernel.width kernel.height dst).Dsrc_alloc_dim
      (alloc_plan b.R_h b.R_w kernel.width kernel.height dst).Ddst_alloc_dim
      (alloc_plan b.R_h b.R_w kernel.width kernel.height dst).ker_dim w h p n kernel dst 0
      (4 * (alloc_plan b.R_h b.R_w kernel.width kernel.height dst).dev_src_size)
    have hup := sync_not_mem_upload_loop cudaMemcpyKind.DeviceToDevice StreamRef.S kernel.width
      kernel.pitch kernel.height 0 0
    rw [NB_engine_ok b (fun _ => false) ⟨w, h, p, n + 1⟩ kernel dst rfl]
    split_ifs
    · refine ⟨[Op._device_malloc
            (((alloc_plan b.R_h b.R_w kernel.width kernel.height dst).dev_src_size
              + (alloc_plan b.R_h b.R_w kernel.width kernel.height dst).dev_dst_size)
                * sizeof_float4), Op.cudaStreamCreate]
          ++ upload_loop cudaMemcpyKind.DeviceToDevice StreamRef.S kernel.width
            kernel.pitch kernel.height 0 0 ++ m1, ?_, ?_⟩
      · rw [e1]; simp only [List.append_assoc, List.cons_append, List.nil_append]
      · simp [hup, n1]
    · refine ⟨[Op._device_malloc
            (((alloc_plan b.R_h b.R_w kernel.width kernel.height dst).dev_src_size
              + (alloc_plan b.R_h b.R_w kernel.width kernel.height dst).dev_dst_size)
                * sizeof_float4), Op.cudaStreamCreate]
          ++ upload_loop cudaMemcpyKind.DeviceToDevice StreamRef.S kernel.width
            kernel.pitch kernel.height 0 0 ++ m2, ?_, ?_⟩
      · rw [e2]; simp only [List.append_assoc, List.cons_append, List.nil_append]
      · simp [hup, n2]
  · rw [BC_engine_ops]
    split_ifs
    · rw [(BC_drivers_eq b main_loop_regulable_R_mk _ _ _ src_mk kernel_mk dst_mk _).1,
        main_loop_BC_ops]
      rw [append_tail_shift]
      exact ⟨_, _, rfl⟩
    · rw [(BC_drivers_eq b main_loop_regulable_R_mk _ _ _ src_mk kernel_mk dst_mk _).2,
        main_loop_BC_ops]
      rw [append_tail_shift]
      exact ⟨_, _, rfl⟩

theorem upload_streams_upload_loop (kind : cudaMemcpyKind) (stream : StreamRef) (kw kp : Nat) :
    ∀ (todo lin ker : Nat),
      upload_streams (upload_loop kind stream kw kp todo lin ker)
        = List.replicate todo stream := by
  intro todo
  induction todo with
  | zero => intro _ _; rfl
  | succ todo ih =>
    intro lin ker
    rw [upload_loop, List.replicate_succ]
    show stream :: upload_streams _ = _
    rw [ih]

/-- C20: the operation order of every border-constant engine, for any main
loop.  After the allocation and the three stream acquisitions come the
`kernel.height` kernel-row uploads, all on stream `S[0]`; then the
host-to-device staging of source element 0 into the first source slot, on
stream `S[0]`; then a barrier; then everything else.  No stencil is launched
up to and including that barrier, so every launch of the run comes after
it. -/
theorem C20_BC_upload_stage_barrier_order (b : Bucket) (main_loop_regulable_R_mk : MainLoop)
    (init : Dmems) (src kernel dst : MatrixArray) :
    (∃ tail,
      _Conv2_BC_MK b main_loop_regulable_R_mk init src kernel dst
        = ([Op.cudaMalloc
              (2 * ((alloc_plan b.R_h b.R_w kernel.width kernel.height dst).dev_src_size
                + (alloc_plan b.R_h b.R_w kernel.width kernel.height dst).dev_dst_size)
                  * sizeof_float4),
            Op.stream_accessor_ptr 0, Op.stream_accessor_ptr 1, Op.stream_accessor_ptr 2]
          ++ upload_loop cudaMemcpyKind.HostToDevice (StreamRef.pool 0) kernel.width kernel.pitch
              kernel.height 0 0
          ++ [stage0_BC b.R_h b.R_w
                (alloc_plan b.R_h b.R_w kernel.width kernel.height dst).Dsrc_alloc_dim src
                (slice_Dmems init (alloc_plan b.R_h b.R_w kernel.width kernel.height dst)),
              Op.cudaDeviceSynchronize])
          ++ tail
      ∧ launched (_Conv2_BC_MK b main_loop_regulable_R_mk init src kernel dst) = launched tail)
    ∧ (upload_loop cudaMemcpyKind.HostToDevice (StreamRef.pool 0) kernel.width kernel.pitch
          kernel.height 0 0).length = kernel.height
    ∧ upload_streams (upload_loop cudaMemcpyKind.HostToDevice (StreamRef.pool 0) kernel.width
          kernel.pitch kernel.height 0 0) = List.replicate kernel.height (StreamRef.pool 0)
    ∧ stage0_BC b.R_h b.R_w
          (alloc_plan b.R_h b.R_w kernel.width kernel.height dst).Dsrc_alloc_dim src
          (slice_Dmems init (alloc_plan b.R_h b.R_w kernel.width kernel.height dst))
        = Op.cudaMemcpy2DAsync
            (Ptr.dev (0
              + (alloc_plan b.R_h b.R_w kernel.width kernel.height dst).Dsrc_alloc_dim.x
                  * b.R_h * 4 + b.R_w))
            ((alloc_plan b.R_h b.R_w kernel.width kernel.height dst).Dsrc_alloc_dim.x
              * sizeof_float4)
            (Ptr.src_mat 0) (src.pitch * sizeof_float) (src.width * sizeof_float) src.height
            cudaMemcpyKind.HostToDevice (StreamRef.pool 0)
    ∧ launched
        ([Op.cudaMalloc
              (2 * ((alloc_plan b.R_h b.R_w kernel.width kernel.height dst).dev_src_size
                + (alloc_plan b.R_h b.R_w kernel.width kernel.height dst).dev_dst_size)
                  * sizeof_float4),
            Op.stream_accessor_ptr 0, Op.stream_accessor_ptr 1, Op.stream_accessor_ptr 2]
          ++ upload_loop cudaMemcpyKind.HostToDevice (StreamRef.pool 0) kernel.width kernel.pitch
              kernel.height 0 0
          ++ [stage0_BC b.R_h b.R_w
                (alloc_plan b.R_h b.R_w kernel.width kernel.height dst).Dsrc_alloc_dim src
                (slice_Dmems init (alloc_plan b.R_h b.R_w kernel.width kernel.height dst)),
              Op.cudaDeviceSynchronize]) = [] := by
  have hpre : launched
      ([Op.cudaMalloc
            (2 * ((alloc_plan b.R_h b.R_w kernel.width kernel.height dst).dev_src_size
              + (alloc_plan b.R_h b.R_w kernel.width kernel.height dst).dev_dst_size)
                * sizeof_float4),
          Op.stream_accessor_ptr 0, Op.stream_accessor_ptr 1, Op.stream_accessor_ptr 2]
        ++ upload_loop cudaMemcpyKind.HostToDevice (StreamRef.pool 0) kernel.width kernel.pitch
            kernel.height 0 0
        ++ [stage0_BC b.R_h b.R_w
              (alloc_plan b.R_h b.R_w kernel.width kernel.height dst).Dsrc_alloc_dim src
              (slice_Dmems init (alloc_plan b.R_h b.R_w kernel.width kernel.height dst)),
            Op.cudaDeviceSynchronize]) = [] := by
    rw [launched_append, launched_append, launched_upload_loop]
    rfl
  have shape : ∀ (p u : List Op) (x y : Op) (m : List Op) (z : List Op) (t : List Op),
      p ++ u ++ ([x, y] ++ m ++ z) ++ t = (p ++ u ++ [x, y]) ++ (m ++ z ++ t) := by
    intro p u x y m z t
    simp
  refine ⟨?_, upload_loop_length _ _ _ _ _ _ _, upload_streams_upload_loop _ _ _ _ _ _ _, rfl,
    hpre⟩
  rw [BC_engine_ops]
  split_ifs
  · rw [(BC_drivers_eq b main_loop_regulable_R_mk _ _ _ src kernel dst _).1, main_loop_BC_ops,
      shape]
    exact ⟨_, rfl, by rw [launched_append, hpre, List.nil_append]⟩
  · rw [(BC_drivers_eq b main_loop_regulable_R_mk _ _ _ src kernel dst _).2, main_loop_BC_ops,
      shape]
    exact ⟨_, rfl, by rw [launched_append, hpre, List.nil_append]⟩

/-! ## The border-ignored drivers in closed form -/

/-- The two border-ignored drivers of a bucket, as loops over the stack.  The
`exact` driver stages at the tile origin, the `within` driver at the distance
of the kernel half-extents from the bucket radii; both drain the destination
tile into destination element `i`.  The staged source element is `i`, except
in `dev_main_loop_sconv2_sk_exact16x8_NB`, where it is element 0. -/
theorem NB_drivers_eq (b : Bucket) (Dsrc_alloc_dim Ddst_alloc_dim ker_dim : int2)
    (src : MatrixArray) (kernel : Matrix) (dst : MatrixArray) (Dsrc Ddst : Int) :
    dev_main_loop_sconv2_sk_exact_NB b Dsrc_alloc_dim Ddst_alloc_dim ker_dim src kernel dst Dsrc
        Ddst
      = for_loop src.ArrayNumber (fun i =>
          [stage_exact Dsrc_alloc_dim src Dsrc (if b = Bucket.R16x8 then 0 else i),
            launch_exact b.exact Dsrc_alloc_dim Ddst_alloc_dim ker_dim Dsrc Ddst,
            drain_NB Ddst_alloc_dim dst Ddst i])
    ∧ dev_main_loop_sconv2_sk_within_NB b Dsrc_alloc_dim Ddst_alloc_dim ker_dim src kernel dst
        Dsrc Ddst
      = for_loop src.ArrayNumber (fun i =>
          [stage_within Dsrc_alloc_dim
              ⟨(b.R_h : Int) - ker_dim.y / 2, (b.R_w : Int) - ker_dim.x / 2⟩ src Dsrc i,
            launch_within b.within Dsrc_alloc_dim Ddst_alloc_dim ker_dim
              ⟨(b.R_h : Int) - ker_dim.y / 2, (b.R_w : Int) - ker_dim.x / 2⟩ Dsrc Ddst,
            drain_NB Ddst_alloc_dim dst Ddst i]) := by
  cases b <;> exact ⟨rfl, rfl⟩

/-! ## Exact and within at the bucket boundary (C29) -/

/-- C29: for each border-ignored bucket and a kernel of exactly
`(2 * R_w + 1) × (2 * R_h + 1)`, the `src_diff` of the `within` driver is
`(0, 0)`, and its staging copy goes to the tile origin `Dsrc` with the row
pitches and the extent of the staging copy of the `exact` driver: iteration
`i` of the `within` driver is the `exact` driver's staging copy of element
`i`, the `within` launch with `src_diff = (0, 0)`, and the drain into element
`i`; iteration `i` of the `exact` driver is a staging copy with the same
destination, pitches and extent, the `exact` launch, and the same drain. -/
theorem C29_exact_within_agree (b : Bucket) (Dsrc_alloc_dim Ddst_alloc_dim : int2)
    (src : MatrixArray) (kernel : Matrix) (dst : MatrixArray) (Dsrc Ddst : Int) :
    ((b.R_h : Int) - (2 * (b.R_h : Int) + 1) / 2 = 0
      ∧ (b.R_w : Int) - (2 * (b.R_w : Int) + 1) / 2 = 0)
    ∧ dev_main_loop_sconv2_sk_within_NB b Dsrc_alloc_dim Ddst_alloc_dim
          ⟨2 * (b.R_w : Int) + 1, 2 * (b.R_h : Int) + 1⟩ src kernel dst Dsrc Ddst
        = for_loop src.ArrayNumber (fun i =>
            [Op.cudaMemcpy2DAsync (Ptr.dev Dsrc) (Dsrc_alloc_dim.x * sizeof_float4)
                (Ptr.src_mat i) (src.pitch * sizeof_float) (src.width * sizeof_float) src.height
                cudaMemcpyKind.DeviceToDevice StreamRef.S,
              launch_within b.within Dsrc_alloc_dim Ddst_alloc_dim
                ⟨2 * (b.R_w : Int) + 1, 2 * (b.R_h : Int) + 1⟩ ⟨0, 0⟩ Dsrc Ddst,
              Op.cudaMemcpy2DAsync (Ptr.dst_mat i) (dst.pitch * sizeof_float) (Ptr.dev Ddst)
                (Ddst_alloc_dim.x * sizeof_float4) (dst.width * sizeof_float) dst.height
                cudaMemcpyKind.DeviceToDevice StreamRef.S])
    ∧ dev_main_loop_sconv2_sk_exact_NB b Dsrc_alloc_dim Ddst_alloc_dim
          ⟨2 * (b.R_w : Int) + 1, 2 * (b.R_h : Int) + 1⟩ src kernel dst Dsrc Ddst
        = for_loop src.ArrayNumber (fun i =>
            [Op.cudaMemcpy2DAsync (Ptr.dev Dsrc) (Dsrc_alloc_dim.x * sizeof_float4)
                (Ptr.src_mat (if b = Bucket.R16x8 then 0 else i)) (src.pitch * sizeof_float)
                (src.width * sizeof_float) src.height
                cudaMemcpyKind.DeviceToDevice StreamRef.S,
              launch_exact b.exact Dsrc_alloc_dim Ddst_alloc_dim
                ⟨2 * (b.R_w : Int) + 1, 2 * (b.R_h : Int) + 1⟩ Dsrc Ddst,
              Op.cudaMemcpy2DAsync (Ptr.dst_mat i) (dst.pitch * sizeof_float) (Ptr.dev Ddst)
                (Ddst_alloc_dim.x * sizeof_float4) (dst.width * sizeof_float) dst.height
                cudaMemcpyKind.DeviceToDevice StreamRef.S]) := by
  have hd : ((b.R_h : Int) - (2 * (b.R_h : Int) + 1) / 2 = 0
      ∧ (b.R_w : Int) - (2 * (b.R_w : Int) + 1) / 2 = 0) := by
    constructor <;> omega
  refine ⟨hd, ?_, ?_⟩
  · rw [(NB_drivers_eq b _ _ _ _ _ _ _ _).2]
    simp only [hd.1, hd.2, stage_within, drain_NB, zero_mul, add_zero]
  · rw [(NB_drivers_eq b _ _ _ _ _ _ _ _).1]
    rfl

/-! ## The destination tile of the border-ignored engines (C26) -/

theorem append_last_shift (A B C : List Op) (x : Op) (T : List Op) :
    A ++ B ++ (C ++ [x]) ++ T = (A ++ B ++ C) ++ (x :: T) := by
  simp

/-- A border-ignored engine on a stack of `n + 1` matrices, allocation
granted, ends with the drain of element `n` from the destination tile of its
plan, the release, the barrier and the stream teardown. -/
theorem NB_engine_ends (b : Bucket) (w h p n : Nat) (kernel : Matrix) (dst : MatrixArray) :
    ∃ front,
      dev_Conv2_NB_SK b (fun _ => false) ⟨w, h, p, n + 1⟩ kernel dst
        = front
          ++ [drain_NB (alloc_plan b.R_h b.R_w kernel.width kernel.height dst).Ddst_alloc_dim dst
                (4 * (alloc_plan b.R_h b.R_w kernel.width kernel.height dst).dev_src_size) n,
              Op._device_dealloc, Op.cudaDeviceSynchronize, Op.cudaStreamDestroy] := by
  obtain ⟨⟨m1, e1, -⟩, ⟨m2, e2, -⟩⟩ := NB_drivers_last b
    (alloc_plan b.R_h b.R_w kernel.width kernel.height dst).Dsrc_alloc_dim
    (alloc_plan b.R_h b.R_w kernel.width kernel.height dst).Ddst_alloc_dim
    (alloc_plan b.R_h b.R_w kernel.width kernel.height dst).ker_dim w h p n kernel dst 0
    (4 * (alloc_plan b.R_h b.R_w kernel.width kernel.height dst).dev_src_size)
  rw [NB_engine_ok b (fun _ => false) ⟨w, h, p, n + 1⟩ kernel dst rfl]
  split_ifs
  · rw [e1, append_last_shift]
    exact ⟨_, rfl⟩
  · rw [e2, append_last_shift]
    exact ⟨_, rfl⟩

/-- C26: in every border-ignored bucket engine `Ddst_alloc_dim` is
`ceil(dst.width, 64) * R8 * 2` by `ceil(dst.height, 16) * R8 * 2`, with the
small radius constant in both components, so the destination tile of two
buckets is the same for the same destination dims; `Dsrc_alloc_dim` adds
`R_w / 2` and `R_h * 2` of the bucket, and differs between buckets.  The
destination tile is the one the engine drains from, with its width as the
device row pitch. -/
theorem C26_NB_dst_tile_same (b b2 : Bucket) (kw kh kp w h p n : Nat) (dst : MatrixArray) :
    (alloc_plan b.R_h b.R_w kw kh dst).Ddst_alloc_dim
        = ⟨utils.ceil (int_cast dst.width) 64 * bounded_kernel_R8 * 2,
            utils.ceil (int_cast dst.height) 16 * bounded_kernel_R8 * 2⟩
    ∧ (alloc_plan b.R_h b.R_w kw kh dst).Ddst_alloc_dim
        = (alloc_plan b2.R_h b2.R_w kw kh dst).Ddst_alloc_dim
    ∧ (alloc_plan b.R_h b.R_w kw kh dst).Dsrc_alloc_dim
        = ⟨(alloc_plan b.R_h b.R_w kw kh dst).Ddst_alloc_dim.x + ((b.R_w / 2 : Nat) : Int),
            (alloc_plan b.R_h b.R_w kw kh dst).Ddst_alloc_dim.y + (b.R_h : Int) * 2⟩
    ∧ ((alloc_plan b.R_h b.R_w kw kh dst).Dsrc_alloc_dim
          = (alloc_plan b2.R_h b2.R_w kw kh dst).Dsrc_alloc_dim ↔ b = b2)
    ∧ ∃ front,
        dev_Conv2_NB_SK b (fun _ => false) ⟨w, h, p, n + 1⟩ ⟨kw, kh, kp⟩ dst
          = front
            ++ [Op.cudaMemcpy2DAsync (Ptr.dst_mat n) (dst.pitch * sizeof_float)
                  (Ptr.dev (4 * (alloc_plan b.R_h b.R_w kw kh dst).dev_src_size))
                  (utils.ceil (int_cast dst.width) 64 * bounded_kernel_R8 * 2 * sizeof_float4)
                  (dst.width * sizeof_float) dst.height cudaMemcpyKind.DeviceToDevice
                  StreamRef.S,
                Op._device_dealloc, Op.cudaDeviceSynchronize, Op.cudaStreamDestroy] := by
  refine ⟨rfl, rfl, rfl, ?_, NB_engine_ends b w h p n ⟨kw, kh, kp⟩ dst⟩
  constructor
  · intro hs
    have hx := congrArg int2.x hs
    have hy := congrArg int2.y hs
    simp only [alloc_plan] at hx hy
    cases b <;> cases b2 <;>
      simp only [Bucket.R_h, Bucket.R_w, bounded_kernel_R8, bounded_kernel_R16] at hx hy <;>
      first
        | rfl
        | (exfalso; omega)
  · rintro rfl; rfl

/-! ## The front-end `de::cuda::Sub` (C30) -/

/-- C30: `de::cuda::Sub(A, B, dst)` decides its status in a fixed order.  With
the CUDA backend not initialised it returns `NotInitialized`, whatever the
lengths; otherwise it returns `DimensionMismatch` if and only if the lengths
of `A` and `B` differ; otherwise it invokes `dev_Ksub_m` once, over the length
of `A`, and returns `Success`.  In both error cases no routine is invoked, and
the outcome never depends on `dst`. -/
theorem C30_cuda_Sub (A B dst dst2 : de._GPU_Vector) (is_init : Bool) :
    de.cuda.Sub false A B dst = (⟨some Status.NotInitialized⟩, [])
    ∧ de.cuda.Sub true A B dst
        = (if A._length ≠ B._length then (⟨some Status.DimensionMismatch⟩, [])
           else (⟨some Status.Success⟩,
              [de.DevOp.dev_Ksub_m de.Operand.A de.Operand.B de.Operand.dst A._length]))
    ∧ ((de.cuda.Sub true A B dst).1 = ⟨some Status.DimensionMismatch⟩ ↔ A._length ≠ B._length)
    ∧ ((de.cuda.Sub true A B dst).1 = ⟨some Status.Success⟩ ↔ A._length = B._length)
    ∧ de.cuda.Sub is_init A B dst = de.cuda.Sub is_init A B dst2 := by
  refine ⟨rfl, rfl, ?_, ?_, rfl⟩
  · by_cases hl : A._length = B._length <;> simp [de.cuda.Sub, hl, de.MDim_Not_Matching, Success]
  · by_cases hl : A._length = B._length <;> simp [de.cuda.Sub, hl, de.MDim_Not_Matching, Success]

/-! ## The shape of the border-ignored pipeline (C21) -/

theorem pipeline_steps_append (a b : List Op) :
    pipeline_steps (a ++ b) = pipeline_steps a ++ pipeline_steps b := by
  induction a with
  | nil => rfl
  | cons op ops ih =>
    rw [List.cons_append]
    cases op with
    | cudaMemcpy2DAsync d dp s sp wd ht kd st =>
      cases s <;> cases d <;> simp [pipeline_steps, ih]
    | _ => simp [pipeline_steps, ih]

theorem op_streams_append (a b : List Op) :
    op_streams (a ++ b) = op_streams a ++ op_streams b := by
  induction a with
  | nil => rfl
  | cons op ops ih =>
    rw [List.cons_append]
    cases op <;> simp [op_streams, ih]

theorem pipeline_steps_upload_loop (kind : cudaMemcpyKind) (stream : StreamRef) (kw kp : Nat) :
    ∀ (todo lin ker : Nat), pipeline_steps (upload_loop kind stream kw kp todo lin ker) = [] := by
  intro todo
  induction todo with
  | zero => intro _ _; rfl
  | succ todo ih =>
    intro lin ker
    rw [upload_loop]
    exact ih _ _

theorem op_streams_upload_loop (kind : cudaMemcpyKind) (stream : StreamRef) (kw kp : Nat) :
    ∀ (todo lin ker : Nat),
      op_streams (upload_loop kind stream kw kp todo lin ker) = List.replicate todo stream := by
  intro todo
  induction todo with
  | zero => intro _ _; rfl
  | succ todo ih =>
    intro lin ker
    rw [upload_loop, List.replicate_succ]
    show stream :: op_streams _ = _
    rw [ih]

/-- A loop seen through a reader that goes through appends: the readings of
the iterations, in order. -/
theorem for_loop_reading {α : Type} (f : List Op → List α) (hnil : f [] = [])
    (happ : ∀ a b, f (a ++ b) = f a ++ f b) (n : Nat) (body : Nat → List Op) :
    f (for_loop n body) = (List.range n).flatMap (fun i => f (body i)) := by
  induction n with
  | zero => simpa [for_loop] using hnil
  | succ n ih =>
    rw [for_loop, happ, ih, List.range_succ, List.flatMap_append]
    simp

theorem for_loop_length (n : Nat) (body : Nat → List Op) (k : Nat)
    (h : ∀ i, (body i).length = k) : (for_loop n body).length = k * n := by
  induction n with
  | zero => rfl
  | succ n ih => rw [for_loop, List.length_append, ih, h, Nat.mul_succ]

theorem op_streams_for_loop (n : Nat) (body : Nat → List Op) (s : StreamRef)
    (h : ∀ i, op_streams (body i) = [s, s, s]) :
    op_streams (for_loop n body) = List.replicate (3 * n) s := by
  induction n with
  | zero => rfl
  | succ n ih =>
    rw [for_loop, op_streams_append, ih, h, Nat.mul_succ, List.replicate_add]
    rfl

/-- The loop of a border-ignored engine: `3 * N` operations, all on the
stream `S`; iteration `i` is a staging copy, the launch, and the drain into
destination element `i`, in this order, and the staged element is `i` in
every driver but `dev_main_loop_sconv2_sk_exact16x8_NB`, which stages
element 0. -/
theorem NB_drivers_shape (b : Bucket) (Dsrc_alloc_dim Ddst_alloc_dim ker_dim : int2)
    (src : MatrixArray) (kernel : Matrix) (dst : MatrixArray) (Dsrc Ddst : Int) :
    ((dev_main_loop_sconv2_sk_exact_NB b Dsrc_alloc_dim Ddst_alloc_dim ker_dim src kernel dst
          Dsrc Ddst).length = 3 * src.ArrayNumber
      ∧ op_streams (dev_main_loop_sconv2_sk_exact_NB b Dsrc_alloc_dim Ddst_alloc_dim ker_dim src
          kernel dst Dsrc Ddst) = List.replicate (3 * src.ArrayNumber) StreamRef.S
      ∧ pipeline_steps (dev_main_loop_sconv2_sk_exact_NB b Dsrc_alloc_dim Ddst_alloc_dim ker_dim
          src kernel dst Dsrc Ddst)
        = (List.range src.ArrayNumber).flatMap (fun i =>
            [Step.STAGE (if b = Bucket.R16x8 then 0 else i), Step.COMPUTE, Step.DRAIN i]))
    ∧ ((dev_main_loop_sconv2_sk_within_NB b Dsrc_alloc_dim Ddst_alloc_dim ker_dim src kernel dst
          Dsrc Ddst).length = 3 * src.ArrayNumber
      ∧ op_streams (dev_main_loop_sconv2_sk_within_NB b Dsrc_alloc_dim Ddst_alloc_dim ker_dim src
          kernel dst Dsrc Ddst) = List.replicate (3 * src.ArrayNumber) StreamRef.S
      ∧ pipeline_steps (dev_main_loop_sconv2_sk_within_NB b Dsrc_alloc_dim Ddst_alloc_dim ker_dim
          src kernel dst Dsrc Ddst)
        = (List.range src.ArrayNumber).flatMap (fun i =>
            [Step.STAGE i, Step.COMPUTE, Step.DRAIN i])) := by
  rw [(NB_drivers_eq b _ _ _ _ _ _ _ _).1, (NB_drivers_eq b _ _ _ _ _ _ _ _).2]
  exact ⟨⟨for_loop_length _ _ 3 (fun _ => rfl), op_streams_for_loop _ _ _ (fun _ => rfl),
      for_loop_reading pipeline_steps rfl pipeline_steps_append _ _⟩,
    ⟨for_loop_length _ _ 3 (fun _ => rfl), op_streams_for_loop _ _ _ (fun _ => rfl),
      for_loop_reading pipeline_steps rfl pipeline_steps_append _ _⟩⟩

set_option maxRecDepth 100000 in
/-- C21, with the place where the code departs from it.  A border-ignored
engine whose allocation is granted issues the request and the stream
creation, the `kernel.height` kernel-row uploads on stream `S`, the loop, and
the teardown.  The loop is `3 * N` operations, all on `S`, with every launch
on the one source tile (offset 0) and the one destination tile (offset
`4 * dev_src_size`): iteration `i`, in increasing `i`, is a staging copy, the
launch and the drain into destination element `i`.  The staging copy reads
source element `i`, except in the `exact` driver of bucket R16x8, which
reads element 0 in every iteration: on a stack of two 20 × 40 matrices with a
17 × 33 kernel the steps are `STAGE 0, COMPUTE, DRAIN 0, STAGE 0, COMPUTE,
DRAIN 1`. -/
theorem C21_NB_pipeline_shape (b : Bucket) (src : MatrixArray) (kernel : Matrix)
    (dst : MatrixArray) :
    (∃ loop,
      dev_Conv2_NB_SK b (fun _ => false) src kernel dst
        = [Op._device_malloc
              (((alloc_plan b.R_h b.R_w kernel.width kernel.height dst).dev_src_size
                + (alloc_plan b.R_h b.R_w kernel.width kernel.height dst).dev_dst_size)
                  * sizeof_float4),
            Op.cudaStreamCreate]
          ++ upload_loop cudaMemcpyKind.DeviceToDevice StreamRef.S kernel.width kernel.pitch
              kernel.height 0 0
          ++ loop
          ++ [Op._device_dealloc, Op.cudaDeviceSynchronize, Op.cudaStreamDestroy]
      ∧ loop.length = 3 * src.ArrayNumber
      ∧ op_streams loop = List.replicate (3 * src.ArrayNumber) StreamRef.S
      ∧ launch_tiles loop
          = List.replicate src.ArrayNumber
              (Ptr.dev 0,
                Ptr.dev (4 * (alloc_plan b.R_h b.R_w kernel.width kernel.height dst).dev_src_size))
      ∧ pipeline_steps loop
          = (List.range src.ArrayNumber).flatMap (fun i =>
              [Step.STAGE
                  (if b = Bucket.R16x8
                      ∧ kernel.width = 2 * b.R_w + 1 ∧ kernel.height = 2 * b.R_h + 1 then 0
                   else i),
                Step.COMPUTE, Step.DRAIN i]))
    ∧ (upload_loop cudaMemcpyKind.DeviceToDevice StreamRef.S kernel.width kernel.pitch
          kernel.height 0 0).length = kernel.height
    ∧ op_streams (upload_loop cudaMemcpyKind.DeviceToDevice StreamRef.S kernel.width kernel.pitch
          kernel.height 0 0) = List.replicate kernel.height StreamRef.S
    ∧ pipeline_steps (dev_Conv2_NB_SK Bucket.R16x8 (fun _ => false) ⟨20, 40, 20, 2⟩ ⟨17, 33, 17⟩
          ⟨4, 8, 4, 2⟩)
        = [Step.STAGE 0, Step.COMPUTE, Step.DRAIN 0, Step.STAGE 0, Step.COMPUTE, Step.DRAIN 1] := by
  refine ⟨?_, upload_loop_length _ _ _ _ _ _ _, op_streams_upload_loop _ _ _ _ _ _ _, by decide⟩
  obtain ⟨⟨l1, s1, p1⟩, ⟨l2, s2, p2⟩⟩ := NB_drivers_shape b
    (alloc_plan b.R_h b.R_w kernel.width kernel.height dst).Dsrc_alloc_dim
    (alloc_plan b.R_h b.R_w kernel.width kernel.height dst).Ddst_alloc_dim
    (alloc_plan b.R_h b.R_w kernel.width kernel.height dst).ker_dim src kernel dst 0
    (4 * (alloc_plan b.R_h b.R_w kernel.width kernel.height dst).dev_src_size)
  obtain ⟨-, -, t1, t2⟩ := NB_drivers_tiles b
    (alloc_plan b.R_h b.R_w kernel.width kernel.height dst).Dsrc_alloc_dim
    (alloc_plan b.R_h b.R_w kernel.width kernel.height dst).Ddst_alloc_dim
    (alloc_plan b.R_h b.R_w kernel.width kernel.height dst).ker_dim src kernel dst 0
    (4 * (alloc_plan b.R_h b.R_w kernel.width kernel.height dst).dev_src_size)
  rw [NB_engine_ok b (fun _ => false) src kernel dst rfl]
  by_cases hc : kernel.width = 2 * b.R_w + 1 ∧ kernel.height = 2 * b.R_h + 1
  · rw [if_pos hc]
    refine ⟨_, rfl, l1, s1, t1, ?_⟩
    rw [p1]
    simp only [hc, and_self, and_true]
  · rw [if_neg hc]
    refine ⟨_, rfl, l2, s2, t2, ?_⟩
    rw [p2]
    have hn : ¬ (b = Bucket.R16x8 ∧ kernel.width = 2 * b.R_w + 1 ∧ kernel.height = 2 * b.R_h + 1) :=
      fun h => hc h.2
    simp only [hn, if_false]

/-! ## Where the staging copies land (C27, C28) -/

/-- The slots as a border-constant driver leaves them: after the main loop
the slot drained is `Dmem3` if it is leading and `Dmem4` otherwise; in the
first case the driver sets `Dmem3->_using = true`, in the second
`Dmem4->_using = false`. -/
theorem main_loop_BC_state (main_loop_regulable_R_mk : MainLoop) (k : Stencil)
    (src_diff : Option int2) (R_h R_w : Nat) (Dsrc_alloc_dim Ddst_alloc_dim ker_dim : int2)
    (src kernel dst : MatrixArray) (m : Dmems) :
    (main_loop_BC main_loop_regulable_R_mk k src_diff R_h R_w Dsrc_alloc_dim Ddst_alloc_dim
        ker_dim src kernel dst m).1
      = if (main_loop_regulable_R_mk
              (main_loop_args_BC k src_diff R_h R_w Dsrc_alloc_dim Ddst_alloc_dim ker_dim src
                kernel dst m) (mark_Dmem1 m)).1.Dmem3.leading then
          { (main_loop_regulable_R_mk
              (main_loop_args_BC k src_diff R_h R_w Dsrc_alloc_dim Ddst_alloc_dim ker_dim src
                kernel dst m) (mark_Dmem1 m)).1 with
            Dmem3 := { (main_loop_regulable_R_mk
              (main_loop_args_BC k src_diff R_h R_w Dsrc_alloc_dim Ddst_alloc_dim ker_dim src
                kernel dst m) (mark_Dmem1 m)).1.Dmem3 with _using := true } }
        else
          { (main_loop_regulable_R_mk
              (main_loop_args_BC k src_diff R_h R_w Dsrc_alloc_dim Ddst_alloc_dim ker_dim src
                kernel dst m) (mark_Dmem1 m)).1 with
            Dmem4 := { (main_loop_regulable_R_mk
              (main_loop_args_BC k src_diff R_h R_w Dsrc_alloc_dim Ddst_alloc_dim ker_dim src
                kernel dst m) (mark_Dmem1 m)).1.Dmem4 with _using := false } } := by
  simp only [main_loop_BC, main_loop_args_BC, mark_Dmem1]
  split_ifs with h <;> rfl

/-- The two launches a border-constant driver writes at the call site of its
main loop: the first on the pair `Dmem1`/`Dmem3`, the second on the pair
`Dmem2`/`Dmem4`, both with `S[0]` as their stream. -/
theorem main_loop_args_BC_calls (k : Stencil) (src_diff : Option int2) (R_h R_w : Nat)
    (Dsrc_alloc_dim Ddst_alloc_dim ker_dim : int2) (src kernel dst : MatrixArray) (m : Dmems) :
    (main_loop_args_BC k src_diff R_h R_w Dsrc_alloc_dim Ddst_alloc_dim ker_dim src kernel dst
        m).call_A
      = { kernel := k, Dsrc := Ptr.dev m.Dmem1.mem, Ddst := Ptr.dev m.Dmem3.mem,
          src_diff := src_diff, Dsrc_alloc_dim := Dsrc_alloc_dim,
          Ddst_alloc_dim := Ddst_alloc_dim, ker_dim := ker_dim, const_offset := some 0,
          stream := StreamRef.pool 0 }
    ∧ (main_loop_args_BC k src_diff R_h R_w Dsrc_alloc_dim Ddst_alloc_dim ker_dim src kernel dst
        m).call_B
      = { kernel := k, Dsrc := Ptr.dev m.Dmem2.mem, Ddst := Ptr.dev m.Dmem4.mem,
          src_diff := src_diff, Dsrc_alloc_dim := Dsrc_alloc_dim,
          Ddst_alloc_dim := Ddst_alloc_dim, ker_dim := ker_dim, const_offset := some 0,
          stream := StreamRef.pool 0 } :=
  ⟨rfl, rfl⟩

theorem launch_streams_append (a b : List Op) :
    launch_streams (a ++ b) = launch_streams a ++ launch_streams b := by
  induction a with
  | nil => rfl
  | cons op ops ih =>
    rw [List.cons_append]
    cases op <;> simp [launch_streams, ih]

theorem launch_streams_upload_loop (kind : cudaMemcpyKind) (stream : StreamRef) (kw kp : Nat) :
    ∀ (todo lin ker : Nat), launch_streams (upload_loop kind stream kw kp todo lin ker) = [] := by
  intro todo
  induction todo with
  | zero => intro _ _; rfl
  | succ todo ih =>
    intro lin ker
    rw [upload_loop]
    exact ih _ _

/-- The launches of a border-constant engine are those of its main loop, and
the main loop is handed two calls on `S[0]`. -/
theorem BC_engine_launch_streams (b : Bucket) (main_loop_regulable_R_mk : MainLoop)
    (init : Dmems) (src kernel dst : MatrixArray) :
    ∃ a : MainLoopArgs, ∃ m : Dmems,
      a.call_A.stream = StreamRef.pool 0 ∧ a.call_B.stream = StreamRef.pool 0
      ∧ launch_streams (_Conv2_BC_MK b main_loop_regulable_R_mk init src kernel dst)
          = launch_streams (main_loop_regulable_R_mk a m).2 := by
  have h3 : ∀ n, launch_streams [Op.cudaMalloc n, Op.stream_accessor_ptr 0,
      Op.stream_accessor_ptr 1, Op.stream_accessor_ptr 2] = [] := fun _ => rfl
  have h4 : launch_streams [Op.cudaFree, Op.detach 0, Op.detach 1, Op.detach 2] = [] := rfl
  have h7 : ∀ R_h R_w D src m,
      launch_streams [stage0_BC R_h R_w D src m, Op.cudaDeviceSynchronize] = [] :=
    fun _ _ _ _ _ => rfl
  have h8 : ∀ D dst sl, launch_streams [drain_BC D dst sl, Op.cudaDeviceSynchronize] = [] :=
    fun _ _ _ => rfl
  rw [BC_engine_ops, launch_streams_append, launch_streams_append, launch_streams_append,
    launch_streams_upload_loop, h3, h4]
  simp only [List.nil_append, List.append_nil]
  split_ifs
  · rw [(BC_drivers_eq b main_loop_regulable_R_mk _ _ _ src kernel dst _).1, main_loop_BC_ops,
      launch_streams_append, launch_streams_append, h7, h8, List.nil_append, List.append_nil]
    exact ⟨_, _, rfl, rfl, rfl⟩
  · rw [(BC_drivers_eq b main_loop_regulable_R_mk _ _ _ src kernel dst _).2, main_loop_BC_ops,
      launch_streams_append, launch_streams_append, h7, h8, List.nil_append, List.append_nil]
    exact ⟨_, _, rfl, rfl, rfl⟩

/-- C22, as amended: stream roles in every border-constant driver.  The
driver issues the initial staging on `S[0]`, hands its main loop the launch
on the pair `Dmem1`/`Dmem3` and the launch on the pair `Dmem2`/`Dmem4`, both
on `S[0]`, and issues the final drain on `S[2]`.  In an engine whose main
loop launches on the streams of the calls it is handed, every launch of the
run is on `S[0]`. -/
theorem C22_BC_stream_roles (b : Bucket) (main_loop_regulable_R_mk : MainLoop) (init m : Dmems)
    (Dsrc_alloc_dim Ddst_alloc_dim ker_dim : int2) (src kernel dst : MatrixArray)
    (hml : ∀ a m, ∀ s ∈ launch_streams (main_loop_regulable_R_mk a m).2,
      s = a.call_A.stream ∨ s = a.call_B.stream) :
    (∃ a_exact a_within : MainLoopArgs, ∃ slot_exact slot_within : MIF,
      (main_loop_sconv2_mk_exact_BC b main_loop_regulable_R_mk Dsrc_alloc_dim Ddst_alloc_dim
          ker_dim src kernel dst m).2
        = [stage0_BC b.R_h b.R_w Dsrc_alloc_dim src m, Op.cudaDeviceSynchronize]
          ++ (main_loop_regulable_R_mk a_exact (mark_Dmem1 m)).2
          ++ [drain_BC Ddst_alloc_dim dst slot_exact, Op.cudaDeviceSynchronize]
      ∧ (main_loop_sconv2_mk_within_BC b main_loop_regulable_R_mk Dsrc_alloc_dim Ddst_alloc_dim
          ker_dim src kernel dst m).2
        = [stage0_BC b.R_h b.R_w Dsrc_alloc_dim src m, Op.cudaDeviceSynchronize]
          ++ (main_loop_regulable_R_mk a_within (mark_Dmem1 m)).2
          ++ [drain_BC Ddst_alloc_dim dst slot_within, Op.cudaDeviceSynchronize]
      ∧ (a_exact.call_A.Dsrc = Ptr.dev m.Dmem1.mem ∧ a_exact.call_A.Ddst = Ptr.dev m.Dmem3.mem
          ∧ a_exact.call_A.stream = StreamRef.pool 0)
      ∧ (a_exact.call_B.Dsrc = Ptr.dev m.Dmem2.mem ∧ a_exact.call_B.Ddst = Ptr.dev m.Dmem4.mem
          ∧ a_exact.call_B.stream = StreamRef.pool 0)
      ∧ (a_within.call_A.Dsrc = Ptr.dev m.Dmem1.mem ∧ a_within.call_A.Ddst = Ptr.dev m.Dmem3.mem
          ∧ a_within.call_A.stream = StreamRef.pool 0)
      ∧ (a_within.call_B.Dsrc = Ptr.dev m.Dmem2.mem ∧ a_within.call_B.Ddst = Ptr.dev m.Dmem4.mem
          ∧ a_within.call_B.stream = StreamRef.pool 0)
      ∧ op_streams [stage0_BC b.R_h b.R_w Dsrc_alloc_dim src m] = [StreamRef.pool 0]
      ∧ op_streams [drain_BC Ddst_alloc_dim dst slot_exact] = [StreamRef.pool 2]
      ∧ op_streams [drain_BC Ddst_alloc_dim dst slot_within] = [StreamRef.pool 2])
    ∧ ∀ s ∈ launch_streams (_Conv2_BC_MK b main_loop_regulable_R_mk init src kernel dst),
        s = StreamRef.pool 0 := by
  constructor
  · refine ⟨_, _, _, _,
      by rw [(BC_drivers_eq b main_loop_regulable_R_mk _ _ _ src kernel dst _).1,
        main_loop_BC_ops],
      by rw [(BC_drivers_eq b main_loop_regulable_R_mk _ _ _ src kernel dst _).2,
        main_loop_BC_ops],
      ⟨rfl, rfl, rfl⟩, ⟨rfl, rfl, rfl⟩, ⟨rfl, rfl, rfl⟩, ⟨rfl, rfl, rfl⟩, rfl, rfl, rfl⟩
  · intro s hs
    obtain ⟨a, m2, hA, hB, he⟩ := BC_engine_launch_streams b main_loop_regulable_R_mk init src
      kernel dst
    rw [he] at hs
    rcases hml a m2 s hs with h | h
    · rw [h, hA]
    · rw [h, hB]

/-- The ping-pong main loop launches the two calls it is handed, as they
are. -/
theorem pingpong_run_launch_streams (a : MainLoopArgs) :
    ∀ (k : Nat) (m : Dmems), ∀ s ∈ launch_streams (pingpong_run a k m).2,
      s = a.call_A.stream ∨ s = a.call_B.stream := by
  intro k
  induction k with
  | zero => intro m s hs; exact absurd hs (List.not_mem_nil _)
  | succ k ih =>
    intro m s hs
    rw [pingpong_run] at hs
    simp only [launch_streams_append, List.mem_append] at hs
    rcases hs with hs | hs
    · exact ih m s hs
    · unfold pingpong_step at hs
      simp only [] at hs
      split_ifs at hs <;>
        simp only [launch_streams, List.mem_cons, List.mem_singleton, List.not_mem_nil,
          or_false] at hs <;>
        first
          | exact Or.inl hs
          | exact Or.inr hs

theorem main_loop_pingpong_launch_streams (a : MainLoopArgs) (m : Dmems) :
    ∀ s ∈ launch_streams (main_loop_pingpong a m).2,
      s = a.call_A.stream ∨ s = a.call_B.stream :=
  pingpong_run_launch_streams a _ m

/-- Witness of C22 (amended): bucket R8x8, a stack of two 10 × 10 matrices,
the ping-pong main loop. -/
theorem C22_BC_stream_roles_witness :
    let b := Bucket.R8x8
    let m := slice_Dmems Dmems_clear (alloc_plan 8 8 3 3 ⟨10, 10, 12, 2⟩)
    let Dsrc_alloc_dim : int2 := ⟨20, 32⟩
    let Ddst_alloc_dim : int2 := ⟨16, 16⟩
    let ker_dim : int2 := ⟨3, 3⟩
    let src : MatrixArray := ⟨10, 10, 12, 2⟩
    let kernel : MatrixArray := ⟨3, 3, 4, 2⟩
    let dst : MatrixArray := ⟨10, 10, 12, 2⟩
    (∃ a_exact a_within : MainLoopArgs, ∃ slot_exact slot_within : MIF,
      (main_loop_sconv2_mk_exact_BC b main_loop_pingpong Dsrc_alloc_dim Ddst_alloc_dim
          ker_dim src kernel dst m).2
        = [stage0_BC b.R_h b.R_w Dsrc_alloc_dim src m, Op.cudaDeviceSynchronize]
          ++ (main_loop_pingpong a_exact (mark_Dmem1 m)).2
          ++ [drain_BC Ddst_alloc_dim dst slot_exact, Op.cudaDeviceSynchronize]
      ∧ (main_loop_sconv2_mk_within_BC b main_loop_pingpong Dsrc_alloc_dim Ddst_alloc_dim
          ker_dim src kernel dst m).2
        = [stage0_BC b.R_h b.R_w Dsrc_alloc_dim src m, Op.cudaDeviceSynchronize]
          ++ (main_loop_pingpong a_within (mark_Dmem1 m)).2
          ++ [drain_BC Ddst_alloc_dim dst slot_within, Op.cudaDeviceSynchronize]
      ∧ (a_exact.call_A.Dsrc = Ptr.dev m.Dmem1.mem ∧ a_exact.call_A.Ddst = Ptr.dev m.Dmem3.mem
          ∧ a_exact.call_A.stream = StreamRef.pool 0)
      ∧ (a_exact.call_B.Dsrc = Ptr.dev m.Dmem2.mem ∧ a_exact.call_B.Ddst = Ptr.dev m.Dmem4.mem
          ∧ a_exact.call_B.stream = StreamRef.pool 0)
      ∧ (a_within.call_A.Dsrc = Ptr.dev m.Dmem1.mem ∧ a_within.call_A.Ddst = Ptr.dev m.Dmem3.mem
          ∧ a_within.call_A.stream = StreamRef.pool 0)
      ∧ (a_within.call_B.Dsrc = Ptr.dev m.Dmem2.mem ∧ a_within.call_B.Ddst = Ptr.dev m.Dmem4.mem
          ∧ a_within.call_B.stream = StreamRef.pool 0)
      ∧ op_streams [stage0_BC b.R_h b.R_w Dsrc_alloc_dim src m] = [StreamRef.pool 0]
      ∧ op_streams [drain_BC Ddst_alloc_dim dst slot_exact] = [StreamRef.pool 2]
      ∧ op_streams [drain_BC Ddst_alloc_dim dst slot_within] = [StreamRef.pool 2])
    ∧ ∀ s ∈ launch_streams (_Conv2_BC_MK b main_loop_pingpong Dmems_clear src kernel dst),
        s = StreamRef.pool 0 :=
  C22_BC_stream_roles Bucket.R8x8 main_loop_pingpong Dmems_clear
    (slice_Dmems Dmems_clear (alloc_plan 8 8 3 3 ⟨10, 10, 12, 2⟩)) ⟨20, 32⟩ ⟨16, 16⟩ ⟨3, 3⟩
    ⟨10, 10, 12, 2⟩ ⟨3, 3, 4, 2⟩ ⟨10, 10, 12, 2⟩ main_loop_pingpong_launch_streams

set_option maxRecDepth 100000 in
/-- Counterexample to C22 as stated: the launch on buffer pair B, as written
in `main_loop_sconv2_mk_within8x8_BC`, has `S[0]` as its stream, not `S[1]`;
in the run of the R8x8 engine on a stack of two 10 × 10 matrices (ping-pong
main loop) the two launches are on the pairs `(0, 5120)` and `(2560, 6144)`
of the allocation, and both are on `S[0]`. -/
theorem C22_counterexample :
    (main_loop_args_BC Stencil.within8x8 (some ⟨7, 7⟩) 8 8 ⟨20, 32⟩ ⟨16, 16⟩ ⟨3, 3⟩
        ⟨10, 10, 12, 2⟩ ⟨3, 3, 4, 2⟩ ⟨10, 10, 12, 2⟩
        (slice_Dmems Dmems_clear (alloc_plan 8 8 3 3 ⟨10, 10, 12, 2⟩))).call_B.stream
      = StreamRef.pool 0
    ∧ StreamRef.pool 0 ≠ StreamRef.pool 1
    ∧ launch_tiles (_Conv2_BC_MK Bucket.R8x8 main_loop_pingpong Dmems_clear ⟨10, 10, 12, 2⟩
        ⟨3, 3, 4, 2⟩ ⟨10, 10, 12, 2⟩)
      = [(Ptr.dev 0, Ptr.dev 5120), (Ptr.dev 2560, Ptr.dev 6144)]
    ∧ launch_streams (_Conv2_BC_MK Bucket.R8x8 main_loop_pingpong Dmems_clear ⟨10, 10, 12, 2⟩
        ⟨3, 3, 4, 2⟩ ⟨10, 10, 12, 2⟩)
      = [StreamRef.pool 0, StreamRef.pool 0] := by
  decide

/-! ## The ping-pong flags (C23) -/

/-- One iteration of the ping-pong main loop, on the `leading` flags: the
computed pair's destination slot becomes the leading one, and `leading`
flips on the source pair. -/
theorem pingpong_step_leading (a : MainLoopArgs) (i : Nat) (m : Dmems) :
    (pingpong_step a i m).1.Dmem1.leading = !m.Dmem1.leading
    ∧ (pingpong_step a i m).1.Dmem2.leading = m.Dmem1.leading
    ∧ (pingpong_step a i m).1.Dmem3.leading = m.Dmem1.leading
    ∧ (pingpong_step a i m).1.Dmem4.leading = !m.Dmem1.leading := by
  unfold pingpong_step
  simp only []
  split_ifs <;> exact ⟨rfl, rfl, rfl, rfl⟩

/-- The `leading` flags after `k + 1` iterations of the ping-pong main loop
entered with `Dmem1` leading: pair B's source and pair A's destination after
an odd number of iterations, pair A's source and pair B's destination after
an even number. -/
theorem pingpong_run_leading (a : MainLoopArgs) (m : Dmems) (hm : m.Dmem1.leading = true) :
    ∀ k : Nat,
      (pingpong_run a (k + 1) m).1.Dmem1.leading = decide (k % 2 = 1)
      ∧ (pingpong_run a (k + 1) m).1.Dmem2.leading = decide (k % 2 = 0)
      ∧ (pingpong_run a (k + 1) m).1.Dmem3.leading = decide (k % 2 = 0)
      ∧ (pingpong_run a (k + 1) m).1.Dmem4.leading = decide (k % 2 = 1) := by
  intro k
  induction k with
  | zero =>
    obtain ⟨h1, h2, h3, h4⟩ := pingpong_step_leading a 0 m
    have e : pingpong_run a 1 m = ((pingpong_step a 0 m).1, [] ++ (pingpong_step a 0 m).2) := rfl
    rw [e]
    simp only [h1, h2, h3, h4, hm]
    decide
  | succ k ih =>
    obtain ⟨h1, h2, h3, h4⟩ := pingpong_step_leading a (k + 1) (pingpong_run a (k + 1) m).1
    have e : pingpong_run a (k + 1 + 1) m
        = ((pingpong_step a (k + 1) (pingpong_run a (k + 1) m).1).1,
            (pingpong_run a (k + 1) m).2
              ++ (pingpong_step a (k + 1) (pingpong_run a (k + 1) m).1).2) := rfl
    rw [e]
    simp only [h1, h2, h3, h4, ih.1]
    have p1 : (k + 1) % 2 = 1 ↔ ¬ (k % 2 = 1) := by omega
    have p0 : (k + 1) % 2 = 0 ↔ k % 2 = 1 := by omega
    simp only [p1, p0, decide_not, and_self]

/-- A run of the ping-pong main loop keeps at most one slot per role
leading, from any entry state that does. -/
theorem pingpong_run_one_leading (a : MainLoopArgs) (m : Dmems)
    (hm : m.one_leading_per_role = true) :
    ∀ k : Nat, (pingpong_run a k m).1.one_leading_per_role = true := by
  intro k
  cases k with
  | zero => exact hm
  | succ k =>
    obtain ⟨h1, h2, h3, h4⟩ := pingpong_step_leading a k (pingpong_run a k m).1
    have e : pingpong_run a (k + 1) m
        = ((pingpong_step a k (pingpong_run a k m).1).1,
            (pingpong_run a k m).2 ++ (pingpong_step a k (pingpong_run a k m).1).2) := rfl
    rw [e]
    simp only [Dmems.one_leading_per_role, h1, h2, h3, h4]
    cases (pingpong_run a k m).1.Dmem1.leading <;> rfl

/-- C23, on the ping-pong main loop of the spec: the ping-pong invariant of
the border-constant drivers.  Enter either driver of any bucket with no slot
leading, as freshly declared slots are.  At most one source slot and at most
one destination slot is leading on entry, after the driver has marked `Dmem1`
as leading, after each iteration of the main loop, and when the driver
returns.  The leading slot of each role alternates with every iteration:
after an odd number of iterations `Dmem2` and `Dmem3` lead, after an even
number `Dmem1` and `Dmem4`. -/
theorem C23_pingpong_invariant (b : Bucket) (Dsrc_alloc_dim Ddst_alloc_dim ker_dim : int2)
    (src kernel dst : MatrixArray) (m : Dmems) (a : MainLoopArgs)
    (hm : m.Dmem1.leading = false ∧ m.Dmem2.leading = false ∧ m.Dmem3.leading = false
      ∧ m.Dmem4.leading = false) :
    m.one_leading_per_role = true
    ∧ (mark_Dmem1 m).one_leading_per_role = true
    ∧ (∀ k, (pingpong_run a k (mark_Dmem1 m)).1.one_leading_per_role = true)
    ∧ (main_loop_sconv2_mk_exact_BC b main_loop_pingpong Dsrc_alloc_dim Ddst_alloc_dim ker_dim
        src kernel dst m).1.one_leading_per_role = true
    ∧ (main_loop_sconv2_mk_within_BC b main_loop_pingpong Dsrc_alloc_dim Ddst_alloc_dim ker_dim
        src kernel dst m).1.one_leading_per_role = true
    ∧ ∀ k,
        (pingpong_run a (k + 1) (mark_Dmem1 m)).1.Dmem1.leading = decide (k % 2 = 1)
        ∧ (pingpong_run a (k + 1) (mark_Dmem1 m)).1.Dmem2.leading = decide (k % 2 = 0)
        ∧ (pingpong_run a (k + 1) (mark_Dmem1 m)).1.Dmem3.leading = decide (k % 2 = 0)
        ∧ (pingpong_run a (k + 1) (mark_Dmem1 m)).1.Dmem4.leading = decide (k % 2 = 1) := by
  obtain ⟨m1, m2, m3, m4⟩ := hm
  have h0 : m.one_leading_per_role = true := by
    simp [Dmems.one_leading_per_role, m1, m2, m3, m4]
  have h1 : (mark_Dmem1 m).one_leading_per_role = true := by
    simp [Dmems.one_leading_per_role, mark_Dmem1, m2, m3, m4]
  have hfin : ∀ (k : Stencil) (sd : Option int2),
      (main_loop_BC main_loop_pingpong k sd b.R_h b.R_w Dsrc_alloc_dim Ddst_alloc_dim ker_dim
        src kernel dst m).1.one_leading_per_role = true := by
    intro k sd
    have hr := pingpong_run_one_leading
      (main_loop_args_BC k sd b.R_h b.R_w Dsrc_alloc_dim Ddst_alloc_dim ker_dim src kernel dst m)
      (mark_Dmem1 m) h1
      (main_loop_args_BC k sd b.R_h b.R_w Dsrc_alloc_dim Ddst_alloc_dim ker_dim src kernel dst
        m).src.ArrayNumber
    rw [main_loop_BC_state]
    split_ifs <;> exact hr
  refine ⟨h0, h1, pingpong_run_one_leading a _ h1, ?_, ?_,
    pingpong_run_leading a (mark_Dmem1 m) rfl⟩
  · rw [(BC_drivers_eq b main_loop_pingpong _ _ _ src kernel dst _).1]
    exact hfin _ _
  · rw [(BC_drivers_eq b main_loop_pingpong _ _ _ src kernel dst _).2]
    exact hfin _ _

/-- Witness of C23: bucket R8x8, a stack of three 10 × 10 matrices, slots
with all flags cleared. -/
theorem C23_pingpong_invariant_witness :
    let b := Bucket.R8x8
    let Dsrc_alloc_dim : int2 := ⟨20, 32⟩
    let Ddst_alloc_dim : int2 := ⟨16, 16⟩
    let ker_dim : int2 := ⟨3, 3⟩
    let src : MatrixArray := ⟨10, 10, 12, 3⟩
    let kernel : MatrixArray := ⟨3, 3, 4, 3⟩
    let dst : MatrixArray := ⟨10, 10, 12, 3⟩
    let m := slice_Dmems Dmems_clear (alloc_plan 8 8 3 3 ⟨10, 10, 12, 3⟩)
    let a := main_loop_args_BC Stencil.within8x8 (some ⟨7, 7⟩) 8 8 Dsrc_alloc_dim Ddst_alloc_dim
      ker_dim src kernel dst m
    m.one_leading_per_role = true
    ∧ (mark_Dmem1 m).one_leading_per_role = true
    ∧ (∀ k, (pingpong_run a k (mark_Dmem1 m)).1.one_leading_per_role = true)
    ∧ (main_loop_sconv2_mk_exact_BC b main_loop_pingpong Dsrc_alloc_dim Ddst_alloc_dim ker_dim
        src kernel dst m).1.one_leading_per_role = true
    ∧ (main_loop_sconv2_mk_within_BC b main_loop_pingpong Dsrc_alloc_dim Ddst_alloc_dim ker_dim
        src kernel dst m).1.one_leading_per_role = true
    ∧ ∀ k,
        (pingpong_run a (k + 1) (mark_Dmem1 m)).1.Dmem1.leading = decide (k % 2 = 1)
        ∧ (pingpong_run a (k + 1) (mark_Dmem1 m)).1.Dmem2.leading = decide (k % 2 = 0)
        ∧ (pingpong_run a (k + 1) (mark_Dmem1 m)).1.Dmem3.leading = decide (k % 2 = 0)
        ∧ (pingpong_run a (k + 1) (mark_Dmem1 m)).1.Dmem4.leading = decide (k % 2 = 1) :=
  C23_pingpong_invariant Bucket.R8x8 ⟨20, 32⟩ ⟨16, 16⟩ ⟨3, 3⟩ ⟨10, 10, 12, 3⟩ ⟨3, 3, 4, 3⟩
    ⟨10, 10, 12, 3⟩ (slice_Dmems Dmems_clear (alloc_plan 8 8 3 3 ⟨10, 10, 12, 3⟩))
    (main_loop_args_BC Stencil.within8x8 (some ⟨7, 7⟩) 8 8 ⟨20, 32⟩ ⟨16, 16⟩ ⟨3, 3⟩
      ⟨10, 10, 12, 3⟩ ⟨3, 3, 4, 3⟩ ⟨10, 10, 12, 3⟩
      (slice_Dmems Dmems_clear (alloc_plan 8 8 3 3 ⟨10, 10, 12, 3⟩)))
    ⟨rfl, rfl, rfl, rfl⟩

/-! ## The final drain (C24, C25) -/

/-- Both border-constant drivers of a bucket, for any main loop: with `r` the
slots as the main loop leaves them, the run ends with the drain from `Dmem3`
if `r.Dmem3` is leading and from `Dmem4` otherwise, followed by a barrier,
and the driver leaves the slots as `r` with `Dmem3->_using = true` in the
first case and `Dmem4->_using = false` in the second. -/
theorem BC_drivers_end (b : Bucket) (main_loop_regulable_R_mk : MainLoop)
    (Dsrc_alloc_dim Ddst_alloc_dim ker_dim : int2) (src kernel dst : MatrixArray) (m : Dmems) :
    (∃ (a : MainLoopArgs),
      (main_loop_sconv2_mk_exact_BC b main_loop_regulable_R_mk Dsrc_alloc_dim Ddst_alloc_dim
          ker_dim src kernel dst m).2
        = [stage0_BC b.R_h b.R_w Dsrc_alloc_dim src m, Op.cudaDeviceSynchronize]
          ++ (main_loop_regulable_R_mk a (mark_Dmem1 m)).2
          ++ [drain_BC Ddst_alloc_dim dst
                (if (main_loop_regulable_R_mk a (mark_Dmem1 m)).1.Dmem3.leading then
                  (main_loop_regulable_R_mk a (mark_Dmem1 m)).1.Dmem3
                 else (main_loop_regulable_R_mk a (mark_Dmem1 m)).1.Dmem4),
              Op.cudaDeviceSynchronize]
      ∧ (main_loop_sconv2_mk_exact_BC b main_loop_regulable_R_mk Dsrc_alloc_dim Ddst_alloc_dim
          ker_dim src kernel dst m).1
        = if (main_loop_regulable_R_mk a (mark_Dmem1 m)).1.Dmem3.leading then
            { (main_loop_regulable_R_mk a (mark_Dmem1 m)).1 with
              Dmem3 := { (main_loop_regulable_R_mk a (mark_Dmem1 m)).1.Dmem3 with
                _using := true } }
          else
            { (main_loop_regulable_R_mk a (mark_Dmem1 m)).1 with
              Dmem4 := { (main_loop_regulable_R_mk a (mark_Dmem1 m)).1.Dmem4 with
                _using := false } })
    ∧ ∃ (a : MainLoopArgs),
        (main_loop_sconv2_mk_within_BC b main_loop_regulable_R_mk Dsrc_alloc_dim Ddst_alloc_dim
            ker_dim src kernel dst m).2
          = [stage0_BC b.R_h b.R_w Dsrc_alloc_dim src m, Op.cudaDeviceSynchronize]
            ++ (main_loop_regulable_R_mk a (mark_Dmem1 m)).2
            ++ [drain_BC Ddst_alloc_dim dst
                  (if (main_loop_regulable_R_mk a (mark_Dmem1 m)).1.Dmem3.leading then
                    (main_loop_regulable_R_mk a (mark_Dmem1 m)).1.Dmem3
                   else (main_loop_regulable_R_mk a (mark_Dmem1 m)).1.Dmem4),
                Op.cudaDeviceSynchronize]
        ∧ (main_loop_sconv2_mk_within_BC b main_loop_regulable_R_mk Dsrc_alloc_dim
            Ddst_alloc_dim ker_dim src kernel dst m).1
          = if (main_loop_regulable_R_mk a (mark_Dmem1 m)).1.Dmem3.leading then
              { (main_loop_regulable_R_mk a (mark_Dmem1 m)).1 with
                Dmem3 := { (main_loop_regulable_R_mk a (mark_Dmem1 m)).1.Dmem3 with
                  _using := true } }
            else
              { (main_loop_regulable_R_mk a (mark_Dmem1 m)).1 with
                Dmem4 := { (main_loop_regulable_R_mk a (mark_Dmem1 m)).1.Dmem4 with
                  _using := false } } := by
  rw [(BC_drivers_eq b main_loop_regulable_R_mk _ _ _ src kernel dst _).1,
    (BC_drivers_eq b main_loop_regulable_R_mk _ _ _ src kernel dst _).2]
  exact ⟨⟨_, main_loop_BC_ops _ _ _ _ _ _ _ _ _ _ _ _, main_loop_BC_state _ _ _ _ _ _ _ _ _ _ _ _⟩,
    ⟨_, main_loop_BC_ops _ _ _ _ _ _ _ _ _ _ _ _, main_loop_BC_state _ _ _ _ _ _ _ _ _ _ _ _⟩⟩

set_option maxRecDepth 100000 in
/-- C24, where the code departs from it.  In both drivers of every bucket the
slot the final drain reads from is `Dmem3` if `Dmem3` is leading after the
main loop, and then the driver sets `Dmem3->_using = true`; otherwise the
slot is `Dmem4`, and the driver sets `Dmem4->_using = false`: the slot being
drained is marked not in use.  On a stack of two 10 × 10 matrices (driver
`main_loop_sconv2_mk_within8x8_BC`, ping-pong main loop) the second result is
in `Dmem4`: the final drain reads it at float 6144 of the allocation, and the
driver returns with `Dmem4._using = false`. -/
theorem C24_final_drain_in_use (b : Bucket) (main_loop_regulable_R_mk : MainLoop)
    (Dsrc_alloc_dim Ddst_alloc_dim ker_dim : int2) (src kernel dst : MatrixArray) (m : Dmems) :
    (∃ r : Dmems, ∃ front,
      (main_loop_sconv2_mk_exact_BC b main_loop_regulable_R_mk Dsrc_alloc_dim Ddst_alloc_dim
          ker_dim src kernel dst m).2
        = front
          ++ [drain_BC Ddst_alloc_dim dst (if r.Dmem3.leading then r.Dmem3 else r.Dmem4),
              Op.cudaDeviceSynchronize]
      ∧ (main_loop_sconv2_mk_exact_BC b main_loop_regulable_R_mk Dsrc_alloc_dim Ddst_alloc_dim
          ker_dim src kernel dst m).1
        = if r.Dmem3.leading then { r with Dmem3 := { r.Dmem3 with _using := true } }
          else { r with Dmem4 := { r.Dmem4 with _using := false } })
    ∧ (∃ r : Dmems, ∃ front,
      (main_loop_sconv2_mk_within_BC b main_loop_regulable_R_mk Dsrc_alloc_dim Ddst_alloc_dim
          ker_dim src kernel dst m).2
        = front
          ++ [drain_BC Ddst_alloc_dim dst (if r.Dmem3.leading then r.Dmem3 else r.Dmem4),
              Op.cudaDeviceSynchronize]
      ∧ (main_loop_sconv2_mk_within_BC b main_loop_regulable_R_mk Dsrc_alloc_dim Ddst_alloc_dim
          ker_dim src kernel dst m).1
        = if r.Dmem3.leading then { r with Dmem3 := { r.Dmem3 with _using := true } }
          else { r with Dmem4 := { r.Dmem4 with _using := false } })
    ∧ (main_loop_sconv2_mk_within8x8_BC main_loop_pingpong ⟨20, 32⟩ ⟨16, 16⟩ ⟨3, 3⟩
          ⟨10, 10, 12, 2⟩ ⟨3, 3, 4, 2⟩ ⟨10, 10, 12, 2⟩
          (slice_Dmems Dmems_clear (alloc_plan 8 8 3 3 ⟨10, 10, 12, 2⟩))).2.getLast?
        = some Op.cudaDeviceSynchronize
    ∧ (main_loop_sconv2_mk_within8x8_BC main_loop_pingpong ⟨20, 32⟩ ⟨16, 16⟩ ⟨3, 3⟩
          ⟨10, 10, 12, 2⟩ ⟨3, 3, 4, 2⟩ ⟨10, 10, 12, 2⟩
          (slice_Dmems Dmems_clear (alloc_plan 8 8 3 3 ⟨10, 10, 12, 2⟩))).2.dropLast.getLast?
        = some (Op.cudaMemcpy2DAsync (Ptr.dst_mat 1) 48 (Ptr.dev 6144) 256 40 10
            cudaMemcpyKind.DeviceToHost (StreamRef.pool 2))
    ∧ (slice_Dmems Dmems_clear (alloc_plan 8 8 3 3 ⟨10, 10, 12, 2⟩)).Dmem4.mem = 6144
    ∧ (main_loop_sconv2_mk_within8x8_BC main_loop_pingpong ⟨20, 32⟩ ⟨16, 16⟩ ⟨3, 3⟩
          ⟨10, 10, 12, 2⟩ ⟨3, 3, 4, 2⟩ ⟨10, 10, 12, 2⟩
          (slice_Dmems Dmems_clear (alloc_plan 8 8 3 3 ⟨10, 10, 12, 2⟩))).1.Dmem3.leading = false
    ∧ (main_loop_sconv2_mk_within8x8_BC main_loop_pingpong ⟨20, 32⟩ ⟨16, 16⟩ ⟨3, 3⟩
          ⟨10, 10, 12, 2⟩ ⟨3, 3, 4, 2⟩ ⟨10, 10, 12, 2⟩
          (slice_Dmems Dmems_clear (alloc_plan 8 8 3 3 ⟨10, 10, 12, 2⟩))).1.Dmem4._using
        = false := by
  obtain ⟨⟨a1, o1, s1⟩, ⟨a2, o2, s2⟩⟩ := BC_drivers_end b main_loop_regulable_R_mk
    Dsrc_alloc_dim Ddst_alloc_dim ker_dim src kernel dst m
  exact ⟨⟨_, _, o1, s1⟩, ⟨_, _, o2, s2⟩, by decide, by decide, by decide, by decide, by decide⟩

/-- C25: the final drain of every border-constant driver.  On a destination
stack of `n + 1` matrices (a count that fits an `unsigned int`), after what
the main loop issues, both drivers of every bucket enqueue exactly one copy
and then a barrier.  The copy is device to host, on `S[2]`; it reads slot
`Dmem3` if `Dmem3` is leading after the main loop and `Dmem4` otherwise,
writes destination element `n`, and copies `dst.height` rows of `dst.width`
floats at a device row pitch of `4 * Ddst_alloc_dim.x` floats and a host row
pitch of `dst.pitch` floats. -/
theorem C25_BC_final_drain (b : Bucket) (main_loop_regulable_R_mk : MainLoop)
    (Dsrc_alloc_dim Ddst_alloc_dim ker_dim : int2) (src kernel : MatrixArray) (w h p n : Nat)
    (m : Dmems) (hn : n + 1 < 4294967296) :
    (∃ a : MainLoopArgs,
      (main_loop_sconv2_mk_exact_BC b main_loop_regulable_R_mk Dsrc_alloc_dim Ddst_alloc_dim
          ker_dim src kernel ⟨w, h, p, n + 1⟩ m).2
        = [stage0_BC b.R_h b.R_w Dsrc_alloc_dim src m, Op.cudaDeviceSynchronize]
          ++ (main_loop_regulable_R_mk a (mark_Dmem1 m)).2
          ++ [Op.cudaMemcpy2DAsync (Ptr.dst_mat n) (p * sizeof_float)
                (Ptr.dev
                  (if (main_loop_regulable_R_mk a (mark_Dmem1 m)).1.Dmem3.leading then
                    (main_loop_regulable_R_mk a (mark_Dmem1 m)).1.Dmem3.mem
                   else (main_loop_regulable_R_mk a (mark_Dmem1 m)).1.Dmem4.mem))
                (4 * Ddst_alloc_dim.x * sizeof_float) (w * sizeof_float) h
                cudaMemcpyKind.DeviceToHost (StreamRef.pool 2),
              Op.cudaDeviceSynchronize])
    ∧ ∃ a : MainLoopArgs,
        (main_loop_sconv2_mk_within_BC b main_loop_regulable_R_mk Dsrc_alloc_dim Ddst_alloc_dim
            ker_dim src kernel ⟨w, h, p, n + 1⟩ m).2
          = [stage0_BC b.R_h b.R_w Dsrc_alloc_dim src m, Op.cudaDeviceSynchronize]
            ++ (main_loop_regulable_R_mk a (mark_Dmem1 m)).2
            ++ [Op.cudaMemcpy2DAsync (Ptr.dst_mat n) (p * sizeof_float)
                  (Ptr.dev
                    (if (main_loop_regulable_R_mk a (mark_Dmem1 m)).1.Dmem3.leading then
                      (main_loop_regulable_R_mk a (mark_Dmem1 m)).1.Dmem3.mem
                     else (main_loop_regulable_R_mk a (mark_Dmem1 m)).1.Dmem4.mem))
                  (4 * Ddst_alloc_dim.x * sizeof_float) (w * sizeof_float) h
                  cudaMemcpyKind.DeviceToHost (StreamRef.pool 2),
                Op.cudaDeviceSynchronize] := by
  have hd : ∀ (sl1 sl2 : MIF) (c : Bool),
      drain_BC Ddst_alloc_dim ⟨w, h, p, n + 1⟩ (if c then sl1 else sl2)
        = Op.cudaMemcpy2DAsync (Ptr.dst_mat n) (p * sizeof_float)
            (Ptr.dev (if c then sl1.mem else sl2.mem))
            (4 * Ddst_alloc_dim.x * sizeof_float) (w * sizeof_float) h
            cudaMemcpyKind.DeviceToHost (StreamRef.pool 2) := by
    intro sl1 sl2 c
    have hu : usub ((n + 1 : Nat) : Int) 1 = n := by
      unfold usub UINT_RANGE
      omega
    have hpitch : Ddst_alloc_dim.x * (sizeof_float4 : Int)
        = 4 * Ddst_alloc_dim.x * (sizeof_float : Int) := by
      simp only [sizeof_float4, sizeof_float]
      push_cast
      ring
    cases c <;> simp only [drain_BC, hu, hpitch] <;> rfl
  obtain ⟨⟨a1, o1, -⟩, ⟨a2, o2, -⟩⟩ := BC_drivers_end b main_loop_regulable_R_mk
    Dsrc_alloc_dim Ddst_alloc_dim ker_dim src kernel ⟨w, h, p, n + 1⟩ m
  refine ⟨⟨a1, ?_⟩, ⟨a2, ?_⟩⟩
  · rw [o1, hd]
  · rw [o2, hd]

/-- Witness of C25: bucket R16x16, a destination stack of three 10 × 10
matrices, the ping-pong main loop. -/
theorem C25_BC_final_drain_witness :
    let b := Bucket.R16x16
    let Dsrc_alloc_dim : int2 := ⟨24, 48⟩
    let Ddst_alloc_dim : int2 := ⟨16, 16⟩
    let ker_dim : int2 := ⟨19, 19⟩
    let src : MatrixArray := ⟨10, 10, 12, 3⟩
    let kernel : MatrixArray := ⟨19, 19, 20, 3⟩
    let m := slice_Dmems Dmems_clear (alloc_plan 16 16 19 19 ⟨10, 10, 12, 3⟩)
    (∃ a : MainLoopArgs,
      (main_loop_sconv2_mk_exact_BC b main_loop_pingpong Dsrc_alloc_dim Ddst_alloc_dim
          ker_dim src kernel ⟨10, 10, 12, 2 + 1⟩ m).2
        = [stage0_BC b.R_h b.R_w Dsrc_alloc_dim src m, Op.cudaDeviceSynchronize]
          ++ (main_loop_pingpong a (mark_Dmem1 m)).2
          ++ [Op.cudaMemcpy2DAsync (Ptr.dst_mat 2) (12 * sizeof_float)
                (Ptr.dev
                  (if (main_loop_pingpong a (mark_Dmem1 m)).1.Dmem3.leading then
                    (main_loop_pingpong a (mark_Dmem1 m)).1.Dmem3.mem
                   else (main_loop_pingpong a (mark_Dmem1 m)).1.Dmem4.mem))
                (4 * Ddst_alloc_dim.x * sizeof_float) (10 * sizeof_float) 10
                cudaMemcpyKind.DeviceToHost (StreamRef.pool 2),
              Op.cudaDeviceSynchronize])
    ∧ ∃ a : MainLoopArgs,
        (main_loop_sconv2_mk_within_BC b main_loop_pingpong Dsrc_alloc_dim Ddst_alloc_dim
            ker_dim src kernel ⟨10, 10, 12, 2 + 1⟩ m).2
          = [stage0_BC b.R_h b.R_w Dsrc_alloc_dim src m, Op.cudaDeviceSynchronize]
            ++ (main_loop_pingpong a (mark_Dmem1 m)).2
            ++ [Op.cudaMemcpy2DAsync (Ptr.dst_mat 2) (12 * sizeof_float)
                  (Ptr.dev
                    (if (main_loop_pingpong a (mark_Dmem1 m)).1.Dmem3.leading then
                      (main_loop_pingpong a (mark_Dmem1 m)).1.Dmem3.mem
                     else (main_loop_pingpong a (mark_Dmem1 m)).1.Dmem4.mem))
                  (4 * Ddst_alloc_dim.x * sizeof_float) (10 * sizeof_float) 10
                  cudaMemcpyKind.DeviceToHost (StreamRef.pool 2),
                Op.cudaDeviceSynchronize] :=
  C25_BC_final_drain Bucket.R16x16 main_loop_pingpong ⟨24, 48⟩ ⟨16, 16⟩ ⟨19, 19⟩
    ⟨10, 10, 12, 3⟩ ⟨19, 19, 20, 3⟩ 10 10 12 2
    (slice_Dmems Dmems_clear (alloc_plan 16 16 19 19 ⟨10, 10, 12, 3⟩)) (by decide)

/-- On a single source matrix, entered with `Dmem1` leading, the ping-pong
main loop issues what the single-matrix main loop issues, the launch on the
first pair, and leaves `Dmem3`, the slot the driver then drains, in the same
state. -/
theorem main_loop_pingpong_single (a : MainLoopArgs) (m : Dmems)
    (hN : a.src.ArrayNumber = 1) (hm : m.Dmem1.leading = true) :
    (main_loop_pingpong a m).2 = (main_loop_single a m).2
    ∧ (main_loop_pingpong a m).1.Dmem3 = (main_loop_single a m).1.Dmem3 := by
  have e : main_loop_pingpong a m = ((pingpong_step a 0 m).1, [] ++ (pingpong_step a 0 m).2) := by
    unfold main_loop_pingpong
    rw [hN]
    rfl
  rw [e]
  unfold pingpong_step
  simp only [hN, hm, main_loop_single]
  exact ⟨rfl, rfl⟩

end decx
